import Mathlib

/-!
# flashrom: chipset and mainboard flash-enable dispatch

A shallow embedding of `chipset_enable.c` and `board_enable.c`.

The C code talks to hardware and to the operating system.  Every such
interaction is modelled the same way: values that come *from* the outside
(register reads, port reads, results of system calls, the address returned by
a mapping) are taken from a list of responses `World.input`, one per request,
and every interaction is appended to `World.trace`.  Nothing is assumed about
the hardware: a register need not read back what was written to it.

Machine integers are `Nat` reduced modulo `2 ^ width`; C `int` is `Int`.
-/

namespace Flashrom

set_option autoImplicit false

/-! ## The world the program runs in -/

/-- One entry of libpci's device list `pacc->devices`: the bus address and the
identification words of a PCI function. -/
structure pci_dev where
  addr : Nat
  vendor_id : Nat
  device_id : Nat
  subsys_vendor : Nat
  subsys_device : Nat
deriving DecidableEq, Repr

/-- An argument of a `printf` call: a string, a character pointer that may be
null, or an integer. -/
inductive Arg where
  | s (x : String)
  | sp (x : Option String)
  | n (x : Int)
deriving DecidableEq, Repr

/-- An unsigned argument of a `printf` call. -/
def Arg.u (x : Nat) : Arg := Arg.n (Int.ofNat x)

/-- The interactions of the program with hardware, operating system and
terminal, in the order they happen. -/
inductive Event where
  | pci_read (width : Nat) (dev : Nat) (reg : Nat) (val : Nat)
  | pci_write (width : Nat) (dev : Nat) (reg : Nat) (val : Nat)
  | port_in (width : Nat) (port : Nat) (val : Nat)
  | port_out (width : Nat) (port : Nat) (val : Nat)
  | mem_read (width : Nat) (address : Nat) (val : Nat)
  | physmap (descr : String) (phys : Nat) (len : Nat) (virt : Nat)
  | munmap (virt : Nat) (len : Nat)
  | syscall (fn : String) (args : List Int) (result : Int)
  | printf (fmt : String) (args : List Arg)
  | fprintf_stderr (fmt : String) (args : List Arg)
  | perror (s : String)
  | call (fn : String)
deriving DecidableEq, Repr

/-- The type `flashbus_t`; only the constants named in `chipset_enable.c`. -/
inductive flashbus_t where
  | BUS_TYPE_LPC
  | BUS_TYPE_ICH7_SPI
  | BUS_TYPE_ICH9_SPI
  | BUS_TYPE_VIA_SPI
  | BUS_TYPE_SB600_SPI
deriving DecidableEq, Repr

/-- The global variables of the program together with its environment.
`spibar` and `sb600_spibar` are addresses, `0` being the null pointer. -/
structure World where
  devices : List pci_dev
  input : List Int
  trace : List Event
  verbose : Bool
  flashbase : Nat
  flashbus : flashbus_t
  spibar : Nat
  sb600_spibar : Nat
  ichspi_lock : Int
deriving DecidableEq, Repr

/-- How a piece of code ends: it returns a value, the process leaves through
`exit`, or a mapping of physical memory could not be established. -/
inductive Outcome (α : Type) where
  | ret (a : α)
  | exit (code : Int)
  | fatal (descr : String)
deriving DecidableEq, Repr

/-- A C function body: from the world before to its outcome and the world
after. -/
def M (α : Type) : Type := World → Outcome α × World

/-- Sequencing: the second part runs only if the first one returned. -/
def M.bind {α β : Type} (m : M α) (f : α → M β) : M β := fun w =>
  match m w with
  | (Outcome.ret a, w1) => f a w1
  | (Outcome.exit c, w1) => (Outcome.exit c, w1)
  | (Outcome.fatal d, w1) => (Outcome.fatal d, w1)

/-- Returning a value changes nothing. -/
def M.pure {α : Type} (a : α) : M α := fun w => (Outcome.ret a, w)

instance : Monad M where
  pure := M.pure
  bind := M.bind

/-- Append one interaction to the trace. -/
def emit (e : Event) : M Unit := fun w =>
  (Outcome.ret (), { w with trace := w.trace ++ [e] })

/-- Take the next response of the environment, reduced to `width` bytes. -/
def respond (width : Nat) (w : World) : Nat :=
  (w.input.headD 0 % (2 ^ (8 * width) : Nat)).toNat

/-- A request to the environment that yields a value of `width` bytes. -/
def request (width : Nat) (ev : Nat → Event) : M Nat := fun w =>
  (Outcome.ret (respond width w),
   { w with input := w.input.tail, trace := w.trace ++ [ev (respond width w)] })

/-- A system call: its integer result is whatever the environment answers. -/
def syscall (fn : String) (args : List Int) : M Int := fun w =>
  (Outcome.ret (w.input.headD 0),
   { w with input := w.input.tail,
            trace := w.trace ++ [Event.syscall fn args (w.input.headD 0)] })

/-! ## Primitives declared outside these sources -/

/-- Modelled from the spec: `pci_dev_find`, "locate a PCI device by
vendor/device id".  It walks the device list and yields the first function
with these two identification words, or nothing. -/
def pci_dev_find_in (devices : List pci_dev) (vendor device : Nat) : Option pci_dev :=
  devices.find? (fun d => d.vendor_id == vendor && d.device_id == device)

/-- The call `pci_dev_find(vendor, device)`: a look at `pacc->devices`. -/
def pci_dev_find (vendor device : Nat) : M (Option pci_dev) := fun w =>
  (Outcome.ret (pci_dev_find_in w.devices vendor device), w)

/-- Modelled from the spec: `pci_card_find`, "locate a PCI device by
vendor/device/subsystem-id".  The first function of the device list with these
identification words whose subsystem words are the given pair. -/
def pci_card_find_in (devices : List pci_dev)
    (vendor device card_vendor card_device : Nat) : Option pci_dev :=
  devices.find? (fun d => d.vendor_id == vendor && d.device_id == device
    && d.subsys_vendor == card_vendor && d.subsys_device == card_device)

/-- The call `pci_card_find(vendor, device, card_vendor, card_device)`. -/
def pci_card_find (vendor device card_vendor card_device : Nat) : M (Option pci_dev) :=
  fun w => (Outcome.ret (pci_card_find_in w.devices vendor device card_vendor card_device), w)

/-- Read a byte of PCI configuration space. -/
def pci_read_byte (dev : pci_dev) (reg : Nat) : M Nat :=
  request 1 (Event.pci_read 1 dev.addr reg)

/-- Read a 16-bit word of PCI configuration space. -/
def pci_read_word (dev : pci_dev) (reg : Nat) : M Nat :=
  request 2 (Event.pci_read 2 dev.addr reg)

/-- Read a 32-bit word of PCI configuration space. -/
def pci_read_long (dev : pci_dev) (reg : Nat) : M Nat :=
  request 4 (Event.pci_read 4 dev.addr reg)

/-- Write a byte of PCI configuration space; the argument is converted to
`uint8_t`. -/
def pci_write_byte (dev : pci_dev) (reg : Nat) (val : Nat) : M Unit :=
  emit (Event.pci_write 1 dev.addr reg (val % 256))

/-- Write a 16-bit word of PCI configuration space. -/
def pci_write_word (dev : pci_dev) (reg : Nat) (val : Nat) : M Unit :=
  emit (Event.pci_write 2 dev.addr reg (val % 65536))

/-- The macro `OUTB(value, port)`. -/
def OUTB (val port : Nat) : M Unit :=
  emit (Event.port_out 1 (port % 65536) (val % 256))

/-- The macro `INB(port)`. -/
def INB (port : Nat) : M Nat :=
  request 1 (Event.port_in 1 (port % 65536))

/-- The macro `OUTL(value, port)`. -/
def OUTL (val port : Nat) : M Unit :=
  emit (Event.port_out 4 (port % 65536) (val % 2 ^ 32))

/-- The macro `INL(port)`. -/
def INL (port : Nat) : M Nat :=
  request 4 (Event.port_in 4 (port % 65536))

/-- A volatile load of `width` bytes from mapped memory. -/
def mem_read (width : Nat) (address : Nat) : M Nat :=
  request width (Event.mem_read width address)

/-- Modelled from the spec: `physmap`, the primitive
"map(name, physical_address, length)" that yields a process-local handle.  The
environment answers with the address of the mapping; the answer `0` stands for
a mapping that cannot be established, which is fatal: control does not come
back to the caller. -/
def physmap (descr : String) (phys_addr len : Nat) : M Nat := fun w =>
  let virt := respond 8 w
  let w1 : World := { w with input := w.input.tail,
                             trace := w.trace ++ [Event.physmap descr phys_addr len virt] }
  if virt = 0 then (Outcome.fatal descr, w1) else (Outcome.ret virt, w1)

/-- The call `printf(fmt, args...)`. -/
def printf (fmt : String) (args : List Arg) : M Unit :=
  emit (Event.printf fmt args)

/-- The macro `printf_debug(fmt, args...)` of `flash.h`: it prints, and
evaluates its arguments, only when the global `verbose` is set.  The arguments
are given as a computation for that reason. -/
def printf_debug (fmt : String) (args : M (List Arg)) : M Unit := fun w =>
  if w.verbose then (args.bind (fun a => printf fmt a)) w else (Outcome.ret (), w)

/-- The call `fprintf(stderr, fmt, args...)`. -/
def fprintf_stderr (fmt : String) (args : List Arg) : M Unit :=
  emit (Event.fprintf_stderr fmt args)

/-- The call `perror(s)`. -/
def perror (s : String) : M Unit :=
  emit (Event.perror s)

/-- The call `exit(code)`. -/
def exit {α : Type} (code : Int) : M α := fun w => (Outcome.exit code, w)

/-- A call of a function of another file whose result is not used. -/
def extern_call (fn : String) : M Unit :=
  emit (Event.call fn)

/-- Read the global variable `flashbus`. -/
def get_flashbus : M flashbus_t := fun w => (Outcome.ret w.flashbus, w)

/-- Assign the global variable `flashbus`. -/
def set_flashbus (b : flashbus_t) : M Unit := fun w =>
  (Outcome.ret (), { w with flashbus := b })

/-- Assign the global variable `spibar`. -/
def set_spibar (p : Nat) : M Unit := fun w =>
  (Outcome.ret (), { w with spibar := p })

/-- Assign the global variable `sb600_spibar`. -/
def set_sb600_spibar (p : Nat) : M Unit := fun w =>
  (Outcome.ret (), { w with sb600_spibar := p })

/-- Assign the global variable `ichspi_lock`. -/
def set_ichspi_lock (v : Int) : M Unit := fun w =>
  (Outcome.ret (), { w with ichspi_lock := v })

/-- Assign the global variable `flashbase`. -/
def set_flashbase (v : Nat) : M Unit := fun w =>
  (Outcome.ret (), { w with flashbase := v })

/-! ## chipset_enable.c: the chipset specific flash enables -/

/-- The function `enable_flash_ali_m1533`. -/
def enable_flash_ali_m1533 (dev : pci_dev) (_name : String) : M Int := do
  let tmp ← pci_read_byte dev 0x47
  let tmp := tmp ||| 0x46
  pci_write_byte dev 0x47 tmp
  return 0

/-- The function `enable_flash_sis630`. -/
def enable_flash_sis630 (dev : pci_dev) (_name : String) : M Int := do
  let b ← pci_read_byte dev 0x40
  pci_write_byte dev 0x40 (b ||| 0xb)
  let b ← pci_read_byte dev 0x45
  pci_write_byte dev 0x45 (b ||| 0x40)
  OUTB 0x87 0x2e
  OUTB 0x01 0x2e
  OUTB 0x55 0x2e
  OUTB 0x55 0x2e
  if (← INB 0x2f) ≠ 0x87 then
    OUTB 0x87 0x4e
    OUTB 0x01 0x4e
    OUTB 0x55 0x4e
    OUTB 0xaa 0x4e
    if (← INB 0x4f) ≠ 0x87 then
      printf "Can not access SiS 950\n" []
      return (-1)
    OUTB 0x24 0x4e
    let b := (← INB 0x4f) ||| 0xfc
    OUTB 0x24 0x4e
    OUTB b 0x4f
    OUTB 0x02 0x4e
    OUTB 0x02 0x4f
  OUTB 0x24 0x2e
  printf "2f is %#x\n" [Arg.u (← INB 0x2f)]
  let b := (← INB 0x2f) ||| 0xfc
  OUTB 0x24 0x2e
  OUTB b 0x2f
  OUTB 0x02 0x2e
  OUTB 0x02 0x2f
  return 0

/-- The function `enable_flash_piix4`. -/
def enable_flash_piix4 (dev : pci_dev) (name : String) : M Int := do
  let xbcs : Nat := 0x4e
  let old ← pci_read_word dev xbcs
  let new : Nat :=
    if dev.device_id = 0x122e ∨ dev.device_id = 0x7000 ∨ dev.device_id = 0x1234 then
      old ||| 0x00c4
    else
      old ||| 0x02c4
  if new = old then
    return 0
  pci_write_word dev xbcs new
  if (← pci_read_word dev xbcs) ≠ new then
    printf "tried to set 0x%x to 0x%x on %s failed (WARNING ONLY)\n"
      [Arg.u xbcs, Arg.u new, Arg.s name]
    return (-1)
  return 0

/-- The function `enable_flash_ich`. -/
def enable_flash_ich (dev : pci_dev) (name : String) (bios_cntl : Nat) : M Int := do
  let old ← pci_read_byte dev bios_cntl
  printf_debug "\nBIOS Lock Enable: %sabled, "
    (pure [Arg.s (if old &&& (1 <<< 1) ≠ 0 then "en" else "dis")])
  printf_debug "BIOS Write Enable: %sabled, "
    (pure [Arg.s (if old &&& (1 <<< 0) ≠ 0 then "en" else "dis")])
  printf_debug "BIOS_CNTL is 0x%x\n" (pure [Arg.u old])
  let new : Nat := old ||| 1
  if new = old then
    return 0
  pci_write_byte dev bios_cntl new
  if (← pci_read_byte dev bios_cntl) ≠ new then
    printf "tried to set 0x%x to 0x%x on %s failed (WARNING ONLY)\n"
      [Arg.u bios_cntl, Arg.u new, Arg.s name]
    return (-1)
  return 0

/-- The function `enable_flash_ich_4e`. -/
def enable_flash_ich_4e (dev : pci_dev) (name : String) : M Int :=
  enable_flash_ich dev name 0x4e

/-- The function `enable_flash_ich_dc`. -/
def enable_flash_ich_dc (dev : pci_dev) (name : String) : M Int :=
  enable_flash_ich dev name 0xdc

/-- The constant `ICH_STRAP_LPC`. -/
def ICH_STRAP_LPC : Nat := 0x03

/-- The function `enable_flash_vt8237s_spi`. -/
def enable_flash_vt8237s_spi (dev : pci_dev) (_name : String) : M Int := do
  let mmio_base : Nat := ((← pci_read_long dev 0xbc) <<< 8) % 2 ^ 32
  printf_debug "MMIO base at = 0x%x\n" (pure [Arg.u mmio_base])
  let p ← physmap "VT8237S MMIO registers" mmio_base 0x70
  set_spibar p
  printf_debug "0x6c: 0x%04x     (CLOCK/DEBUG)\n"
    (do return [Arg.u (← mem_read 2 (p + 0x6c))])
  set_flashbus flashbus_t.BUS_TYPE_VIA_SPI
  return 0

/-- The table `straps_names` of `enable_flash_ich_dc_spi`, indexed by a value
below four. -/
def straps_names (bbs : Nat) : String :=
  match bbs with
  | 0 => "reserved"
  | 1 => "SPI"
  | 2 => "PCI"
  | _ => "LPC"

/-- A `printf_debug` whose arguments are an offset and the 32-bit word found
there, followed by the loop counter. -/
def debug_dump32 (fmt : String) (spibar offs i : Nat) : M Unit :=
  printf_debug fmt (do return [Arg.u offs, Arg.u (← mem_read 4 (spibar + offs)), Arg.u i])

/-- The register dump of the `BUS_TYPE_ICH7_SPI` case of
`enable_flash_ich_dc_spi`, up to the test of the lock-down bit. -/
def ich7_spi_dump (spibar : Nat) : M Unit := do
  printf_debug "0x00: 0x%04x     (SPIS)\n" (do return [Arg.u (← mem_read 2 (spibar + 0))])
  printf_debug "0x02: 0x%04x     (SPIC)\n" (do return [Arg.u (← mem_read 2 (spibar + 2))])
  printf_debug "0x04: 0x%08x (SPIA)\n" (do return [Arg.u (← mem_read 4 (spibar + 4))])
  for i in List.range 8 do
    let offs := 8 + (i * 8)
    debug_dump32 "0x%02x: 0x%08x (SPID%d)\n" spibar offs i
    debug_dump32 "0x%02x: 0x%08x (SPID%d+4)\n" spibar (offs + 4) i
  printf_debug "0x50: 0x%08x (BBAR)\n" (do return [Arg.u (← mem_read 4 (spibar + 0x50))])
  printf_debug "0x54: 0x%04x     (PREOP)\n" (do return [Arg.u (← mem_read 2 (spibar + 0x54))])
  printf_debug "0x56: 0x%04x     (OPTYPE)\n" (do return [Arg.u (← mem_read 2 (spibar + 0x56))])
  printf_debug "0x58: 0x%08x (OPMENU)\n" (do return [Arg.u (← mem_read 4 (spibar + 0x58))])
  printf_debug "0x5c: 0x%08x (OPMENU+4)\n" (do return [Arg.u (← mem_read 4 (spibar + 0x5c))])
  for i in List.range 4 do
    let offs := 0x60 + (i * 4)
    debug_dump32 "0x%02x: 0x%08x (PBR%d)\n" spibar offs i
  printf_debug "\n" (pure [])

/-- The register dump of the `BUS_TYPE_ICH9_SPI` case of
`enable_flash_ich_dc_spi` from the word `tmp` on: the remaining registers are
read for printing only. -/
def ich9_spi_dump (spibar tmp : Nat) : M Unit := do
  printf_debug "BMWAG %i, " (pure [Arg.u ((tmp >>> 24) &&& 0xff)])
  printf_debug "BMRAG %i, " (pure [Arg.u ((tmp >>> 16) &&& 0xff)])
  printf_debug "BRWA %i, " (pure [Arg.u ((tmp >>> 8) &&& 0xff)])
  printf_debug "BRRA %i\n" (pure [Arg.u ((tmp >>> 0) &&& 0xff)])
  printf_debug "0x54: 0x%08x (FREG0)\n" (do return [Arg.u (← mem_read 4 (spibar + 0x54))])
  printf_debug "0x58: 0x%08x (FREG1)\n" (do return [Arg.u (← mem_read 4 (spibar + 0x58))])
  printf_debug "0x5C: 0x%08x (FREG2)\n" (do return [Arg.u (← mem_read 4 (spibar + 0x5C))])
  printf_debug "0x60: 0x%08x (FREG3)\n" (do return [Arg.u (← mem_read 4 (spibar + 0x60))])
  printf_debug "0x64: 0x%08x (FREG4)\n" (do return [Arg.u (← mem_read 4 (spibar + 0x64))])
  printf_debug "0x74: 0x%08x (PR0)\n" (do return [Arg.u (← mem_read 4 (spibar + 0x74))])
  printf_debug "0x78: 0x%08x (PR1)\n" (do return [Arg.u (← mem_read 4 (spibar + 0x78))])
  printf_debug "0x7C: 0x%08x (PR2)\n" (do return [Arg.u (← mem_read 4 (spibar + 0x7C))])
  printf_debug "0x80: 0x%08x (PR3)\n" (do return [Arg.u (← mem_read 4 (spibar + 0x80))])
  printf_debug "0x84: 0x%08x (PR4)\n" (do return [Arg.u (← mem_read 4 (spibar + 0x84))])
  printf_debug "0x90: 0x%08x (SSFS, SSFC)\n" (do return [Arg.u (← mem_read 4 (spibar + 0x90))])
  printf_debug "0x94: 0x%04x     (PREOP)\n" (do return [Arg.u (← mem_read 2 (spibar + 0x94))])
  printf_debug "0x96: 0x%04x     (OPTYPE)\n" (do return [Arg.u (← mem_read 2 (spibar + 0x96))])
  printf_debug "0x98: 0x%08x (OPMENU)\n" (do return [Arg.u (← mem_read 4 (spibar + 0x98))])
  printf_debug "0x9C: 0x%08x (OPMENU+4)\n" (do return [Arg.u (← mem_read 4 (spibar + 0x9C))])
  printf_debug "0xA0: 0x%08x (BBAR)\n" (do return [Arg.u (← mem_read 4 (spibar + 0xA0))])
  printf_debug "0xB0: 0x%08x (FDOC)\n" (do return [Arg.u (← mem_read 4 (spibar + 0xB0))])

/-- The second `switch` of `enable_flash_ich_dc_spi`, on the global
`flashbus`, with `spibar` already assigned. -/
def ich_spi_probe (spibar : Nat) : M Unit := do
  match (← get_flashbus) with
  | flashbus_t.BUS_TYPE_ICH7_SPI =>
    ich7_spi_dump spibar
    if (← mem_read 2 spibar) &&& (1 <<< 15) ≠ 0 then
      printf "WARNING: SPI Configuration Lockdown activated.\n" []
      set_ichspi_lock 1
    extern_call "ich_init_opcodes"
  | flashbus_t.BUS_TYPE_ICH9_SPI =>
    let tmp2 ← mem_read 2 (spibar + 4)
    printf_debug "0x04: 0x%04x (HSFS)\n" (pure [Arg.u tmp2])
    printf_debug "FLOCKDN %i, " (pure [Arg.u ((tmp2 >>> 15) &&& 1)])
    printf_debug "FDV %i, " (pure [Arg.u ((tmp2 >>> 14) &&& 1)])
    printf_debug "FDOPSS %i, " (pure [Arg.u ((tmp2 >>> 13) &&& 1)])
    printf_debug "SCIP %i, " (pure [Arg.u ((tmp2 >>> 5) &&& 1)])
    printf_debug "BERASE %i, " (pure [Arg.u ((tmp2 >>> 3) &&& 3)])
    printf_debug "AEL %i, " (pure [Arg.u ((tmp2 >>> 2) &&& 1)])
    printf_debug "FCERR %i, " (pure [Arg.u ((tmp2 >>> 1) &&& 1)])
    printf_debug "FDONE %i\n" (pure [Arg.u ((tmp2 >>> 0) &&& 1)])
    let tmp ← mem_read 4 (spibar + 0x50)
    printf_debug "0x50: 0x%08x (FRAP)\n" (pure [Arg.u tmp])
    ich9_spi_dump spibar tmp
    if tmp2 &&& (1 <<< 15) ≠ 0 then
      printf "WARNING: SPI Configuration Lockdown activated.\n" []
      set_ichspi_lock 1
    extern_call "ich_init_opcodes"
  | _ => pure ()

/-- The function `enable_flash_ich_dc_spi`. -/
def enable_flash_ich_dc_spi (dev : pci_dev) (name : String) (ich_generation : Int) :
    M Int := do
  let ret ← enable_flash_ich_dc dev name
  let tmp : Nat := (← pci_read_long dev 0xf0) &&& 0xffffc000
  printf_debug "\nRoot Complex Register Block address = 0x%x\n" (pure [Arg.u tmp])
  let rcrb ← physmap "ICH RCRB" tmp 0x4000
  let gcs ← mem_read 4 (rcrb + 0x3410)
  printf_debug "GCS = 0x%x: " (pure [Arg.u gcs])
  printf_debug "BIOS Interface Lock-Down: %sabled, "
    (pure [Arg.s (if gcs &&& 0x1 ≠ 0 then "en" else "dis")])
  let bbs : Nat := (gcs >>> 10) &&& 0x3
  printf_debug "BOOT BIOS Straps: 0x%x (%s)\n" (pure [Arg.u bbs, Arg.s (straps_names bbs)])
  let buc ← mem_read 1 (rcrb + 0x3414)
  printf_debug "Top Swap : %s\n"
    (pure [Arg.s (if buc &&& 1 ≠ 0 then "enabled (A16 inverted)" else "not enabled")])
  if ich_generation = 7 ∧ bbs = ICH_STRAP_LPC then
    return ret
  let spibar_offset : Nat ←
    (match ich_generation with
     | 7 => do
       set_flashbus flashbus_t.BUS_TYPE_ICH7_SPI
       pure 0x3020
     | 8 => do
       set_flashbus flashbus_t.BUS_TYPE_ICH9_SPI
       pure 0x3020
     | _ => do
       set_flashbus flashbus_t.BUS_TYPE_ICH9_SPI
       pure 0x3800 : M Nat)
  printf_debug "SPIBAR = 0x%x + 0x%04x\n" (pure [Arg.u tmp, Arg.u spibar_offset])
  set_spibar (rcrb + spibar_offset)
  ich_spi_probe (rcrb + spibar_offset)
  let old ← pci_read_byte dev 0xdc
  printf_debug "SPI Read Configuration: " (pure [])
  let new : Nat := (old >>> 2) &&& 0x3
  if new = 0 ∨ new = 1 ∨ new = 2 then
    printf_debug "prefetching %sabled, caching %sabled, "
      (pure [Arg.s (if new &&& 0x2 ≠ 0 then "en" else "dis"),
             Arg.s (if new &&& 0x1 ≠ 0 then "dis" else "en")])
  else
    printf_debug "invalid prefetching/caching settings, " (pure [])
  return ret

/-- The function `enable_flash_ich7`. -/
def enable_flash_ich7 (dev : pci_dev) (name : String) : M Int :=
  enable_flash_ich_dc_spi dev name 7

/-- The function `enable_flash_ich8`. -/
def enable_flash_ich8 (dev : pci_dev) (name : String) : M Int :=
  enable_flash_ich_dc_spi dev name 8

/-- The function `enable_flash_ich9`. -/
def enable_flash_ich9 (dev : pci_dev) (name : String) : M Int :=
  enable_flash_ich_dc_spi dev name 9

/-- The function `enable_flash_ich10`. -/
def enable_flash_ich10 (dev : pci_dev) (name : String) : M Int :=
  enable_flash_ich_dc_spi dev name 10

/-- The function `enable_flash_vt823x`. -/
def enable_flash_vt823x (dev : pci_dev) (name : String) : M Int := do
  pci_write_byte dev 0x41 0x7f
  let val ← pci_read_byte dev 0x40
  let val := val ||| 0x10
  pci_write_byte dev 0x40 val
  if (← pci_read_byte dev 0x40) ≠ val then
    printf "\nWARNING: Failed to enable ROM Write on \"%s\"\n" [Arg.s name]
    return (-1)
  return 0

/-- The function `enable_flash_cs5530`. -/
def enable_flash_cs5530 (dev : pci_dev) (_name : String) : M Int := do
  let DECODE_CONTROL_REG2 : Nat := 0x5b
  let ROM_AT_LOGIC_CONTROL_REG : Nat := 0x52
  let LOWER_ROM_ADDRESS_RANGE : Nat := 1 <<< 0
  let ROM_WRITE_ENABLE : Nat := 1 <<< 1
  let UPPER_ROM_ADDRESS_RANGE : Nat := 1 <<< 2
  let BIOS_ROM_POSITIVE_DECODE : Nat := 1 <<< 5
  let reg8 ← pci_read_byte dev ROM_AT_LOGIC_CONTROL_REG
  let reg8 := reg8 ||| LOWER_ROM_ADDRESS_RANGE
  let reg8 := reg8 ||| UPPER_ROM_ADDRESS_RANGE
  let reg8 := reg8 ||| ROM_WRITE_ENABLE
  pci_write_byte dev ROM_AT_LOGIC_CONTROL_REG reg8
  let reg8 ← pci_read_byte dev DECODE_CONTROL_REG2
  let reg8 := reg8 ||| BIOS_ROM_POSITIVE_DECODE
  pci_write_byte dev DECODE_CONTROL_REG2 reg8
  return 0

/-- The call `read(fd, buf, 8)`: the result is the answer of the environment;
when it is 8 the buffer holds eight bytes taken from the environment, else the
buffer is as before. -/
def read8 (fd : Int) (buf : List Nat) : M (Int × List Nat) := fun w =>
  let r := w.input.headD 0
  let data : List Nat := ((w.input.tail.take 8).map (fun x => (x % 256).toNat))
    ++ List.replicate (8 - (w.input.tail.take 8).length) 0
  if r = 8 then
    (Outcome.ret (r, data),
     { w with input := w.input.tail.drop 8,
              trace := w.trace ++ [Event.syscall "read" ([fd, 8] ++ data.map Int.ofNat) r] })
  else
    (Outcome.ret (r, buf),
     { w with input := w.input.tail, trace := w.trace ++ [Event.syscall "read" [fd, 8] r] })

/-- The call `write(fd, buf, 8)`. -/
def write8 (fd : Int) (buf : List Nat) : M Int :=
  syscall "write" ([fd, 8] ++ buf.map Int.ofNat)

/-- The function `enable_flash_cs5536`.  The array `buf` is a list of eight
bytes; it is not initialised, so it starts with whatever the caller of the
model supplies here: zeroes. -/
def enable_flash_cs5536 (_dev : pci_dev) (_name : String) : M Int := do
  let MSR_RCONF_DEFAULT : Int := 0x1808
  let MSR_NORF_CTL : Int := 0x51400018
  let mut buf : List Nat := List.replicate 8 0
  let fd_msr ← syscall "open" []
  if fd_msr = 0 then
    perror "open msr"
    return (-1)
  if (← syscall "lseek64" [fd_msr, MSR_RCONF_DEFAULT]) = -1 then
    perror "lseek64"
    printf "Cannot operate on MSR. Did you run \x27modprobe msr\x27?\n" []
    let _ ← syscall "close" [fd_msr]
    return (-1)
  let r ← read8 fd_msr buf
  buf := r.2
  if r.1 ≠ 8 then
    perror "read msr"
    let _ ← syscall "close" [fd_msr]
    return (-1)
  if buf.getD 7 0 ≠ 0x22 then
    buf := buf.set 7 (buf.getD 7 0 &&& 0xfb)
    if (← syscall "lseek64" [fd_msr, MSR_RCONF_DEFAULT]) = -1 then
      perror "lseek64"
      let _ ← syscall "close" [fd_msr]
      return (-1)
    if (← write8 fd_msr buf) < 0 then
      perror "msr write"
      let _ ← syscall "close" [fd_msr]
      return (-1)
  if (← syscall "lseek64" [fd_msr, MSR_NORF_CTL]) = -1 then
    perror "lseek64"
    let _ ← syscall "close" [fd_msr]
    return (-1)
  let r ← read8 fd_msr buf
  buf := r.2
  if r.1 ≠ 8 then
    perror "read msr"
    let _ ← syscall "close" [fd_msr]
    return (-1)
  buf := buf.set 0 (buf.getD 0 0 ||| 0x08)
  if (← syscall "lseek64" [fd_msr, MSR_NORF_CTL]) = -1 then
    perror "lseek64"
    let _ ← syscall "close" [fd_msr]
    return (-1)
  if (← write8 fd_msr buf) < 0 then
    perror "msr write"
    let _ ← syscall "close" [fd_msr]
    return (-1)
  let _ ← syscall "close" [fd_msr]
  return 0

/-- The function `enable_flash_sc1100`. -/
def enable_flash_sc1100 (dev : pci_dev) (name : String) : M Int := do
  pci_write_byte dev 0x52 0xee
  let new ← pci_read_byte dev 0x52
  if new ≠ 0xee then
    printf "tried to set register 0x%x to 0x%x on %s failed (WARNING ONLY)\n"
      [Arg.u 0x52, Arg.u new, Arg.s name]
    return (-1)
  return 0

/-- The function `enable_flash_sis5595`. -/
def enable_flash_sis5595 (dev : pci_dev) (name : String) : M Int := do
  let new ← pci_read_byte dev 0x45
  let new := new &&& (255 - 0x20)
  let new := new ||| 0x4
  pci_write_byte dev 0x45 new
  let newer ← pci_read_byte dev 0x45
  if newer ≠ new then
    printf "tried to set register 0x%x to 0x%x on %s failed (WARNING ONLY)\n"
      [Arg.u 0x45, Arg.u new, Arg.s name]
    printf "Stuck at 0x%x\n" [Arg.u newer]
    return (-1)
  let new ← pci_read_byte dev 0x40
  let new := new &&& 0xFB
  let new := new ||| 0x3
  pci_write_byte dev 0x40 new
  let newer ← pci_read_byte dev 0x40
  if newer ≠ new then
    printf "tried to set register 0x%x to 0x%x on %s failed (WARNING ONLY)\n"
      [Arg.u 0x40, Arg.u new, Arg.s name]
    printf "Stuck at 0x%x\n" [Arg.u newer]
    return (-1)
  return 0

/-- The function `enable_flash_amd8111`. -/
def enable_flash_amd8111 (dev : pci_dev) (name : String) : M Int := do
  let old ← pci_read_byte dev 0x43
  let new := old ||| 0xC0
  if new ≠ old then
    pci_write_byte dev 0x43 new
    if (← pci_read_byte dev 0x43) ≠ new then
      printf "tried to set 0x%x to 0x%x on %s failed (WARNING ONLY)\n"
        [Arg.u 0x43, Arg.u new, Arg.s name]
  let old ← pci_read_byte dev 0x40
  let new := old ||| 0x01
  if new = old then
    return 0
  pci_write_byte dev 0x40 new
  if (← pci_read_byte dev 0x40) ≠ new then
    printf "tried to set 0x%x to 0x%x on %s failed (WARNING ONLY)\n"
      [Arg.u 0x40, Arg.u new, Arg.s name]
    return (-1)
  return 0

/-- The function `enable_flash_sb600`. -/
def enable_flash_sb600 (dev : pci_dev) (_name : String) : M Int := do
  let tmp ← pci_read_long dev 0xa0
  let low_bits := tmp
  let low_bits := low_bits &&& 0x00003fff
  let low_bits := low_bits &&& 0xfffffff0
  let tmp := tmp &&& 0xffffc000
  printf_debug "SPI base address is at 0x%x\n" (pure [Arg.u ((tmp + low_bits) % 2 ^ 32)])
  let p ← physmap "SB600 SPI registers" tmp 0x4000
  set_sb600_spibar p
  set_sb600_spibar (p + low_bits)
  for reg in [0x50, 0x54, 0x58, 0x5c] do
    let num ← pci_read_long dev reg
    let num := num &&& 0xfffffffc
    pci_write_byte dev reg num
  set_flashbus flashbus_t.BUS_TYPE_SB600_SPI
  OUTB 0x8f 0xcd6
  OUTB 0x0e 0xcd7
  return 0

/-- The function `enable_flash_ck804`. -/
def enable_flash_ck804 (dev : pci_dev) (name : String) : M Int := do
  let old ← pci_read_byte dev 0x88
  let new := old ||| 0xc0
  if new ≠ old then
    pci_write_byte dev 0x88 new
    if (← pci_read_byte dev 0x88) ≠ new then
      printf "tried to set 0x%x to 0x%x on %s failed (WARNING ONLY)\n"
        [Arg.u 0x88, Arg.u new, Arg.s name]
  let old ← pci_read_byte dev 0x6d
  let new := old ||| 0x01
  if new = old then
    return 0
  pci_write_byte dev 0x6d new
  if (← pci_read_byte dev 0x6d) ≠ new then
    printf "tried to set 0x%x to 0x%x on %s failed (WARNING ONLY)\n"
      [Arg.u 0x6d, Arg.u new, Arg.s name]
    return (-1)
  return 0

/-- The function `enable_flash_sb400`.  The loop over `pacc->devices` with
`pci_filter_match` on a filter that fixes vendor 0x1002 and device 0x4372 is
the search `pci_dev_find` performs. -/
def enable_flash_sb400 (dev : pci_dev) (_name : String) : M Int := do
  match (← pci_dev_find 0x1002 0x4372) with
  | none =>
    fprintf_stderr "ERROR: SMBus device not found. Aborting.\n" []
    exit 1
  | some smbusdev =>
    let tmp ← pci_read_byte smbusdev 0x79
    let tmp := tmp ||| 0x01
    pci_write_byte smbusdev 0x79 tmp
    let tmp ← pci_read_byte dev 0x48
    let tmp := tmp ||| 0x21
    pci_write_byte dev 0x48 tmp
    let tmp ← INB 0xc6f
    OUTB tmp 0xeb
    OUTB tmp 0xeb
    let tmp := tmp ||| 0x40
    OUTB tmp 0xc6f
    OUTB tmp 0xeb
    OUTB tmp 0xeb
    return 0

/-- The function `enable_flash_mcp55`. -/
def enable_flash_mcp55 (dev : pci_dev) (name : String) : M Int := do
  let byte ← pci_read_byte dev 0x88
  let byte := byte ||| 0xff
  pci_write_byte dev 0x88 byte
  let byte ← pci_read_byte dev 0x8c
  let byte := byte ||| 0xff
  pci_write_byte dev 0x8c byte
  let word ← pci_read_word dev 0x90
  let word := word ||| 0x7fff
  pci_write_word dev 0x90 word
  let old ← pci_read_byte dev 0x6d
  let new := old ||| 0x01
  if new = old then
    return 0
  pci_write_byte dev 0x6d new
  if (← pci_read_byte dev 0x6d) ≠ new then
    printf "tried to set 0x%x to 0x%x on %s failed (WARNING ONLY)\n"
      [Arg.u 0x6d, Arg.u new, Arg.s name]
    return (-1)
  return 0

/-- The function `enable_flash_ht1000`. -/
def enable_flash_ht1000 (dev : pci_dev) (_name : String) : M Int := do
  let byte ← pci_read_byte dev 0x41
  let byte := byte ||| 0x0e
  pci_write_byte dev 0x41 byte
  let byte ← pci_read_byte dev 0x43
  let byte := byte ||| (1 <<< 4)
  pci_write_byte dev 0x43 byte
  return 0

/-- The call `getpagesize()`: an `int` answered by the environment. -/
def getpagesize : M Int := syscall "getpagesize" []

/-- The call `munmap(address, length)`; its result is not used. -/
def munmap (virt : Nat) (len : Int) : M Unit :=
  emit (Event.munmap virt (len % 2 ^ 64).toNat)

/-- The scanning loop of `get_flashbase_sc520` over the offsets still to be
visited; it yields `bootcs_found` and the last value of `parx`. -/
def sc520_scan (mmcr : Nat) : List Nat → Nat → M (Bool × Nat)
  | [], parx => pure (false, parx)
  | i :: rest, _ => do
    let parx ← mem_read 4 (mmcr + i)
    if parx >>> 29 = 4 then
      return (true, parx)
    sc520_scan mmcr rest parx

/-- The function `get_flashbase_sc520`. -/
def get_flashbase_sc520 (_dev : pci_dev) (_name : String) : M Int := do
  let mmcr ← physmap "Elan SC520 MMCR" 0xfffef000 ((← getpagesize) % 2 ^ 64).toNat
  let (bootcs_found, parx) ← sc520_scan mmcr (List.range' 0x88 16 4) 0
  if bootcs_found then
    if parx &&& (1 <<< 25) ≠ 0 then
      let parx := parx &&& ((1 <<< 14) - 1)
      set_flashbase ((parx <<< 16) % 2 ^ 32)
    else
      let parx := parx &&& ((1 <<< 18) - 1)
      set_flashbase ((parx <<< 12) % 2 ^ 32)
  else
    printf "AMD Elan SC520 detected, but no BOOTCS. Assuming flash at 4G\n" []
  munmap mmcr (← getpagesize)
  return 0

/-- The functions the table `enables` points to. -/
inductive ChipsetOp where
  | enable_flash_sis630
  | enable_flash_piix4
  | enable_flash_ich_4e
  | enable_flash_ich_dc
  | enable_flash_ich7
  | enable_flash_ich8
  | enable_flash_ich9
  | enable_flash_ich10
  | enable_flash_vt823x
  | enable_flash_vt8237s_spi
  | enable_flash_amd8111
  | enable_flash_cs5530
  | enable_flash_sc1100
  | enable_flash_sis5595
  | enable_flash_cs5536
  | enable_flash_sb600
  | enable_flash_ali_m1533
  | enable_flash_ck804
  | enable_flash_mcp55
  | enable_flash_sb400
  | enable_flash_ht1000
  | get_flashbase_sc520
deriving DecidableEq, Repr

/-- The type `FLASH_ENABLE` (`struct penable`). -/
structure FLASH_ENABLE where
  vendor : Nat
  device : Nat
  name : String
  doit : ChipsetOp
deriving DecidableEq, Repr

/-- The table `enables`. -/
def enables : List FLASH_ENABLE := [
  ⟨0x1039, 0x0630, "SiS630", ChipsetOp.enable_flash_sis630⟩,
  ⟨0x8086, 0x122e, "Intel PIIX", ChipsetOp.enable_flash_piix4⟩,
  ⟨0x8086, 0x1234, "Intel MPIIX", ChipsetOp.enable_flash_piix4⟩,
  ⟨0x8086, 0x7000, "Intel PIIX3", ChipsetOp.enable_flash_piix4⟩,
  ⟨0x8086, 0x7110, "Intel PIIX4/4E/4M", ChipsetOp.enable_flash_piix4⟩,
  ⟨0x8086, 0x7198, "Intel 440MX", ChipsetOp.enable_flash_piix4⟩,
  ⟨0x8086, 0x2410, "Intel ICH", ChipsetOp.enable_flash_ich_4e⟩,
  ⟨0x8086, 0x2420, "Intel ICH0", ChipsetOp.enable_flash_ich_4e⟩,
  ⟨0x8086, 0x2440, "Intel ICH2", ChipsetOp.enable_flash_ich_4e⟩,
  ⟨0x8086, 0x244c, "Intel ICH2-M", ChipsetOp.enable_flash_ich_4e⟩,
  ⟨0x8086, 0x2480, "Intel ICH3-S", ChipsetOp.enable_flash_ich_4e⟩,
  ⟨0x8086, 0x248c, "Intel ICH3-M", ChipsetOp.enable_flash_ich_4e⟩,
  ⟨0x8086, 0x24c0, "Intel ICH4/ICH4-L", ChipsetOp.enable_flash_ich_4e⟩,
  ⟨0x8086, 0x24cc, "Intel ICH4-M", ChipsetOp.enable_flash_ich_4e⟩,
  ⟨0x8086, 0x24d0, "Intel ICH5/ICH5R", ChipsetOp.enable_flash_ich_4e⟩,
  ⟨0x8086, 0x25a1, "Intel 6300ESB", ChipsetOp.enable_flash_ich_4e⟩,
  ⟨0x8086, 0x2670, "Intel 631xESB/632xESB/3100", ChipsetOp.enable_flash_ich_dc⟩,
  ⟨0x8086, 0x2640, "Intel ICH6/ICH6R", ChipsetOp.enable_flash_ich_dc⟩,
  ⟨0x8086, 0x2641, "Intel ICH6-M", ChipsetOp.enable_flash_ich_dc⟩,
  ⟨0x8086, 0x5031, "Intel EP80579", ChipsetOp.enable_flash_ich7⟩,
  ⟨0x8086, 0x27b0, "Intel ICH7DH", ChipsetOp.enable_flash_ich7⟩,
  ⟨0x8086, 0x27b8, "Intel ICH7/ICH7R", ChipsetOp.enable_flash_ich7⟩,
  ⟨0x8086, 0x27b9, "Intel ICH7M", ChipsetOp.enable_flash_ich7⟩,
  ⟨0x8086, 0x27bd, "Intel ICH7MDH", ChipsetOp.enable_flash_ich7⟩,
  ⟨0x8086, 0x2810, "Intel ICH8/ICH8R", ChipsetOp.enable_flash_ich8⟩,
  ⟨0x8086, 0x2811, "Intel ICH8M-E", ChipsetOp.enable_flash_ich8⟩,
  ⟨0x8086, 0x2812, "Intel ICH8DH", ChipsetOp.enable_flash_ich8⟩,
  ⟨0x8086, 0x2814, "Intel ICH8DO", ChipsetOp.enable_flash_ich8⟩,
  ⟨0x8086, 0x2815, "Intel ICH8M", ChipsetOp.enable_flash_ich8⟩,
  ⟨0x8086, 0x2912, "Intel ICH9DH", ChipsetOp.enable_flash_ich9⟩,
  ⟨0x8086, 0x2914, "Intel ICH9DO", ChipsetOp.enable_flash_ich9⟩,
  ⟨0x8086, 0x2916, "Intel ICH9R", ChipsetOp.enable_flash_ich9⟩,
  ⟨0x8086, 0x2917, "Intel ICH9M-E", ChipsetOp.enable_flash_ich9⟩,
  ⟨0x8086, 0x2918, "Intel ICH9", ChipsetOp.enable_flash_ich9⟩,
  ⟨0x8086, 0x2919, "Intel ICH9M", ChipsetOp.enable_flash_ich9⟩,
  ⟨0x8086, 0x3a14, "Intel ICH10DO", ChipsetOp.enable_flash_ich10⟩,
  ⟨0x8086, 0x3a16, "Intel ICH10R", ChipsetOp.enable_flash_ich10⟩,
  ⟨0x8086, 0x3a18, "Intel ICH10", ChipsetOp.enable_flash_ich10⟩,
  ⟨0x8086, 0x3a1a, "Intel ICH10D", ChipsetOp.enable_flash_ich10⟩,
  ⟨0x1106, 0x8231, "VIA VT8231", ChipsetOp.enable_flash_vt823x⟩,
  ⟨0x1106, 0x3177, "VIA VT8235", ChipsetOp.enable_flash_vt823x⟩,
  ⟨0x1106, 0x3227, "VIA VT8237", ChipsetOp.enable_flash_vt823x⟩,
  ⟨0x1106, 0x3372, "VIA VT8237S", ChipsetOp.enable_flash_vt8237s_spi⟩,
  ⟨0x1106, 0x8324, "VIA CX700", ChipsetOp.enable_flash_vt823x⟩,
  ⟨0x1106, 0x0586, "VIA VT82C586A/B", ChipsetOp.enable_flash_amd8111⟩,
  ⟨0x1106, 0x0686, "VIA VT82C686A/B", ChipsetOp.enable_flash_amd8111⟩,
  ⟨0x1078, 0x0100, "AMD CS5530(A)", ChipsetOp.enable_flash_cs5530⟩,
  ⟨0x100b, 0x0510, "AMD SC1100", ChipsetOp.enable_flash_sc1100⟩,
  ⟨0x1039, 0x0008, "SiS5595", ChipsetOp.enable_flash_sis5595⟩,
  ⟨0x1022, 0x2080, "AMD CS5536", ChipsetOp.enable_flash_cs5536⟩,
  ⟨0x1022, 0x7468, "AMD8111", ChipsetOp.enable_flash_amd8111⟩,
  ⟨0x1002, 0x438D, "ATI(AMD) SB600", ChipsetOp.enable_flash_sb600⟩,
  ⟨0x1002, 0x439d, "ATI(AMD) SB700", ChipsetOp.enable_flash_sb600⟩,
  ⟨0x10B9, 0x1533, "ALi M1533", ChipsetOp.enable_flash_ali_m1533⟩,
  ⟨0x10de, 0x0050, "NVIDIA CK804", ChipsetOp.enable_flash_ck804⟩,
  ⟨0x10de, 0x0051, "NVIDIA CK804", ChipsetOp.enable_flash_ck804⟩,
  ⟨0x10de, 0x00d3, "NVIDIA CK804", ChipsetOp.enable_flash_ck804⟩,
  ⟨0x10de, 0x0260, "NVIDIA MCP51", ChipsetOp.enable_flash_ck804⟩,
  ⟨0x10de, 0x0261, "NVIDIA MCP51", ChipsetOp.enable_flash_ck804⟩,
  ⟨0x10de, 0x0262, "NVIDIA MCP51", ChipsetOp.enable_flash_ck804⟩,
  ⟨0x10de, 0x0263, "NVIDIA MCP51", ChipsetOp.enable_flash_ck804⟩,
  ⟨0x10de, 0x0360, "NVIDIA MCP55", ChipsetOp.enable_flash_mcp55⟩,
  ⟨0x10de, 0x0361, "NVIDIA MCP55", ChipsetOp.enable_flash_mcp55⟩,
  ⟨0x10de, 0x0362, "NVIDIA MCP55", ChipsetOp.enable_flash_mcp55⟩,
  ⟨0x10de, 0x0363, "NVIDIA MCP55", ChipsetOp.enable_flash_mcp55⟩,
  ⟨0x10de, 0x0364, "NVIDIA MCP55", ChipsetOp.enable_flash_mcp55⟩,
  ⟨0x10de, 0x0365, "NVIDIA MCP55", ChipsetOp.enable_flash_mcp55⟩,
  ⟨0x10de, 0x0366, "NVIDIA MCP55", ChipsetOp.enable_flash_mcp55⟩,
  ⟨0x10de, 0x0367, "NVIDIA MCP55", ChipsetOp.enable_flash_mcp55⟩,
  ⟨0x10de, 0x0548, "NVIDIA MCP67", ChipsetOp.enable_flash_mcp55⟩,
  ⟨0x1002, 0x4377, "ATI SB400", ChipsetOp.enable_flash_sb400⟩,
  ⟨0x1166, 0x0205, "Broadcom HT-1000", ChipsetOp.enable_flash_ht1000⟩,
  ⟨0x1022, 0x3000, "AMD Elan SC520", ChipsetOp.get_flashbase_sc520⟩,
  ⟨0x1022, 0x7440, "AMD AMD-768", ChipsetOp.enable_flash_amd8111⟩]

/-- A call through the function pointer `doit`. -/
def ChipsetOp.run : ChipsetOp → pci_dev → String → M Int
  | ChipsetOp.enable_flash_sis630 => Flashrom.enable_flash_sis630
  | ChipsetOp.enable_flash_piix4 => Flashrom.enable_flash_piix4
  | ChipsetOp.enable_flash_ich_4e => Flashrom.enable_flash_ich_4e
  | ChipsetOp.enable_flash_ich_dc => Flashrom.enable_flash_ich_dc
  | ChipsetOp.enable_flash_ich7 => Flashrom.enable_flash_ich7
  | ChipsetOp.enable_flash_ich8 => Flashrom.enable_flash_ich8
  | ChipsetOp.enable_flash_ich9 => Flashrom.enable_flash_ich9
  | ChipsetOp.enable_flash_ich10 => Flashrom.enable_flash_ich10
  | ChipsetOp.enable_flash_vt823x => Flashrom.enable_flash_vt823x
  | ChipsetOp.enable_flash_vt8237s_spi => Flashrom.enable_flash_vt8237s_spi
  | ChipsetOp.enable_flash_amd8111 => Flashrom.enable_flash_amd8111
  | ChipsetOp.enable_flash_cs5530 => Flashrom.enable_flash_cs5530
  | ChipsetOp.enable_flash_sc1100 => Flashrom.enable_flash_sc1100
  | ChipsetOp.enable_flash_sis5595 => Flashrom.enable_flash_sis5595
  | ChipsetOp.enable_flash_cs5536 => Flashrom.enable_flash_cs5536
  | ChipsetOp.enable_flash_sb600 => Flashrom.enable_flash_sb600
  | ChipsetOp.enable_flash_ali_m1533 => Flashrom.enable_flash_ali_m1533
  | ChipsetOp.enable_flash_ck804 => Flashrom.enable_flash_ck804
  | ChipsetOp.enable_flash_mcp55 => Flashrom.enable_flash_mcp55
  | ChipsetOp.enable_flash_sb400 => Flashrom.enable_flash_sb400
  | ChipsetOp.enable_flash_ht1000 => Flashrom.enable_flash_ht1000
  | ChipsetOp.get_flashbase_sc520 => Flashrom.get_flashbase_sc520

/-- The loop of `chipset_flash_enable` over the entries of the table from
index `i` on: the index, the entry and the device of the first entry whose
device is found, if there is one. -/
def chipset_find : List FLASH_ENABLE → Nat → M (Option (Nat × FLASH_ENABLE × pci_dev))
  | [], _ => pure none
  | e :: rest, i => do
    match (← pci_dev_find e.vendor e.device) with
    | some dev => return some (i, e, dev)
    | none => chipset_find rest (i + 1)

/-- The block of `chipset_flash_enable` guarded by `if (dev)`, for the entry
`e = enables[i]` and the device found for it, with the `return ret` that
follows; the call through `doit` is given by `call`. -/
def chipset_enable_found (call : ChipsetOp → pci_dev → String → M Int)
    (e : FLASH_ENABLE) (dev : pci_dev) : M Int := do
  printf "Found chipset \"%s\", enabling flash write... " [Arg.s e.name]
  let ret ← call e.doit dev e.name
  if ret ≠ 0 then
    printf "FAILED!\n" []
  else
    printf "OK.\n" []
  return ret

/-- The function `chipset_flash_enable` over a table `tbl`, the calls through
`doit` being given by `call`. -/
def chipset_flash_enable_in (call : ChipsetOp → pci_dev → String → M Int)
    (tbl : List FLASH_ENABLE) : M Int := do
  match (← chipset_find tbl 0) with
  | some (_, e, dev) => chipset_enable_found call e dev
  | none => return (-2)

/-- The function `chipset_flash_enable`. -/
def chipset_flash_enable : M Int :=
  chipset_flash_enable_in ChipsetOp.run enables

/-! ## board_enable.c: identification of the mainboard -/

/-- The functions the table `board_pciid_enables` points to.  Some of them
(`it87xx_probe_spi_flash`, `wbsio_check_for_spi`) are defined in other files. -/
inductive BoardOp where
  | board_acorp_6a815epd
  | w83627hf_gpio24_raise_2e
  | board_artecgroup_dbe6x
  | board_asus_a7v8x_mx
  | ich2_gpio22_raise
  | board_asus_p5a
  | board_biostar_p4m80_m4
  | board_epox_ep_8k5a2
  | board_epox_ep_bx3
  | it87xx_probe_spi_flash
  | board_ga_k8n_sli
  | board_hp_dl145_g3_enable
  | board_ibm_x3455
  | wbsio_check_for_spi
  | board_kontron_986lcd_m
  | w83627thf_gpio4_4_raise_4e
  | w83627thf_gpio4_4_raise_2e
  | board_msi_kt4v
  | ich6_gpio19_raise
  | board_via_epia_sp
  | board_via_epia_m
deriving DecidableEq, Repr

/-- The type `struct board_pciid_enable`, declared in `flash.h`; its fields in
the order of the initialisers of the table.  A null `lb_vendor` or `lb_part`
is `none`.  `vendor_name` is null only in the end marker, which the lists of
entries used here leave out. -/
structure board_pciid_enable where
  first_vendor : Nat
  first_device : Nat
  first_card_vendor : Nat
  first_card_device : Nat
  second_vendor : Nat
  second_device : Nat
  second_card_vendor : Nat
  second_card_device : Nat
  lb_vendor : Option String
  lb_part : Option String
  vendor_name : String
  board_name : String
  enable : BoardOp
deriving DecidableEq, Repr

/-- The table `board_pciid_enables`, up to its end marker. -/
def board_pciid_enables : List board_pciid_enable := [
  ⟨0x8086, 0x1130, 0, 0, 0x105a, 0x0d30, 0x105a, 0x4d33,
   (some "acorp"), (some "6a815epd"), "Acorp", "6A815EPD", BoardOp.board_acorp_6a815epd⟩,
  ⟨0x1022, 0x746B, 0x1022, 0x36C0, 0, 0, 0, 0,
   (some "AGAMI"), (some "ARUMA"), "agami", "Aruma", BoardOp.w83627hf_gpio24_raise_2e⟩,
  ⟨0x1022, 0x2090, 0, 0, 0x1022, 0x2080, 0, 0,
   (some "artecgroup"), (some "dbe61"), "Artec Group", "DBE61", BoardOp.board_artecgroup_dbe6x⟩,
  ⟨0x1022, 0x2090, 0, 0, 0x1022, 0x2080, 0, 0,
   (some "artecgroup"), (some "dbe62"), "Artec Group", "DBE62", BoardOp.board_artecgroup_dbe6x⟩,
  ⟨0x1106, 0x3177, 0x1043, 0x80A1, 0x1106, 0x3205, 0x1043, 0x8118,
   none, none, "ASUS", "A7V8-MX SE", BoardOp.board_asus_a7v8x_mx⟩,
  ⟨0x8086, 0x1a30, 0x1043, 0x8070, 0x8086, 0x244b, 0x1043, 0x8028,
   none, none, "ASUS", "P4B266", BoardOp.ich2_gpio22_raise⟩,
  ⟨0x10B9, 0x1541, 0, 0, 0x10B9, 0x1533, 0, 0,
   (some "asus"), (some "p5a"), "ASUS", "P5A", BoardOp.board_asus_p5a⟩,
  ⟨0x1106, 0x3149, 0x1565, 0x3206, 0x1106, 0x3344, 0x1565, 0x1202,
   none, none, "BioStar", "P4M80-M4", BoardOp.board_biostar_p4m80_m4⟩,
  ⟨0x1106, 0x3177, 0x1106, 0x3177, 0x1106, 0x3059, 0x1695, 0x3005,
   none, none, "EPoX", "EP-8K5A2", BoardOp.board_epox_ep_8k5a2⟩,
  ⟨0x8086, 0x7110, 0, 0, 0x8086, 0x7190, 0, 0,
   (some "epox"), (some "ep-bx3"), "EPoX", "EP-BX3", BoardOp.board_epox_ep_bx3⟩,
  ⟨0x1039, 0x0761, 0, 0, 0, 0, 0, 0,
   (some "gigabyte"), (some "2761gxdk"), "GIGABYTE", "GA-2761GXDK", BoardOp.it87xx_probe_spi_flash⟩,
  ⟨0x1106, 0x3227, 0x1458, 0x5001, 0x10ec, 0x8139, 0x1458, 0xe000,
   none, none, "GIGABYTE", "GA-7VT600", BoardOp.board_biostar_p4m80_m4⟩,
  ⟨0x10DE, 0x0050, 0x1458, 0x0C11, 0x10DE, 0x005e, 0x1458, 0x5000,
   none, none, "GIGABYTE", "GA-K8N-SLI", BoardOp.board_ga_k8n_sli⟩,
  ⟨0x10de, 0x0360, 0, 0, 0, 0, 0, 0,
   (some "gigabyte"), (some "m57sli"), "GIGABYTE", "GA-M57SLI-S4", BoardOp.it87xx_probe_spi_flash⟩,
  ⟨0x10de, 0x03e0, 0, 0, 0, 0, 0, 0,
   (some "gigabyte"), (some "m61p"), "GIGABYTE", "GA-M61P-S3", BoardOp.it87xx_probe_spi_flash⟩,
  ⟨0x1002, 0x4398, 0x1458, 0x5004, 0x1002, 0x4391, 0x1458, 0xb000,
   none, none, "GIGABYTE", "GA-MA78G-DS3H", BoardOp.it87xx_probe_spi_flash⟩,
  ⟨0x1002, 0x4398, 0x1458, 0x5004, 0x1002, 0x4391, 0x1458, 0xb002,
   none, none, "GIGABYTE", "GA-MA78GM-S2H", BoardOp.it87xx_probe_spi_flash⟩,
  ⟨0x1002, 0x438d, 0x1458, 0x5001, 0x1002, 0x5956, 0x1002, 0x5956,
   (some "gigabyte"), (some "ma790fx-dq6"), "GIGABYTE", "GA-MA790FX-DQ6", BoardOp.it87xx_probe_spi_flash⟩,
  ⟨0x1166, 0x0223, 0x103c, 0x320d, 0x102b, 0x0522, 0x103c, 0x31fa,
   (some "hp"), (some "dl145_g3"), "HP", "DL145 G3", BoardOp.board_hp_dl145_g3_enable⟩,
  ⟨0x1166, 0x0205, 0x1014, 0x0347, 0, 0, 0, 0,
   (some "ibm"), (some "x3455"), "IBM", "x3455", BoardOp.board_ibm_x3455⟩,
  ⟨0x1039, 0x5513, 0x8086, 0xd61f, 0x1039, 0x6330, 0x8086, 0xd61f,
   none, none, "Intel", "D201GLY", BoardOp.wbsio_check_for_spi⟩,
  ⟨0x1022, 0x7468, 0, 0, 0, 0, 0, 0,
   (some "iwill"), (some "dk8_htx"), "IWILL", "DK8-HTX", BoardOp.w83627hf_gpio24_raise_2e⟩,
  ⟨0x8086, 0x27b8, 0, 0, 0, 0, 0, 0,
   (some "kontron"), (some "986lcd-m"), "Kontron", "986LCD-M", BoardOp.board_kontron_986lcd_m⟩,
  ⟨0x10ec, 0x8168, 0x10ec, 0x8168, 0x104c, 0x8023, 0x104c, 0x8019,
   (some "kontron"), (some "986lcd-m"), "Kontron", "986LCD-M", BoardOp.board_kontron_986lcd_m⟩,
  ⟨0x10de, 0x005e, 0, 0, 0, 0, 0, 0,
   (some "msi"), (some "k8n-neo3"), "MSI", "MS-7135 (K8N Neo3)", BoardOp.w83627thf_gpio4_4_raise_4e⟩,
  ⟨0x1106, 0x3149, 0x1462, 0x7094, 0x10ec, 0x8167, 0x1462, 0x094c,
   none, none, "MSI", "MS-6702E (K8T Neo2-F)", BoardOp.w83627thf_gpio4_4_raise_2e⟩,
  ⟨0x1106, 0x0571, 0x1462, 0x7120, 0, 0, 0, 0,
   (some "msi"), (some "kt4v"), "MSI", "MS-6712 (KT4V)", BoardOp.board_msi_kt4v⟩,
  ⟨0x13f6, 0x0111, 0x1462, 0x5900, 0x1106, 0x3177, 0x1106, 0,
   (some "msi"), (some "kt4ultra"), "MSI", "MS-6590 (KT4 Ultra)", BoardOp.board_msi_kt4v⟩,
  ⟨0x8086, 0x2658, 0x1462, 0x7046, 0x1106, 0x3044, 0x1462, 0x046d,
   none, none, "MSI", "MS-7046", BoardOp.ich6_gpio19_raise⟩,
  ⟨0x8086, 0x1076, 0x8086, 0x1176, 0x1106, 0x3059, 0x10f1, 0x2498,
   none, none, "Tyan", "S2498 (Tomcat K7M)", BoardOp.board_asus_a7v8x_mx⟩,
  ⟨0x1106, 0x0314, 0x1106, 0xaa08, 0x1106, 0x3227, 0x1106, 0xAA08,
   none, none, "VIA", "EPIA-CN", BoardOp.board_via_epia_sp⟩,
  ⟨0x1106, 0x3177, 0x1106, 0xAA01, 0x1106, 0x3123, 0x1106, 0xAA01,
   none, none, "VIA", "EPIA M/MII/...", BoardOp.board_via_epia_m⟩,
  ⟨0x1106, 0x3227, 0x1106, 0xAA01, 0x1106, 0x0259, 0x1106, 0xAA01,
   none, none, "VIA", "EPIA SP", BoardOp.board_via_epia_sp⟩,
  ⟨0x1106, 0x5337, 0x1458, 0xb003, 0x1106, 0x287e, 0x1106, 0x337e,
   (some "via"), (some "pc3500g"), "VIA", "PC3500G", BoardOp.it87xx_probe_spi_flash⟩]

/-- The C library function `strcasecmp` on the characters of two strings: the
strings are compared byte by byte after `tolower`; the result is zero when
they agree and the difference of the first two differing bytes otherwise. -/
def strcasecmp_chars : List Char → List Char → Int
  | [], [] => 0
  | [], b :: _ => 0 - (b.toLower.toNat : Int)
  | a :: _, [] => (a.toLower.toNat : Int)
  | a :: as, b :: bs =>
    if a.toLower = b.toLower then strcasecmp_chars as bs
    else (a.toLower.toNat : Int) - (b.toLower.toNat : Int)

/-- The call `strcasecmp(s1, s2)`. -/
def strcasecmp (s1 s2 : String) : Int :=
  strcasecmp_chars s1.toList s2.toList

/-- The function `board_kontron_986lcd_m`. -/
def board_kontron_986lcd_m (_name : String) : M Int := do
  let ICH7_GPIO_LVL2 : Nat := 0x38
  match (← pci_dev_find 0x8086 0x27b8) with
  | none =>
    fprintf_stderr "\nERROR: ICH7 LPC bridge not found.\n" []
    return (-1)
  | some dev =>
    let gpiobar : Nat := (← pci_read_word dev 0x48) &&& 0xfffc
    let val ← INL (gpiobar + ICH7_GPIO_LVL2)
    printf_debug "\nGPIOBAR=0x%04x GP_LVL: 0x%08x\n" (pure [Arg.u gpiobar, Arg.u val])
    let val := val ||| ((1 <<< 2) ||| (1 <<< 3))
    OUTL val (gpiobar + ICH7_GPIO_LVL2)
    return 0

/-- A call through `board->enable`: the function modelled above where the
table names it, and `other` for the functions that are not modelled. -/
def BoardOp.run (other : BoardOp → String → M Int) : BoardOp → String → M Int
  | BoardOp.board_kontron_986lcd_m => Flashrom.board_kontron_986lcd_m
  | op => other op

/-- The test `vendor && (!board->lb_vendor || strcasecmp(board->lb_vendor,
vendor))` of `board_match_coreboot_name`. -/
def vendor_mismatch (vendor : Option String) (board : board_pciid_enable) : Bool :=
  match vendor with
  | some v =>
    (match board.lb_vendor with
     | none => true
     | some lbv => decide (strcasecmp lbv v ≠ 0))
  | none => false

/-- The test `!board->lb_part || strcasecmp(board->lb_part, part)` of
`board_match_coreboot_name`. -/
def part_mismatch (part : String) (board : board_pciid_enable) : Bool :=
  match board.lb_part with
  | none => true
  | some lbp => decide (strcasecmp lbp part ≠ 0)

/-- The loop of `board_match_coreboot_name` over the entries still to be
visited, with the current value of `partmatch`, followed by the code after the
loop. -/
def board_match_coreboot_name_loop (vendor : Option String) (part : String) :
    List board_pciid_enable → Option board_pciid_enable → M (Option board_pciid_enable)
  | [], partmatch => do
    match partmatch with
    | some b => return some b
    | none =>
      printf "\nUnknown vendor:board from coreboot table or -m option: %s:%s\n\n"
        [Arg.sp vendor, Arg.s part]
      return none
  | board :: rest, partmatch => do
    if vendor_mismatch vendor board then
      board_match_coreboot_name_loop vendor part rest partmatch
    else if part_mismatch part board then
      board_match_coreboot_name_loop vendor part rest partmatch
    else if (← pci_dev_find board.first_vendor board.first_device).isNone then
      board_match_coreboot_name_loop vendor part rest partmatch
    else if board.second_vendor ≠ 0 ∧
        (← pci_dev_find board.second_vendor board.second_device).isNone then
      board_match_coreboot_name_loop vendor part rest partmatch
    else if vendor.isSome then
      return some board
    else
      match partmatch with
      | some pm =>
        printf "AMBIGUOUS BOARD NAME: %s\n" [Arg.s part]
        printf "At least vendors \x27%s\x27 and \x27%s\x27 match.\n"
          [Arg.sp pm.lb_vendor, Arg.sp board.lb_vendor]
        printf "Please use the full -m vendor:part syntax.\n" []
        return none
      | none => board_match_coreboot_name_loop vendor part rest (some board)

/-- The function `board_match_coreboot_name` over a table `tbl`; a null
`vendor` is `none`. -/
def board_match_coreboot_name_in (tbl : List board_pciid_enable)
    (vendor : Option String) (part : String) : M (Option board_pciid_enable) :=
  board_match_coreboot_name_loop vendor part tbl none

/-- The function `board_match_coreboot_name`. -/
def board_match_coreboot_name (vendor : Option String) (part : String) :
    M (Option board_pciid_enable) :=
  board_match_coreboot_name_in board_pciid_enables vendor part

/-- The function `board_match_pci_card_ids` over the entries still to be
visited. -/
def board_match_pci_card_ids_in : List board_pciid_enable → M (Option board_pciid_enable)
  | [] => return none
  | board :: rest => do
    if board.first_card_vendor = 0 ∨ board.first_card_device = 0 then
      board_match_pci_card_ids_in rest
    else if (← pci_card_find board.first_vendor board.first_device
        board.first_card_vendor board.first_card_device).isNone then
      board_match_pci_card_ids_in rest
    else if board.second_vendor ≠ 0 then
      if board.second_card_vendor ≠ 0 then
        if (← pci_card_find board.second_vendor board.second_device
            board.second_card_vendor board.second_card_device).isNone then
          board_match_pci_card_ids_in rest
        else
          return some board
      else
        if (← pci_dev_find board.second_vendor board.second_device).isNone then
          board_match_pci_card_ids_in rest
        else
          return some board
    else
      return some board

/-- The function `board_match_pci_card_ids`. -/
def board_match_pci_card_ids : M (Option board_pciid_enable) :=
  board_match_pci_card_ids_in board_pciid_enables

/-- The two lookups at the start of `board_flash_enable`: the lookup by name
when `part` is not null, then the lookup by PCI ids when `board` is still
null. -/
def board_lookup_in (tbl : List board_pciid_enable) (vendor part : Option String) :
    M (Option board_pciid_enable) := do
  let board ← (match part with
    | some p => board_match_coreboot_name_in tbl vendor p
    | none => pure none)
  match board with
  | none => board_match_pci_card_ids_in tbl
  | some b => return some b

/-- The block of `board_flash_enable` guarded by `if (board)`, with the
`return ret` that follows; the call through `board->enable` is given by
`call`. -/
def board_enable_found (call : BoardOp → String → M Int) (b : board_pciid_enable) :
    M Int := do
  printf "Found board \"%s %s\", enabling flash write... "
    [Arg.s b.vendor_name, Arg.s b.board_name]
  let ret ← call b.enable b.vendor_name
  if ret ≠ 0 then
    printf "FAILED!\n" []
  else
    printf "OK.\n" []
  return ret

/-- The function `board_flash_enable` over a table `tbl`, the calls through
`board->enable` being given by `call`; a null `vendor` or `part` is `none`. -/
def board_flash_enable_in (call : BoardOp → String → M Int)
    (tbl : List board_pciid_enable) (vendor part : Option String) : M Int := do
  match (← board_lookup_in tbl vendor part) with
  | some b => board_enable_found call b
  | none => return 0

/-- The function `board_flash_enable`; the functions behind `board->enable`
are a parameter, several of them being defined in other files. -/
def board_flash_enable (call : BoardOp → String → M Int)
    (vendor part : Option String) : M Int :=
  board_flash_enable_in call board_pciid_enables vendor part

/-- Modelled from the spec: the type `struct board_info`, declared in `flash.h`,
which is not among these sources; the initialisers of `boards_ok` and
`boards_bad` give it two strings, the vendor and the name of a board, the
"vendor/board" pair of the "registry listing function for human display".
`vendor` is null only in the end marker, which the lists used here leave
out. -/
structure board_info where
  vendor : String
  name : String
deriving DecidableEq, Repr

/-- The table `boards_ok`, up to its end marker. -/
def boards_ok : List board_info := [
  ⟨"Abit", "AX8"⟩,
  ⟨"Advantech", "PCM-5820"⟩,
  ⟨"ASI", "MB-5BLMP"⟩,
  ⟨"ASUS", "A8N-E"⟩,
  ⟨"ASUS", "A8NE-FM/S"⟩,
  ⟨"ASUS", "A8N-SLI"⟩,
  ⟨"ASUS", "A8N-SLI Premium"⟩,
  ⟨"ASUS", "A8V-E Deluxe"⟩,
  ⟨"ASUS", "M2A-VM"⟩,
  ⟨"ASUS", "M2N-E"⟩,
  ⟨"ASUS", "M2V"⟩,
  ⟨"ASUS", "P2B"⟩,
  ⟨"ASUS", "P2B-F"⟩,
  ⟨"ASUS", "P2B-D"⟩,
  ⟨"ASUS", "P2B-DS"⟩,
  ⟨"ASUS", "A7N8X Deluxe"⟩,
  ⟨"ASUS", "A7V400-MX"⟩,
  ⟨"ASUS", "A7V8X-MX"⟩,
  ⟨"ASUS", "A8V-E SE"⟩,
  ⟨"ASUS", "P2L97-S"⟩,
  ⟨"ASUS", "M2A-MX"⟩,
  ⟨"ASUS", "P5B-Deluxe"⟩,
  ⟨"ASUS", "P6T Deluxe V2"⟩,
  ⟨"A-Trend", "ATC-6220"⟩,
  ⟨"BCOM", "WinNET100"⟩,
  ⟨"GIGABYTE", "GA-6BXC"⟩,
  ⟨"GIGABYTE", "GA-6BXDU"⟩,
  ⟨"GIGABYTE", "GA-6ZMA"⟩,
  ⟨"Intel", "EP80759"⟩,
  ⟨"Jetway", "J7F4K1G5D-PB"⟩,
  ⟨"MSI", "MS-6570 (K7N2)"⟩,
  ⟨"MSI", "MS-7065"⟩,
  ⟨"MSI", "MS-7236 (945PL Neo3)"⟩,
  ⟨"MSI", "MS-7345 (P35 Neo2-FIR)"⟩,
  ⟨"MSI", "MS-7168 (Orion)"⟩,
  ⟨"MSI", "MS-7255 (P4M890M)"⟩,
  ⟨"NEC", "PowerMate 2000"⟩,
  ⟨"PC Engines", "Alix.1c"⟩,
  ⟨"PC Engines", "Alix.2c2"⟩,
  ⟨"PC Engines", "Alix.2c3"⟩,
  ⟨"PC Engines", "Alix.3c3"⟩,
  ⟨"PC Engines", "Alix.3d3"⟩,
  ⟨"RCA", "RM4100"⟩,
  ⟨"Supermicro", "H8QC8"⟩,
  ⟨"Sun", "Blade x6250"⟩,
  ⟨"Thomson", "IP1000"⟩,
  ⟨"T-Online", "S-100"⟩,
  ⟨"Tyan", "S1846"⟩,
  ⟨"Tyan", "S2881"⟩,
  ⟨"Tyan", "S2882"⟩,
  ⟨"Tyan", "S2882-D"⟩,
  ⟨"Tyan", "S2891"⟩,
  ⟨"Tyan", "S2892"⟩,
  ⟨"Tyan", "S2895"⟩,
  ⟨"Tyan", "S3095"⟩,
  ⟨"Tyan", "S5180"⟩,
  ⟨"Tyan", "S5191"⟩,
  ⟨"Tyan", "S5197"⟩,
  ⟨"Tyan", "S5211"⟩,
  ⟨"Tyan", "S5211-1U"⟩,
  ⟨"Tyan", "S5220"⟩,
  ⟨"Tyan", "S5375"⟩,
  ⟨"Tyan", "iS5375-1U"⟩,
  ⟨"Tyan", "S5376G2NR/S5376WAG2NR"⟩,
  ⟨"Tyan", "S5377"⟩,
  ⟨"Tyan", "S5397"⟩,
  ⟨"VIA", "EPIA-LN"⟩,
  ⟨"VIA", "VB700X"⟩,
  ⟨"VIA", "NAB74X0"⟩,
  ⟨"VIA", "pc2500e"⟩]

/-- The table `boards_bad`, up to its end marker. -/
def boards_bad : List board_info := [
  ⟨"Abit", "IS-10"⟩,
  ⟨"ASUS", "M3N78 Pro"⟩,
  ⟨"ASUS", "MEW-AM"⟩,
  ⟨"ASUS", "MEW-VM"⟩,
  ⟨"ASUS", "P3B-F"⟩,
  ⟨"ASUS", "P5B"⟩,
  ⟨"ASUS", "P5BV-M"⟩,
  ⟨"Biostar", "M6TBA"⟩,
  ⟨"Boser", "HS-6637"⟩,
  ⟨"DFI", "855GME-MGF"⟩,
  ⟨"FIC", "VA-502"⟩,
  ⟨"MSI", "MS-6178"⟩,
  ⟨"MSI", "MS-7260 (K9N Neo)"⟩,
  ⟨"PCCHIPS", "M537DMA33"⟩,
  ⟨"Soyo", "SY-5VD"⟩,
  ⟨"Sun", "Fire x4540"⟩,
  ⟨"Sun", "Fire x4150"⟩,
  ⟨"Sun", "Fire x4200"⟩,
  ⟨"Sun", "Fire x4600"⟩]

/-- The C library function `strlen`: the number of bytes of the string. -/
def strlen (s : String) : Nat := s.utf8ByteSize

/-- The loop bound `width - strlen(s)` of the padding loops: `strlen` yields a
`size_t`, so the subtraction is done in 64-bit unsigned arithmetic and wraps
when the string is longer than `width`. -/
def pad_count (width : Nat) (s : String) : Nat :=
  (width % 2 ^ 64 + 2 ^ 64 - strlen s % 2 ^ 64) % 2 ^ 64

/-- The loop `for (j = 0; j < n; j++) printf(" ");` for a bound `n`: one space
per round.  (`j` is an `int`; for a bound beyond `INT_MAX` the C loop has no
defined behaviour, here it goes on printing.) -/
def print_pad : Nat → M Unit
  | 0 => pure ()
  | n + 1 => do
    printf " " []
    print_pad n

/-- The function `print_supported_boards_helper`, over the entries up to the
end marker. -/
def print_supported_boards_helper : List board_info → M Unit
  | [] => pure ()
  | b :: rest => do
    printf "%s" [Arg.s b.vendor]
    print_pad (pad_count 25 b.vendor)
    printf "%s" [Arg.s b.name]
    print_pad (pad_count 23 b.name)
    printf "\n" []
    print_supported_boards_helper rest

/-- The first loop of `print_supported_boards`, over the entries of the table
still to be listed. -/
def print_supported_boards_loop : List board_pciid_enable → M Unit
  | [] => pure ()
  | b :: rest => do
    printf "%s" [Arg.s b.vendor_name]
    print_pad (pad_count 25 b.vendor_name)
    printf "%s" [Arg.s b.board_name]
    print_pad (pad_count 25 b.board_name)
    if b.lb_vendor.isSome then
      printf "-m %s:%s\n" [Arg.sp b.lb_vendor, Arg.sp b.lb_part]
    else
      printf "(none, board is autodetected)\n" []
    print_supported_boards_loop rest

/-- The function `print_supported_boards`. -/
def print_supported_boards : M Unit := do
  printf "\nSupported boards which need write-enable code:\n\nVendor:                  Board:                   Required option:\n\n" []
  print_supported_boards_loop board_pciid_enables
  printf "\nSupported boards which don\x27t need write-enable code:\n\n" []
  print_supported_boards_helper boards_ok
  printf "\nBoards which have been verified to NOT work (yet):\n\n" []
  print_supported_boards_helper boards_bad

/-! ## Concrete worlds -/

/-- The world at program start: the given device list and responses of the
environment, an empty trace and the globals at their initial values. -/
def initial_world (devices : List pci_dev) (input : List Int) : World :=
  { devices := devices, input := input, trace := [], verbose := false,
    flashbase := 0, flashbus := flashbus_t.BUS_TYPE_LPC, spibar := 0,
    sb600_spibar := 0, ichspi_lock := 0 }

/-- An Intel ICH2 LPC bridge (8086:2440). -/
def dev_ich2 : pci_dev :=
  { addr := 0xf8, vendor_id := 0x8086, device_id := 0x2440,
    subsys_vendor := 0, subsys_device := 0 }

/-- A system whose only PCI device is an ICH2; `BIOS_CNTL` reads 0 and then
reads back 1. -/
def world_ich2 : World := initial_world [dev_ich2] [0, 1]

/-- An Intel ICH7 LPC bridge (8086:27b8). -/
def dev_ich7 : pci_dev :=
  { addr := 0xf8, vendor_id := 0x8086, device_id := 0x27b8,
    subsys_vendor := 0x8086, subsys_device := 0x27b8 }

/-- A system whose only PCI device is an ICH7. -/
def world_ich7 : World := initial_world [dev_ich7] []

/-- A Realtek RTL8168 network controller (10ec:8168) with subsystem 10ec:8168. -/
def dev_rtl8168 : pci_dev :=
  { addr := 0x200, vendor_id := 0x10ec, device_id := 0x8168,
    subsys_vendor := 0x10ec, subsys_device := 0x8168 }

/-- A TI IEEE 1394 controller (104c:8023) with subsystem 104c:8019. -/
def dev_ti_1394 : pci_dev :=
  { addr := 0x300, vendor_id := 0x104c, device_id := 0x8023,
    subsys_vendor := 0x104c, subsys_device := 0x8019 }

/-- A system with the PCI ids of both Kontron 986LCD-M entries present; the
`GPIOBASE` register of the ICH7 reads 0x0481 and `GP_LVL2` reads 0. -/
def world_kontron_both : World :=
  initial_world [dev_ich7, dev_rtl8168, dev_ti_1394] [0x0481, 0]

/-- The first Kontron 986LCD-M entry of `board_pciid_enables` (index 22). -/
def board_kontron_first : board_pciid_enable :=
  ⟨0x8086, 0x27b8, 0, 0, 0, 0, 0, 0,
   some "kontron", some "986lcd-m", "Kontron", "986LCD-M", BoardOp.board_kontron_986lcd_m⟩

/-- The second Kontron 986LCD-M entry of `board_pciid_enables` (index 23). -/
def board_kontron_second : board_pciid_enable :=
  ⟨0x10ec, 0x8168, 0x10ec, 0x8168, 0x104c, 0x8023, 0x104c, 0x8019,
   some "kontron", some "986lcd-m", "Kontron", "986LCD-M", BoardOp.board_kontron_986lcd_m⟩

/-- A synthetic entry with firmware name ("ACME", "Board1") that needs an
ICH7. -/
def board_acme : board_pciid_enable :=
  ⟨0x8086, 0x27b8, 0, 0, 0, 0, 0, 0,
   some "ACME", some "Board1", "Acme", "Board 1", BoardOp.board_epox_ep_bx3⟩

/-- A synthetic entry with firmware name ("alpha", "X") that needs an ICH7. -/
def board_alpha_x : board_pciid_enable :=
  ⟨0x8086, 0x27b8, 0, 0, 0, 0, 0, 0,
   some "alpha", some "X", "Alpha", "X", BoardOp.board_epox_ep_bx3⟩

/-- A synthetic entry with firmware name ("beta", "X") that needs an ICH7. -/
def board_beta_x : board_pciid_enable :=
  ⟨0x8086, 0x27b8, 0, 0, 0, 0, 0, 0,
   some "beta", some "X", "Beta", "X", BoardOp.board_ibm_x3455⟩

/-- A second synthetic entry with firmware name ("alpha", "X") that needs an
ICH7: another revision of the board of `board_alpha_x`, as the registry has two
entries for the Kontron 986LCD-M. -/
def board_alpha2_x : board_pciid_enable :=
  ⟨0x8086, 0x27b8, 0, 0, 0, 0, 0, 0,
   some "alpha", some "X", "Alpha", "X rev. 2", BoardOp.board_epox_ep_bx3⟩

/-- A stand-in for a function behind a function pointer of a table: it leaves
a record of the call, with the name it was given, in the trace and returns
`r`. -/
def recording_call (r : Int) (name : String) : M Int := do
  extern_call name
  return r

/-- A system whose only PCI device, an Intel 440BX host bridge (8086:7190), is
not in the table `enables`. -/
def world_unknown : World :=
  initial_world [{ addr := 0, vendor_id := 0x8086, device_id := 0x7190,
                   subsys_vendor := 0, subsys_device := 0 }] [1, 2, 3]

/-! ## Predicates used in the statements -/

/-- A computation is safe for `Q`: whenever it returns, the value satisfies `Q`;
when it does not return, the process has left through `exit(1)` or a mapping of
physical memory has failed. -/
def Safe {α : Type} (Q : α → Prop) (m : M α) : Prop :=
  ∀ w, match (m w).1 with
    | Outcome.ret a => Q a
    | Outcome.exit c => c = 1
    | Outcome.fatal _ => True

/-- The characters of a string after `tolower`: two strings differ only in the
case of their ASCII letters when these lists are equal. -/
def lower_chars (s : String) : List Char := s.toList.map Char.toLower

/-- The vendor condition of the lookup by name as the spec words it: when a
vendor is supplied, the entry has a firmware vendor and it matches the supplied
one without regard to case. -/
def vendor_matches (vendor : Option String) (b : board_pciid_enable) : Bool :=
  match vendor with
  | some v =>
    (match b.lb_vendor with
     | some lbv => decide (strcasecmp lbv v = 0)
     | none => false)
  | none => true

/-- The part condition of the lookup by name as the spec words it: the entry
has a firmware part name and it matches the supplied part without regard to
case. -/
def part_matches (part : String) (b : board_pciid_enable) : Bool :=
  match b.lb_part with
  | some lbp => decide (strcasecmp lbp part = 0)
  | none => false

/-- The filter of the lookup by name as the spec words it: vendor and part
match, a device with the first (vendor, device) id is present and, when
`second_vendor` is set, a device with the second id as well. -/
def name_candidate (devices : List pci_dev) (vendor : Option String) (part : String)
    (b : board_pciid_enable) : Bool :=
  vendor_matches vendor b && part_matches part b &&
  (pci_dev_find_in devices b.first_vendor b.first_device).isSome &&
  (decide (b.second_vendor = 0) ||
   (pci_dev_find_in devices b.second_vendor b.second_device).isSome)

/-- What the lookup by name yields, from `partmatch` and the candidates still
to come, in the order of the table: with a vendor supplied the first candidate;
without one the only candidate, and nothing when there is a second one. -/
def name_lookup_result (vendor_given : Bool) :
    Option board_pciid_enable → List board_pciid_enable → Option board_pciid_enable
  | partmatch, [] => partmatch
  | partmatch, b :: rest =>
    if vendor_given then some b
    else match partmatch with
      | some _ => none
      | none => name_lookup_result vendor_given (some b) rest

/-- The world after the three lines that report an ambiguous board name. -/
def after_ambiguity_report (part : String) (first second : board_pciid_enable)
    (w : World) : World :=
  { w with trace := w.trace ++
      [Event.printf "AMBIGUOUS BOARD NAME: %s\n" [Arg.s part],
       Event.printf "At least vendors \x27%s\x27 and \x27%s\x27 match.\n"
         [Arg.sp first.lb_vendor, Arg.sp second.lb_vendor],
       Event.printf "Please use the full -m vendor:part syntax.\n" []] }

/-- The structural predicate of the lookup by PCI ids as the spec words it: the
first subsystem id pair is set (both words non-zero) and a device with the first
(vendor, device) id carrying that pair is present; and, when `second_vendor` is
set, a device with the second id carrying the second subsystem pair is present
if `second_card_vendor` is set, or any device with the second id if it is
not. -/
def card_candidate (devices : List pci_dev) (b : board_pciid_enable) : Bool :=
  decide (b.first_card_vendor ≠ 0) && decide (b.first_card_device ≠ 0) &&
  (pci_card_find_in devices b.first_vendor b.first_device
    b.first_card_vendor b.first_card_device).isSome &&
  (decide (b.second_vendor = 0) ||
   (if b.second_card_vendor ≠ 0 then
      (pci_card_find_in devices b.second_vendor b.second_device
        b.second_card_vendor b.second_card_device).isSome
    else
      (pci_dev_find_in devices b.second_vendor b.second_device).isSome))

/-- A Realtek RTL8168 network controller (10ec:8168) whose subsystem ids
1458:e000 are not those the second Kontron entry asks for. -/
def dev_rtl8168_other_card : pci_dev :=
  { addr := 0x200, vendor_id := 0x10ec, device_id := 0x8168,
    subsys_vendor := 0x1458, subsys_device := 0xe000 }

/-- A system like `world_kontron_both`, except that the network controller
carries other subsystem ids than the second Kontron entry asks for. -/
def world_wrong_card : World :=
  initial_world [dev_ich7, dev_rtl8168_other_card, dev_ti_1394] []

/-- A system with an ICH2 whose `BIOS_CNTL` reads 0 and reads back 1 on the
first call, and reads 1 on the second. -/
def world_ich2_twice : World := initial_world [dev_ich2] [0, 1, 1]

/-- Whether an event is a mapping of physical memory. -/
def Event.is_physmap : Event → Bool
  | Event.physmap _ _ _ _ => true
  | _ => false

/-- None of the events of a list is a mapping of physical memory. -/
def no_physmap (l : List Event) : Bool := l.all (fun e => !e.is_physmap)

/-- The response of the environment that is `k` requests ahead, reduced to
`width` bytes: `w.answer 0 width` is what the next request will read. -/
def World.answer (w : World) (k width : Nat) : Nat :=
  (w.input.getD k 0 % (2 ^ (8 * width) : Nat)).toNat

/-- The world `w` after `k` more responses have been consumed and the events
`l` have happened, with the given values of the globals `flashbus`, `spibar`
and `ichspi_lock`; everything else is as in `w`. -/
def World.after (w : World) (k : Nat) (l : List Event) (bus : flashbus_t) (bar : Nat)
    (lock : Int) : World :=
  { w with input := w.input.drop k, trace := w.trace ++ l,
           flashbus := bus, spibar := bar, ichspi_lock := lock }

/-- A block that only reports: it always returns, with a value that satisfies
`Q`; it consumes `k` responses when `verbose` is set and none otherwise; the
events it adds are no mappings; it changes nothing else. -/
def DebugOnly {α : Type} (Q : α → Prop) (k : Nat) (m : M α) : Prop :=
  ∀ w : World, ∃ (a : α) (l : List Event), Q a ∧ no_physmap l = true ∧
    m w = (Outcome.ret a,
      { w with input := w.input.drop (if w.verbose = true then k else 0),
               trace := w.trace ++ l })

/-- The lengths of the mappings of physical memory a trace records, in order. -/
def physmap_lengths : List Event → List Nat
  | [] => []
  | Event.physmap _ _ len _ :: l => len :: physmap_lengths l
  | _ :: l => physmap_lengths l

/-- An Intel ICH8 LPC bridge (8086:2810). -/
def dev_ich8 : pci_dev :=
  { addr := 0xf8, vendor_id := 0x8086, device_id := 0x2810,
    subsys_vendor := 0x8086, subsys_device := 0x2810 }

/-- An Intel ICH9 LPC bridge (8086:2918). -/
def dev_ich9 : pci_dev :=
  { addr := 0xf8, vendor_id := 0x8086, device_id := 0x2918,
    subsys_vendor := 0x8086, subsys_device := 0x2918 }

/-- The responses of a south bridge whose `BIOS_CNTL` reads 1, whose register
0xf0 reads 0xfed1c001, whose control block is mapped at 0x10000, whose `GCS`
reads 0x400 (straps: SPI), whose `BUC` reads 0 and whose SPI status word reads
0x8000 (locked down). -/
def responses_spi_locked : List Int := [1, 0xfed1c001, 0x10000, 0x400, 0, 0x8000]

/-- A system with an ICH7 that answers `responses_spi_locked`. -/
def world_ich7_spi : World := initial_world [dev_ich7] responses_spi_locked

/-- A system with an ICH8 that answers `responses_spi_locked`. -/
def world_ich8_spi : World := initial_world [dev_ich8] responses_spi_locked

/-- A system with an ICH9 that answers `responses_spi_locked`. -/
def world_ich9_spi : World := initial_world [dev_ich9] responses_spi_locked

/-- A system with an ICH7 strapped to LPC: `BIOS_CNTL` reads 1, register 0xf0
reads 0xfed1c001, the control block is mapped at 0x10000 and `GCS` reads 0xc00. -/
def world_ich7_lpc : World := initial_world [dev_ich7] [1, 0xfed1c001, 0x10000, 0xc00, 0]

/-- The world a south bridge at address 0xf8 is left in by the write enable step
when `BIOS_CNTL` (register 0xdc) reads 1: one response is consumed and one read
is recorded. -/
def write_enabled (w : World) : World :=
  { w with input := w.input.tail, trace := w.trace ++ [Event.pci_read 1 0xf8 0xdc 1] }

/-- A system with an ICH7 whose control block cannot be mapped: `BIOS_CNTL`
reads 1, register 0xf0 reads 0xfed1c001 and the mapping primitive answers with
the null address. -/
def world_ich7_unmapped : World := initial_world [dev_ich7] [1, 0xfed1c001, 0]

/-- A system with an ICH8 strapped to LPC: `BIOS_CNTL` reads 1, register 0xf0
reads 0xfed1c001, the control block is mapped at 0x10000 and `GCS` reads
0xc00. -/
def world_ich8_lpc : World := initial_world [dev_ich8] [1, 0xfed1c001, 0x10000, 0xc00, 0]

/-- The three debug lines `enable_flash_ich` prints about the byte `old` it read
from `BIOS_CNTL`; they are printed only when `verbose` is set. -/
def bios_cntl_debug (verbose : Bool) (old : Nat) : List Event :=
  if verbose then
    [Event.printf "\nBIOS Lock Enable: %sabled, "
       [Arg.s (if old &&& (1 <<< 1) ≠ 0 then "en" else "dis")],
     Event.printf "BIOS Write Enable: %sabled, "
       [Arg.s (if old &&& (1 <<< 0) ≠ 0 then "en" else "dis")],
     Event.printf "BIOS_CNTL is 0x%x\n" [Arg.u old]]
  else []

/-- An AMD CS5536 companion chip (1022:2080). -/
def dev_cs5536 : pci_dev :=
  { addr := 0x78, vendor_id := 0x1022, device_id := 0x2080,
    subsys_vendor := 0x1022, subsys_device := 0x2080 }

/-- A Geode system on which every system call succeeds: `open` yields the
descriptor 3, MSR 0x1808 reads as eight bytes whose top byte is 0x25 (the others
zero), MSR 0x51400018 reads as eight zero bytes, both writes transfer eight
bytes. -/
def world_cs5536 : World :=
  initial_world [dev_cs5536]
    [3, 0, 8, 0, 0, 0, 0, 0, 0, 0, 0x25, 0, 8, 0, 8, 0, 0, 0, 0, 0, 0, 0, 0, 0, 8, 0]

/-- Bits 31:29 of a 32-bit `PAR` value are 100b: the register describes the
`BOOTCS` region. -/
def bootcs (p : Nat) : Bool := decide (p / 2 ^ 29 = 4)

/-- How many of the `PAR` values are read when they are visited in order up to
and including the first `BOOTCS` one. -/
def scanned : List Nat → Nat
  | [] => 0
  | p :: rest => if bootcs p then 1 else scanned rest + 1

/-- The sixteen 32-bit values the environment holds ready for the reads that
follow the two requests `getpagesize` and `physmap` of `get_flashbase_sc520`:
what `PAR0` to `PAR15` read as, one read each. -/
def par_values (w : World) : List Nat := (List.range 16).map (fun i => w.answer (2 + i) 4)

/-- An AMD Elan SC520 (1022:3000). -/
def dev_sc520 : pci_dev :=
  { addr := 0, vendor_id := 0x1022, device_id := 0x3000,
    subsys_vendor := 0, subsys_device := 0 }

/-- A system with an Elan SC520: the page size is 4096, the `MMCR` block is
mapped at 0x20000, `PAR0` reads 0 and `PAR1` reads 0x8a000012 (bits 31:29 are
100b, bit 25 is 1, bits 13:0 are 0x12). -/
def world_sc520 : World := initial_world [dev_sc520] [4096, 0x20000, 0, 0x8a000012, 4096]

/-- Two entries have the same firmware key: both carry a firmware name, their
primary PCI ids `(first_vendor, first_device)` are equal, and their firmware
vendors and their firmware parts are equal without regard to case. -/
def same_firmware_key (a b : board_pciid_enable) : Bool :=
  match a.lb_vendor, a.lb_part, b.lb_vendor, b.lb_part with
  | some va, some pa, some vb, some pb =>
    decide (a.first_vendor = b.first_vendor) && decide (a.first_device = b.first_device) &&
    decide (strcasecmp va vb = 0) && decide (strcasecmp pa pb = 0)
  | _, _, _, _ => false

/-- Two entries carry firmware part names that are equal without regard to
case. -/
def same_firmware_part (a b : board_pciid_enable) : Bool :=
  match a.lb_part, b.lb_part with
  | some pa, some pb => decide (strcasecmp pa pb = 0)
  | _, _ => false

/-- No byte of the string is the terminating NUL of a C string, before or after
`tolower`. -/
def nul_free (s : String) : Bool := s.toList.all (fun c => decide (c.toLower.toNat ≠ 0))

/-- A column of the listing as it is meant: the string, followed by as many
spaces as it is shorter than `width`. -/
def column (width : Nat) (s : String) : List Event :=
  Event.printf "%s" [Arg.s s] :: List.replicate (width - strlen s) (Event.printf " " [])

/-- The line of the listing for an entry of `board_pciid_enables`: two columns
of width 25 and the option that selects the board. -/
def enable_line (b : board_pciid_enable) : List Event :=
  column 25 b.vendor_name ++ column 25 b.board_name ++
    [if b.lb_vendor.isSome then Event.printf "-m %s:%s\n" [Arg.sp b.lb_vendor, Arg.sp b.lb_part]
     else Event.printf "(none, board is autodetected)\n" []]

/-- The line of the listing for an entry of `boards_ok` or `boards_bad`: a
column of width 25, a column of width 23 and the end of the line. -/
def info_line (b : board_info) : List Event :=
  column 25 b.vendor ++ column 23 b.name ++ [Event.printf "\n" []]

/-! ## Reasoning about `M` -/

theorem bind_apply {α β : Type} (m : M α) (f : α → M β) (w : World) :
    (m >>= f) w = match m w with
      | (Outcome.ret a, w1) => f a w1
      | (Outcome.exit c, w1) => (Outcome.exit c, w1)
      | (Outcome.fatal d, w1) => (Outcome.fatal d, w1) := rfl

theorem pure_apply {α : Type} (a : α) (w : World) :
    (pure a : M α) w = (Outcome.ret a, w) := rfl

theorem pci_dev_find_apply (v d : Nat) (w : World) :
    pci_dev_find v d w = (Outcome.ret (pci_dev_find_in w.devices v d), w) := rfl

theorem chipset_find_none (tbl : List FLASH_ENABLE) (k : Nat) (w : World)
    (h : ∀ e ∈ tbl, pci_dev_find_in w.devices e.vendor e.device = none) :
    chipset_find tbl k w = (Outcome.ret none, w) := by
  induction tbl generalizing k with
  | nil => rfl
  | cons e rest ih =>
    have he := h e (List.mem_cons_self _ _)
    have hr := ih (k + 1) (fun e' he' => h e' (List.mem_cons_of_mem _ he'))
    simp only [chipset_find, bind_apply, pci_dev_find_apply, he, hr]

theorem chipset_find_some (tbl : List FLASH_ENABLE) (k : Nat) (w : World)
    (h : ∃ e ∈ tbl, (pci_dev_find_in w.devices e.vendor e.device).isSome) :
    ∃ (i : Nat) (e : FLASH_ENABLE) (dev : pci_dev),
      tbl[i]? = some e ∧
      pci_dev_find_in w.devices e.vendor e.device = some dev ∧
      (∀ (j : Nat) (e' : FLASH_ENABLE), j < i → tbl[j]? = some e' →
        pci_dev_find_in w.devices e'.vendor e'.device = none) ∧
      chipset_find tbl k w = (Outcome.ret (some (k + i, e, dev)), w) := by
  induction tbl generalizing k with
  | nil => simp at h
  | cons e rest ih =>
    cases hfind : pci_dev_find_in w.devices e.vendor e.device with
    | some dev =>
      refine ⟨0, e, dev, by simp, hfind, ?_, ?_⟩
      · intro j e' hj; omega
      · simp only [chipset_find, bind_apply, pci_dev_find_apply, hfind]; rfl
    | none =>
      have h' : ∃ e' ∈ rest, (pci_dev_find_in w.devices e'.vendor e'.device).isSome := by
        obtain ⟨e', he', hp⟩ := h
        rcases List.mem_cons.mp he' with rfl | hmem
        · rw [hfind] at hp; simp at hp
        · exact ⟨e', hmem, hp⟩
      obtain ⟨i, e1, dev, hi, hd, hmin, hres⟩ := ih (k + 1) h'
      refine ⟨i + 1, e1, dev, by simpa using hi, hd, ?_, ?_⟩
      · intro j e' hj hje
        cases j with
        | zero => simp at hje; subst hje; exact hfind
        | succ j => exact hmin j e' (by omega) (by simpa using hje)
      · simp only [chipset_find, bind_apply, pci_dev_find_apply, hfind, hres]
        congr 4; omega

theorem index_unique_of_nodup_keys {α β : Type} (key : α → β) (l : List α)
    (hn : (l.map key).Nodup) (i j : Nat) (a b : α)
    (hi : l[i]? = some a) (hj : l[j]? = some b) (hk : key a = key b) : i = j := by
  have hi' : (l.map key)[i]? = some (key a) := by simp [hi]
  have hj' : (l.map key)[j]? = some (key a) := by simp [hj, hk]
  obtain ⟨h1, e1⟩ := List.getElem?_eq_some.mp hi'
  obtain ⟨h2, e2⟩ := List.getElem?_eq_some.mp hj'
  exact (hn.getElem_inj_iff).mp (e1.trans e2.symm)

theorem enables_ids_nodup : (enables.map (fun e => (e.vendor, e.device))).Nodup := by
  decide

theorem chipset_flash_enable_in_found (call : ChipsetOp → pci_dev → String → M Int)
    (tbl : List FLASH_ENABLE) (w : World) (i : Nat) (e : FLASH_ENABLE) (dev : pci_dev)
    (h : chipset_find tbl 0 w = (Outcome.ret (some (i, e, dev)), w)) :
    chipset_flash_enable_in call tbl w = chipset_enable_found call e dev w := by
  simp only [chipset_flash_enable_in, bind_apply, h]

theorem chipset_flash_enable_in_none (call : ChipsetOp → pci_dev → String → M Int)
    (tbl : List FLASH_ENABLE) (w : World)
    (h : chipset_find tbl 0 w = (Outcome.ret none, w)) :
    chipset_flash_enable_in call tbl w = (Outcome.ret (-2), w) := by
  simp only [chipset_flash_enable_in, bind_apply, h]; rfl

/-- C1: whenever some entry of `enables` has its (vendor, device) id among the
devices present, the loop of `chipset_flash_enable` stops at the entry `e` of
smallest index `i` whose id is present (every entry before it is absent), with
the device found for it, and what the function then runs is the call of
`e.doit` on that device and `e.name`. -/
theorem chipset_flash_enable_selects_first_present (w : World)
    (h : ∃ e ∈ enables, (pci_dev_find_in w.devices e.vendor e.device).isSome) :
    ∃ (i : Nat) (e : FLASH_ENABLE) (dev : pci_dev),
      enables[i]? = some e ∧
      pci_dev_find_in w.devices e.vendor e.device = some dev ∧
      (∀ (j : Nat) (e' : FLASH_ENABLE), j < i → enables[j]? = some e' →
        pci_dev_find_in w.devices e'.vendor e'.device = none) ∧
      chipset_find enables 0 w = (Outcome.ret (some (i, e, dev)), w) ∧
      chipset_flash_enable w = chipset_enable_found ChipsetOp.run e dev w := by
  obtain ⟨i, e, dev, hi, hd, hmin, hres⟩ := chipset_find_some enables 0 w h
  rw [Nat.zero_add] at hres
  exact ⟨i, e, dev, hi, hd, hmin, hres, chipset_flash_enable_in_found _ _ _ _ _ _ hres⟩

/-- C2: for every entry `e = enables[i]`, on a device list that holds exactly
one device, with the (vendor, device) id of `e`, the lookup of
`chipset_flash_enable` selects index `i`, entry `e` and that device; no two
entries of `enables` have the same (vendor, device) id. -/
theorem chipset_lookup_singleton_selects_entry (i : Nat) (e : FLASH_ENABLE) (d : pci_dev)
    (w : World) (hi : enables[i]? = some e)
    (hv : d.vendor_id = e.vendor) (hd : d.device_id = e.device) (hw : w.devices = [d]) :
    (enables.map (fun e => (e.vendor, e.device))).Nodup ∧
    chipset_find enables 0 w = (Outcome.ret (some (i, e, d)), w) ∧
    chipset_flash_enable w = chipset_enable_found ChipsetOp.run e d w := by
  have hpres : pci_dev_find_in w.devices e.vendor e.device = some d := by
    simp [pci_dev_find_in, hw, hv, hd]
  have hex : ∃ e ∈ enables, (pci_dev_find_in w.devices e.vendor e.device).isSome :=
    ⟨e, List.getElem?_mem hi, by simp [hpres]⟩
  obtain ⟨i', e', dev, hi', hd', _, hres⟩ := chipset_find_some enables 0 w hex
  rw [Nat.zero_add] at hres
  have hfound : d.vendor_id = e'.vendor ∧ d.device_id = e'.device ∧ dev = d := by
    simp only [pci_dev_find_in, hw, List.find?_cons, List.find?_nil] at hd'
    split at hd'
    · rename_i hc
      simp only [Bool.and_eq_true, beq_iff_eq] at hc
      exact ⟨hc.1, hc.2, (Option.some.inj hd').symm⟩
    · cases hd'
  have hidx : i' = i :=
    index_unique_of_nodup_keys (fun e => (e.vendor, e.device)) enables enables_ids_nodup
      i' i e' e hi' hi (by simp [← hfound.1, ← hfound.2.1, hv, hd])
  subst hidx
  have hee : e' = e := Option.some.inj (hi'.symm.trans hi)
  subst hee
  rw [hfound.2.2] at hres
  exact ⟨enables_ids_nodup, hres, chipset_flash_enable_in_found _ _ _ _ _ _ hres⟩

/-- C3: when no entry of `enables` has its (vendor, device) id among the devices
present, `chipset_flash_enable` returns -2 and leaves the world as it was: the
trace gains no event, no response of the hardware is consumed and, whatever
the functions behind `doit` are, none of them runs. -/
theorem chipset_flash_enable_no_match (call : ChipsetOp → pci_dev → String → M Int)
    (w : World)
    (h : ∀ e ∈ enables, pci_dev_find_in w.devices e.vendor e.device = none) :
    chipset_flash_enable_in call enables w = (Outcome.ret (-2), w) ∧
    chipset_flash_enable w = (Outcome.ret (-2), w) :=
  ⟨chipset_flash_enable_in_none _ _ _ (chipset_find_none _ _ _ h),
   chipset_flash_enable_in_none _ _ _ (chipset_find_none _ _ _ h)⟩

theorem chipset_flash_enable_selects_first_present_witness :
    (∃ e ∈ enables, (pci_dev_find_in world_ich2.devices e.vendor e.device).isSome) ∧
    ∃ (i : Nat) (e : FLASH_ENABLE) (dev : pci_dev),
      enables[i]? = some e ∧
      pci_dev_find_in world_ich2.devices e.vendor e.device = some dev ∧
      (∀ (j : Nat) (e' : FLASH_ENABLE), j < i → enables[j]? = some e' →
        pci_dev_find_in world_ich2.devices e'.vendor e'.device = none) ∧
      chipset_find enables 0 world_ich2 = (Outcome.ret (some (i, e, dev)), world_ich2) ∧
      chipset_flash_enable world_ich2 = chipset_enable_found ChipsetOp.run e dev world_ich2 :=
  have h : ∃ e ∈ enables, (pci_dev_find_in world_ich2.devices e.vendor e.device).isSome :=
    ⟨⟨0x8086, 0x2440, "Intel ICH2", ChipsetOp.enable_flash_ich_4e⟩, by decide, by decide⟩
  ⟨h, chipset_flash_enable_selects_first_present world_ich2 h⟩

theorem chipset_lookup_singleton_selects_entry_witness :
    (enables[8]? = some ⟨0x8086, 0x2440, "Intel ICH2", ChipsetOp.enable_flash_ich_4e⟩ ∧
     dev_ich2.vendor_id = 0x8086 ∧ dev_ich2.device_id = 0x2440 ∧
     world_ich2.devices = [dev_ich2]) ∧
    ((enables.map (fun e => (e.vendor, e.device))).Nodup ∧
     chipset_find enables 0 world_ich2 =
       (Outcome.ret (some (8, ⟨0x8086, 0x2440, "Intel ICH2", ChipsetOp.enable_flash_ich_4e⟩,
         dev_ich2)), world_ich2) ∧
     chipset_flash_enable world_ich2 =
       chipset_enable_found ChipsetOp.run
         ⟨0x8086, 0x2440, "Intel ICH2", ChipsetOp.enable_flash_ich_4e⟩ dev_ich2 world_ich2) :=
  ⟨⟨rfl, rfl, rfl, rfl⟩,
   chipset_lookup_singleton_selects_entry 8
     ⟨0x8086, 0x2440, "Intel ICH2", ChipsetOp.enable_flash_ich_4e⟩ dev_ich2 world_ich2
     rfl rfl rfl rfl⟩

theorem chipset_flash_enable_no_match_witness :
    (∀ e ∈ enables, pci_dev_find_in world_unknown.devices e.vendor e.device = none) ∧
    (chipset_flash_enable_in ChipsetOp.run enables world_unknown =
       (Outcome.ret (-2), world_unknown) ∧
     chipset_flash_enable world_unknown = (Outcome.ret (-2), world_unknown)) :=
  ⟨by decide, chipset_flash_enable_no_match ChipsetOp.run world_unknown (by decide)⟩

/-! ## Dispatch -/

theorem emit_apply (e : Event) (w : World) :
    emit e w = (Outcome.ret (), { w with trace := w.trace ++ [e] }) := rfl

theorem printf_apply (fmt : String) (args : List Arg) (w : World) :
    printf fmt args w = (Outcome.ret (), { w with trace := w.trace ++ [Event.printf fmt args] }) :=
  rfl

theorem chipset_enable_found_apply (call : ChipsetOp → pci_dev → String → M Int)
    (e : FLASH_ENABLE) (dev : pci_dev) (w : World) :
    chipset_enable_found call e dev w =
      match call e.doit dev e.name
          { w with trace := w.trace ++
              [Event.printf "Found chipset \"%s\", enabling flash write... " [Arg.s e.name]] } with
      | (Outcome.ret r, w1) =>
        (Outcome.ret r,
         { w1 with trace := w1.trace ++
             [Event.printf (if r ≠ 0 then "FAILED!\n" else "OK.\n") []] })
      | (Outcome.exit c, w1) => (Outcome.exit c, w1)
      | (Outcome.fatal d, w1) => (Outcome.fatal d, w1) := by
  simp only [chipset_enable_found, bind_apply, printf_apply]
  rcases hc : call e.doit dev e.name _ with ⟨o, w1⟩
  cases o with
  | ret r =>
    by_cases hr : r = 0
    · simp [hr]; rfl
    · simp [hr]; rfl
  | exit c => rfl
  | fatal d => rfl

theorem board_enable_found_apply (call : BoardOp → String → M Int)
    (b : board_pciid_enable) (w : World) :
    board_enable_found call b w =
      match call b.enable b.vendor_name
          { w with trace := w.trace ++
              [Event.printf "Found board \"%s %s\", enabling flash write... "
                [Arg.s b.vendor_name, Arg.s b.board_name]] } with
      | (Outcome.ret r, w1) =>
        (Outcome.ret r,
         { w1 with trace := w1.trace ++
             [Event.printf (if r ≠ 0 then "FAILED!\n" else "OK.\n") []] })
      | (Outcome.exit c, w1) => (Outcome.exit c, w1)
      | (Outcome.fatal d, w1) => (Outcome.fatal d, w1) := by
  simp only [board_enable_found, bind_apply, printf_apply]
  rcases hc : call b.enable b.vendor_name _ with ⟨o, w1⟩
  cases o with
  | ret r =>
    by_cases hr : r = 0
    · simp [hr]; rfl
    · simp [hr]; rfl
  | exit c => rfl
  | fatal d => rfl

theorem board_flash_enable_in_found (call : BoardOp → String → M Int)
    (tbl : List board_pciid_enable) (vendor part : Option String) (w w1 : World)
    (b : board_pciid_enable)
    (h : board_lookup_in tbl vendor part w = (Outcome.ret (some b), w1)) :
    board_flash_enable_in call tbl vendor part w = board_enable_found call b w1 := by
  simp only [board_flash_enable_in, bind_apply, h]

theorem board_flash_enable_in_none (call : BoardOp → String → M Int)
    (tbl : List board_pciid_enable) (vendor part : Option String) (w w1 : World)
    (h : board_lookup_in tbl vendor part w = (Outcome.ret none, w1)) :
    board_flash_enable_in call tbl vendor part w = (Outcome.ret 0, w1) := by
  simp only [board_flash_enable_in, bind_apply, h]; rfl

/-- C4: on a match each dispatcher runs the operation of the matched entry once
and returns its result.  For every table and whatever the functions behind the
function pointers are (`call`): when the loop of `chipset_flash_enable` stops at
entry `e` with device `dev`, the outcome of the function is the outcome of the
single call `call e.doit dev e.name` made after the line "Found chipset" is
printed, followed by "FAILED!" when the result is not zero and "OK." when it
is; when the lookups of `board_flash_enable` yield the entry `b`, the outcome is
that of the single call `call b.enable b.vendor_name`, reported the same way.
`call` occurs once on each right-hand side, so no other operation is run. -/
theorem dispatch_invokes_matched_operation_once :
    (∀ (call : ChipsetOp → pci_dev → String → M Int) (tbl : List FLASH_ENABLE) (w : World)
       (i : Nat) (e : FLASH_ENABLE) (dev : pci_dev),
       chipset_find tbl 0 w = (Outcome.ret (some (i, e, dev)), w) →
       chipset_flash_enable_in call tbl w =
         match call e.doit dev e.name
             { w with trace := w.trace ++
                 [Event.printf "Found chipset \"%s\", enabling flash write... " [Arg.s e.name]] } with
         | (Outcome.ret r, w1) =>
           (Outcome.ret r,
            { w1 with trace := w1.trace ++
                [Event.printf (if r ≠ 0 then "FAILED!\n" else "OK.\n") []] })
         | (Outcome.exit c, w1) => (Outcome.exit c, w1)
         | (Outcome.fatal d, w1) => (Outcome.fatal d, w1)) ∧
    (∀ (call : BoardOp → String → M Int) (tbl : List board_pciid_enable)
       (vendor part : Option String) (w w0 : World) (b : board_pciid_enable),
       board_lookup_in tbl vendor part w = (Outcome.ret (some b), w0) →
       board_flash_enable_in call tbl vendor part w =
         match call b.enable b.vendor_name
             { w0 with trace := w0.trace ++
                 [Event.printf "Found board \"%s %s\", enabling flash write... "
                   [Arg.s b.vendor_name, Arg.s b.board_name]] } with
         | (Outcome.ret r, w1) =>
           (Outcome.ret r,
            { w1 with trace := w1.trace ++
                [Event.printf (if r ≠ 0 then "FAILED!\n" else "OK.\n") []] })
         | (Outcome.exit c, w1) => (Outcome.exit c, w1)
         | (Outcome.fatal d, w1) => (Outcome.fatal d, w1)) := by
  constructor
  · intro call tbl w i e dev h
    rw [chipset_flash_enable_in_found call tbl w i e dev h, chipset_enable_found_apply]
  · intro call tbl vendor part w w0 b h
    rw [board_flash_enable_in_found call tbl vendor part w w0 b h, board_enable_found_apply]

/-! ## The results of the chipset operations -/

theorem Safe_pure {α : Type} (Q : α → Prop) (a : α) (h : Q a) : Safe Q (pure a) :=
  fun _ => h

theorem Safe_bind {α β : Type} {R : α → Prop} {Q : β → Prop} {m : M α} {f : α → M β}
    (hm : Safe R m) (hf : ∀ a, R a → Safe Q (f a)) : Safe Q (m >>= f) := by
  intro w
  have h1 := hm w
  rw [bind_apply]
  rcases hmw : m w with ⟨o, w1⟩
  rw [hmw] at h1
  cases o with
  | ret a => exact hf a h1 w1
  | exit c => exact h1
  | fatal d => trivial

theorem Safe_seq {α β : Type} {Q : β → Prop} {m : M α} {f : α → M β}
    (hm : Safe (fun _ => True) m) (hf : ∀ a, Safe Q (f a)) : Safe Q (m >>= f) :=
  Safe_bind hm (fun a _ => hf a)

theorem Safe_emit (e : Event) : Safe (fun _ => True) (emit e) := fun _ => trivial

theorem Safe_request (n : Nat) (ev : Nat → Event) : Safe (fun _ => True) (request n ev) :=
  fun _ => trivial

theorem Safe_syscall (fn : String) (args : List Int) :
    Safe (fun _ => True) (syscall fn args) := fun _ => trivial

theorem Safe_physmap (descr : String) (a l : Nat) :
    Safe (fun _ => True) (physmap descr a l) := by
  intro w
  by_cases h : respond 8 w = 0
  · simp [physmap, h]
  · simp [physmap, h]

theorem Safe_printf_debug (fmt : String) (args : M (List Arg))
    (h : Safe (fun _ => True) args) : Safe (fun _ => True) (printf_debug fmt args) := by
  intro w
  cases hv : w.verbose with
  | true =>
    have h1 : Safe (fun _ => True) (args >>= fun a => printf fmt a) :=
      Safe_bind h (fun a _ => Safe_emit _)
    have h2 := h1 w
    simpa [printf_debug, hv] using h2
  | false => simp [printf_debug, hv]

theorem Safe_exit_one {α : Type} (Q : α → Prop) : Safe Q (exit 1) := fun _ => rfl

theorem Safe_pci_dev_find (v d : Nat) : Safe (fun _ => True) (pci_dev_find v d) :=
  fun _ => trivial

theorem Safe_get_flashbus : Safe (fun _ => True) get_flashbus := fun _ => trivial

theorem Safe_set_flashbus (b : flashbus_t) : Safe (fun _ => True) (set_flashbus b) :=
  fun _ => trivial

theorem Safe_set_spibar (p : Nat) : Safe (fun _ => True) (set_spibar p) := fun _ => trivial

theorem Safe_set_sb600_spibar (p : Nat) : Safe (fun _ => True) (set_sb600_spibar p) :=
  fun _ => trivial

theorem Safe_set_ichspi_lock (v : Int) : Safe (fun _ => True) (set_ichspi_lock v) :=
  fun _ => trivial

theorem Safe_set_flashbase (v : Nat) : Safe (fun _ => True) (set_flashbase v) :=
  fun _ => trivial

theorem Safe_read8 (fd : Int) (buf : List Nat) : Safe (fun _ => True) (read8 fd buf) := by
  intro w
  simp only [read8]
  split_ifs <;> trivial

theorem Safe_forIn_list {α β : Type} (l : List α) (init : β) (f : α → β → M (ForInStep β))
    (h : ∀ a b, Safe (fun _ => True) (f a b)) : Safe (fun _ => True) (forIn l init f) := by
  induction l generalizing init with
  | nil => rw [List.forIn_nil]; exact Safe_pure _ _ trivial
  | cons a as ih =>
    rw [List.forIn_cons]
    refine Safe_bind (h a init) (fun x _ => ?_)
    cases x with
    | done b => exact Safe_pure _ _ trivial
    | yield b => exact ih b

theorem Safe_sc520_scan (mmcr : Nat) (l : List Nat) (parx : Nat) :
    Safe (fun _ => True) (sc520_scan mmcr l parx) := by
  induction l generalizing parx with
  | nil => exact Safe_pure _ _ trivial
  | cons i rest ih =>
    unfold sc520_scan
    refine Safe_seq (Safe_request _ _) (fun p => ?_)
    split
    · exact Safe_pure _ _ trivial
    · exact Safe_seq (Safe_pure _ _ trivial) (fun _ => ih p)

theorem Safe_pci_read_byte (dev : pci_dev) (reg : Nat) : Safe (fun _ => True) (pci_read_byte dev reg) :=
  fun _ => trivial

theorem Safe_pci_read_word (dev : pci_dev) (reg : Nat) : Safe (fun _ => True) (pci_read_word dev reg) :=
  fun _ => trivial

theorem Safe_pci_read_long (dev : pci_dev) (reg : Nat) : Safe (fun _ => True) (pci_read_long dev reg) :=
  fun _ => trivial

theorem Safe_pci_write_byte (dev : pci_dev) (reg val : Nat) : Safe (fun _ => True) (pci_write_byte dev reg val) :=
  fun _ => trivial

theorem Safe_pci_write_word (dev : pci_dev) (reg val : Nat) : Safe (fun _ => True) (pci_write_word dev reg val) :=
  fun _ => trivial

theorem Safe_OUTB (val port : Nat) : Safe (fun _ => True) (OUTB val port) :=
  fun _ => trivial

theorem Safe_INB (port : Nat) : Safe (fun _ => True) (INB port) :=
  fun _ => trivial

theorem Safe_OUTL (val port : Nat) : Safe (fun _ => True) (OUTL val port) :=
  fun _ => trivial

theorem Safe_INL (port : Nat) : Safe (fun _ => True) (INL port) :=
  fun _ => trivial

theorem Safe_mem_read (n a : Nat) : Safe (fun _ => True) (mem_read n a) :=
  fun _ => trivial

theorem Safe_printf (fmt : String) (args : List Arg) : Safe (fun _ => True) (printf fmt args) :=
  fun _ => trivial

theorem Safe_fprintf_stderr (fmt : String) (args : List Arg) : Safe (fun _ => True) (fprintf_stderr fmt args) :=
  fun _ => trivial

theorem Safe_perror (s : String) : Safe (fun _ => True) (perror s) :=
  fun _ => trivial

theorem Safe_extern_call (fn : String) : Safe (fun _ => True) (extern_call fn) :=
  fun _ => trivial

theorem Safe_munmap (a : Nat) (l : Int) : Safe (fun _ => True) (munmap a l) :=
  fun _ => trivial

theorem Safe_getpagesize  : Safe (fun _ => True) (getpagesize) :=
  fun _ => trivial

theorem Safe_write8 (fd : Int) (buf : List Nat) : Safe (fun _ => True) (write8 fd buf) :=
  fun _ => trivial

theorem Safe_outcome {α : Type} {Q : α → Prop} {m : M α} (h : Safe Q m) (w : World) :
    (∃ a, (m w).1 = Outcome.ret a ∧ Q a) ∨ (m w).1 = Outcome.exit 1 ∨
      ∃ d, (m w).1 = Outcome.fatal d := by
  have h1 := h w
  rcases hm : (m w).1 with a | c | d
  · rw [hm] at h1; exact Or.inl ⟨a, rfl, h1⟩
  · rw [hm] at h1; exact Or.inr (Or.inl (by rw [h1]))
  · exact Or.inr (Or.inr ⟨d, rfl⟩)

attribute [irreducible] Safe

theorem enable_flash_ich_safe (dev : pci_dev) (name : String) (reg : Nat) :
    Safe (fun r => r = 0 ∨ r = -1) (enable_flash_ich dev name reg) := by
  unfold enable_flash_ich
  repeat (first
    | with_reducible exact Safe_pure _ _ (Or.inl rfl)
    | with_reducible exact Safe_pure _ _ (Or.inr rfl)
    | with_reducible exact Safe_pure _ _ trivial
    | with_reducible exact Safe_pci_read_byte _ _
    | with_reducible exact Safe_pci_write_byte _ _ _
    | with_reducible exact Safe_printf _ _
    | with_reducible apply Safe_printf_debug
    | with_reducible refine Safe_seq ?_ (fun _ => ?_)
    | split
    | dsimp only)

set_option maxRecDepth 8000 in
theorem ich_spi_probe_safe (spibar : Nat) : Safe (fun _ => True) (ich_spi_probe spibar) := by
  simp only [ich_spi_probe, ich7_spi_dump, ich9_spi_dump, debug_dump32]
  repeat (first
    | with_reducible exact Safe_pure _ _ (Or.inl rfl)
    | with_reducible exact Safe_pure _ _ (Or.inr rfl)
    | with_reducible exact Safe_pure _ _ (by assumption)
    | with_reducible exact Safe_pure _ _ trivial
    | with_reducible exact Safe_exit_one _
    | with_reducible exact Safe_syscall _ _
    | with_reducible exact Safe_physmap _ _ _
    | with_reducible exact Safe_pci_dev_find _ _
    | with_reducible exact Safe_get_flashbus
    | with_reducible exact Safe_set_flashbus _
    | with_reducible exact Safe_set_spibar _
    | with_reducible exact Safe_set_sb600_spibar _
    | with_reducible exact Safe_set_ichspi_lock _
    | with_reducible exact Safe_set_flashbase _
    | with_reducible exact Safe_read8 _ _
    | with_reducible exact Safe_sc520_scan _ _ _
    | with_reducible exact Safe_pci_read_byte _ _
    | with_reducible exact Safe_pci_read_word _ _
    | with_reducible exact Safe_pci_read_long _ _
    | with_reducible exact Safe_pci_write_byte _ _ _
    | with_reducible exact Safe_pci_write_word _ _ _
    | with_reducible exact Safe_OUTB _ _
    | with_reducible exact Safe_INB _
    | with_reducible exact Safe_OUTL _ _
    | with_reducible exact Safe_INL _
    | with_reducible exact Safe_mem_read _ _
    | with_reducible exact Safe_printf _ _
    | with_reducible exact Safe_fprintf_stderr _ _
    | with_reducible exact Safe_perror _
    | with_reducible exact Safe_extern_call _
    | with_reducible exact Safe_munmap _ _
    | with_reducible exact Safe_getpagesize
    | with_reducible exact Safe_write8 _ _
    | with_reducible apply Safe_printf_debug
    | with_reducible refine Safe_forIn_list _ _ _ (fun _ _ => ?_)
    | with_reducible refine Safe_seq ?_ (fun _ => ?_)
    | split
    | dsimp only)

set_option maxRecDepth 8000 in
theorem enable_flash_ich_dc_spi_safe (dev : pci_dev) (name : String) (gen : Int) :
    Safe (fun r => r = 0 ∨ r = -1) (enable_flash_ich_dc_spi dev name gen) := by
  unfold enable_flash_ich_dc_spi enable_flash_ich_dc
  repeat (first
    | with_reducible exact enable_flash_ich_safe _ _ _
    | with_reducible refine Safe_bind (enable_flash_ich_safe _ _ _) (fun _ hret => ?_)
    | with_reducible exact Safe_pure _ _ (Or.inl rfl)
    | with_reducible exact Safe_pure _ _ (Or.inr rfl)
    | with_reducible exact Safe_pure _ _ (by assumption)
    | with_reducible exact Safe_pure _ _ trivial
    | with_reducible exact Safe_exit_one _
    | with_reducible exact Safe_syscall _ _
    | with_reducible exact Safe_physmap _ _ _
    | with_reducible exact Safe_pci_dev_find _ _
    | with_reducible exact Safe_get_flashbus
    | with_reducible exact Safe_set_flashbus _
    | with_reducible exact Safe_set_spibar _
    | with_reducible exact Safe_set_sb600_spibar _
    | with_reducible exact Safe_set_ichspi_lock _
    | with_reducible exact Safe_set_flashbase _
    | with_reducible exact Safe_read8 _ _
    | with_reducible exact ich_spi_probe_safe _
    | with_reducible exact Safe_sc520_scan _ _ _
    | with_reducible exact Safe_pci_read_byte _ _
    | with_reducible exact Safe_pci_read_word _ _
    | with_reducible exact Safe_pci_read_long _ _
    | with_reducible exact Safe_pci_write_byte _ _ _
    | with_reducible exact Safe_pci_write_word _ _ _
    | with_reducible exact Safe_OUTB _ _
    | with_reducible exact Safe_INB _
    | with_reducible exact Safe_OUTL _ _
    | with_reducible exact Safe_INL _
    | with_reducible exact Safe_mem_read _ _
    | with_reducible exact Safe_printf _ _
    | with_reducible exact Safe_fprintf_stderr _ _
    | with_reducible exact Safe_perror _
    | with_reducible exact Safe_extern_call _
    | with_reducible exact Safe_munmap _ _
    | with_reducible exact Safe_getpagesize
    | with_reducible exact Safe_write8 _ _
    | with_reducible apply Safe_printf_debug
    | with_reducible refine Safe_forIn_list _ _ _ (fun _ _ => ?_)
    | with_reducible refine Safe_seq ?_ (fun _ => ?_)
    | split
    | dsimp only)

set_option maxRecDepth 8000 in
set_option maxHeartbeats 4000000 in
theorem ChipsetOp_run_safe (op : ChipsetOp) (dev : pci_dev) (name : String) :
    Safe (fun r => r = 0 ∨ r = -1) (ChipsetOp.run op dev name) := by
  cases op <;> simp only [ChipsetOp.run] <;>
  (first
    | unfold enable_flash_sis630
    | unfold enable_flash_piix4
    | unfold enable_flash_ich_4e
    | unfold enable_flash_ich_dc
    | unfold enable_flash_ich7
    | unfold enable_flash_ich8
    | unfold enable_flash_ich9
    | unfold enable_flash_ich10
    | unfold enable_flash_vt823x
    | unfold enable_flash_vt8237s_spi
    | unfold enable_flash_amd8111
    | unfold enable_flash_cs5530
    | unfold enable_flash_sc1100
    | unfold enable_flash_sis5595
    | unfold enable_flash_cs5536
    | unfold enable_flash_sb600
    | unfold enable_flash_ali_m1533
    | unfold enable_flash_ck804
    | unfold enable_flash_mcp55
    | unfold enable_flash_sb400
    | unfold enable_flash_ht1000
    | unfold get_flashbase_sc520
  ) <;>
  repeat (first
    | with_reducible exact enable_flash_ich_dc_spi_safe _ _ _
    | with_reducible exact enable_flash_ich_safe _ _ _
    | with_reducible refine Safe_bind (enable_flash_ich_safe _ _ _) (fun _ hret => ?_)
    | with_reducible exact Safe_pure _ _ (Or.inl rfl)
    | with_reducible exact Safe_pure _ _ (Or.inr rfl)
    | with_reducible exact Safe_pure _ _ (by assumption)
    | with_reducible exact Safe_pure _ _ trivial
    | with_reducible exact Safe_exit_one _
    | with_reducible exact Safe_syscall _ _
    | with_reducible exact Safe_physmap _ _ _
    | with_reducible exact Safe_pci_dev_find _ _
    | with_reducible exact Safe_get_flashbus
    | with_reducible exact Safe_set_flashbus _
    | with_reducible exact Safe_set_spibar _
    | with_reducible exact Safe_set_sb600_spibar _
    | with_reducible exact Safe_set_ichspi_lock _
    | with_reducible exact Safe_set_flashbase _
    | with_reducible exact Safe_read8 _ _
    | with_reducible exact ich_spi_probe_safe _
    | with_reducible exact Safe_sc520_scan _ _ _
    | with_reducible exact Safe_pci_read_byte _ _
    | with_reducible exact Safe_pci_read_word _ _
    | with_reducible exact Safe_pci_read_long _ _
    | with_reducible exact Safe_pci_write_byte _ _ _
    | with_reducible exact Safe_pci_write_word _ _ _
    | with_reducible exact Safe_OUTB _ _
    | with_reducible exact Safe_INB _
    | with_reducible exact Safe_OUTL _ _
    | with_reducible exact Safe_INL _
    | with_reducible exact Safe_mem_read _ _
    | with_reducible exact Safe_printf _ _
    | with_reducible exact Safe_fprintf_stderr _ _
    | with_reducible exact Safe_perror _
    | with_reducible exact Safe_extern_call _
    | with_reducible exact Safe_munmap _ _
    | with_reducible exact Safe_getpagesize
    | with_reducible exact Safe_write8 _ _
    | with_reducible apply Safe_printf_debug
    | with_reducible refine Safe_forIn_list _ _ _ (fun _ _ => ?_)
    | with_reducible refine Safe_seq ?_ (fun _ => ?_)
    | split
    | dsimp only)


theorem chipset_enable_found_safe (e : FLASH_ENABLE) (dev : pci_dev) :
    Safe (fun r => r = 0 ∨ r = -1) (chipset_enable_found ChipsetOp.run e dev) := by
  unfold chipset_enable_found
  refine Safe_seq (Safe_printf _ _) (fun _ => ?_)
  refine Safe_bind (ChipsetOp_run_safe _ _ _) (fun r hr => ?_)
  dsimp only
  split
  · exact Safe_seq (Safe_printf _ _) (fun _ => Safe_pure _ _ hr)
  · exact Safe_seq (Safe_printf _ _) (fun _ => Safe_pure _ _ hr)

theorem enable_flash_ich_returns (dev : pci_dev) (name : String) (reg : Nat) (w : World) :
    ∃ r w1, enable_flash_ich dev name reg w = (Outcome.ret r, w1) ∧ (r = 0 ∨ r = -1) := by
  have hd : ∀ (fmt : String) (a : List Arg) (w : World),
      ∃ w1, printf_debug fmt (pure a) w = (Outcome.ret (), w1) := by
    intro fmt a w
    cases hv : w.verbose with
    | true => exact ⟨_, by simp only [printf_debug, hv]; rfl⟩
    | false => exact ⟨_, by simp only [printf_debug, hv]; rfl⟩
  unfold enable_flash_ich
  simp only [bind_apply]
  rcases h1 : pci_read_byte dev reg w with ⟨o1, w1⟩
  have : o1 = Outcome.ret (respond 1 w) := by
    have := congrArg Prod.fst h1; simpa [pci_read_byte, request] using this.symm
  subst this
  dsimp only
  obtain ⟨w2, h2⟩ := hd "\nBIOS Lock Enable: %sabled, "
    [Arg.s (if respond 1 w &&& (1 <<< 1) ≠ 0 then "en" else "dis")] w1
  rw [h2]; dsimp only
  obtain ⟨w3, h3⟩ := hd "BIOS Write Enable: %sabled, "
    [Arg.s (if respond 1 w &&& (1 <<< 0) ≠ 0 then "en" else "dis")] w2
  rw [h3]; dsimp only
  obtain ⟨w4, h4⟩ := hd "BIOS_CNTL is 0x%x\n" [Arg.u (respond 1 w)] w3
  rw [h4]; dsimp only
  by_cases hc : respond 1 w ||| 1 = respond 1 w
  · rw [if_pos hc]; exact ⟨0, w4, rfl, Or.inl rfl⟩
  · rw [if_neg hc]
    simp only [bind_apply, pure_apply, pci_write_byte, emit_apply, pci_read_byte, request]
    split_ifs
    · exact ⟨_, _, rfl, Or.inr rfl⟩
    · exact ⟨_, _, rfl, Or.inl rfl⟩

/-- C5: when some entry of `enables` has its id present, `chipset_flash_enable`
never yields the no-match value -2: it returns 0 or -1, unless the process ends
inside the operation (`exit(1)` of `enable_flash_sb400`, or a mapping of
physical memory that fails), in which case nothing is returned.  For the entry
(0x8086, 0x2440) "Intel ICH2" the function does return, and what it returns is
the result of `enable_flash_ich` on register 0x4e, which is 0 or -1. -/
theorem chipset_flash_enable_result_on_match (w : World)
    (h : ∃ e ∈ enables, (pci_dev_find_in w.devices e.vendor e.device).isSome) :
    ((chipset_flash_enable w).1 = Outcome.ret 0 ∨
     (chipset_flash_enable w).1 = Outcome.ret (-1) ∨
     (chipset_flash_enable w).1 = Outcome.exit 1 ∨
     ∃ d, (chipset_flash_enable w).1 = Outcome.fatal d) ∧
    (∀ r w1, chipset_flash_enable w = (Outcome.ret r, w1) → r = 0 ∨ r = -1) ∧
    (∀ (i : Nat) (dev : pci_dev),
      chipset_find enables 0 w =
        (Outcome.ret (some (i, ⟨0x8086, 0x2440, "Intel ICH2", ChipsetOp.enable_flash_ich_4e⟩,
          dev)), w) →
      ∃ r w1,
        enable_flash_ich dev "Intel ICH2" 0x4e
          { w with trace := w.trace ++
              [Event.printf "Found chipset \"%s\", enabling flash write... "
                [Arg.s "Intel ICH2"]] } = (Outcome.ret r, w1) ∧
        (r = 0 ∨ r = -1) ∧
        chipset_flash_enable w =
          (Outcome.ret r,
           { w1 with trace := w1.trace ++
               [Event.printf (if r ≠ 0 then "FAILED!\n" else "OK.\n") []] })) := by
  obtain ⟨i, e, dev, _, _, _, hres⟩ := chipset_find_some enables 0 w h
  rw [Nat.zero_add] at hres
  have heq : chipset_flash_enable w = chipset_enable_found ChipsetOp.run e dev w :=
    chipset_flash_enable_in_found _ _ _ _ _ _ hres
  have hout := Safe_outcome (chipset_enable_found_safe e dev) w
  rw [← heq] at hout
  refine ⟨?_, ?_, ?_⟩
  · rcases hout with ⟨a, ha, h0 | h1⟩ | hx | hf
    · exact Or.inl (by rw [ha, h0])
    · exact Or.inr (Or.inl (by rw [ha, h1]))
    · exact Or.inr (Or.inr (Or.inl hx))
    · exact Or.inr (Or.inr (Or.inr hf))
  · intro r w1 hr
    rcases hout with ⟨a, ha, h01⟩ | hx | ⟨d, hf⟩
    · rw [hr] at ha
      cases ha
      exact h01
    · rw [hr] at hx; cases hx
    · rw [hr] at hf; cases hf
  · intro i2 dev2 h2
    obtain ⟨r, w1, hr, h01⟩ := enable_flash_ich_returns dev2 "Intel ICH2" 0x4e
      { w with trace := w.trace ++
          [Event.printf "Found chipset \"%s\", enabling flash write... " [Arg.s "Intel ICH2"]] }
    refine ⟨r, w1, hr, h01, ?_⟩
    have h3 : chipset_flash_enable w = _ :=
      (chipset_flash_enable_in_found ChipsetOp.run enables w i2 _ dev2 h2).trans
        (chipset_enable_found_apply _ _ _ _)
    rw [h3]
    simp only [ChipsetOp.run, enable_flash_ich_4e]
    rw [hr]

theorem dispatch_invokes_matched_operation_once_witness :
    (chipset_find enables 0 world_ich2 =
       (Outcome.ret (some (8, ⟨0x8086, 0x2440, "Intel ICH2", ChipsetOp.enable_flash_ich_4e⟩,
         dev_ich2)), world_ich2) ∧
     chipset_flash_enable_in (fun _ _ => recording_call 0) enables world_ich2 =
       (Outcome.ret 0,
        { world_ich2 with trace :=
            [Event.printf "Found chipset \"%s\", enabling flash write... " [Arg.s "Intel ICH2"],
             Event.call "Intel ICH2",
             Event.printf "OK.\n" []] })) ∧
    (board_lookup_in board_pciid_enables none (some "986lcd-m") world_ich7 =
       (Outcome.ret (some ⟨0x8086, 0x27b8, 0, 0, 0, 0, 0, 0, some "kontron", some "986lcd-m",
          "Kontron", "986LCD-M", BoardOp.board_kontron_986lcd_m⟩), world_ich7) ∧
     board_flash_enable_in (fun _ => recording_call (-1)) board_pciid_enables none
         (some "986lcd-m") world_ich7 =
       (Outcome.ret (-1),
        { world_ich7 with trace :=
            [Event.printf "Found board \"%s %s\", enabling flash write... "
               [Arg.s "Kontron", Arg.s "986LCD-M"],
             Event.call "Kontron",
             Event.printf "FAILED!\n" []] })) :=
  ⟨⟨by decide,
    (dispatch_invokes_matched_operation_once.1 (fun _ _ => recording_call 0) enables world_ich2
      8 ⟨0x8086, 0x2440, "Intel ICH2", ChipsetOp.enable_flash_ich_4e⟩ dev_ich2
      (by decide)).trans (by decide)⟩,
   ⟨by decide,
    (dispatch_invokes_matched_operation_once.2 (fun _ => recording_call (-1))
      board_pciid_enables none (some "986lcd-m") world_ich7 world_ich7
      ⟨0x8086, 0x27b8, 0, 0, 0, 0, 0, 0, some "kontron", some "986lcd-m",
        "Kontron", "986LCD-M", BoardOp.board_kontron_986lcd_m⟩
      (by decide)).trans (by decide)⟩⟩

theorem chipset_flash_enable_result_on_match_witness :
    (∃ e ∈ enables, (pci_dev_find_in world_ich2.devices e.vendor e.device).isSome) ∧
    chipset_flash_enable world_ich2 =
      (Outcome.ret 0,
       { world_ich2 with
           input := [],
           trace :=
            [Event.printf "Found chipset \"%s\", enabling flash write... " [Arg.s "Intel ICH2"],
             Event.pci_read 1 0xf8 0x4e 0,
             Event.pci_write 1 0xf8 0x4e 1,
             Event.pci_read 1 0xf8 0x4e 1,
             Event.printf "OK.\n" []] }) ∧
    ((chipset_flash_enable world_ich2).1 = Outcome.ret 0 ∨
     (chipset_flash_enable world_ich2).1 = Outcome.ret (-1) ∨
     (chipset_flash_enable world_ich2).1 = Outcome.exit 1 ∨
     ∃ d, (chipset_flash_enable world_ich2).1 = Outcome.fatal d) :=
  have h : ∃ e ∈ enables, (pci_dev_find_in world_ich2.devices e.vendor e.device).isSome :=
    ⟨⟨0x8086, 0x2440, "Intel ICH2", ChipsetOp.enable_flash_ich_4e⟩, by decide, by decide⟩
  ⟨h, by decide, (chipset_flash_enable_result_on_match world_ich2 h).1⟩

/-! ## The lookup by name -/

theorem loop_cons_not_candidate (vendor : Option String) (part : String)
    (b : board_pciid_enable) (rest : List board_pciid_enable)
    (pm : Option board_pciid_enable) (w : World)
    (h : name_candidate w.devices vendor part b = false) :
    board_match_coreboot_name_loop vendor part (b :: rest) pm w =
      board_match_coreboot_name_loop vendor part rest pm w := by
  rw [board_match_coreboot_name_loop.eq_def]
  simp only [name_candidate, vendor_matches, part_matches] at h
  cases vendor with
  | none =>
    cases hp : b.lb_part with
    | none => simp [vendor_mismatch, part_mismatch, hp]
    | some lbp =>
      by_cases hs : strcasecmp lbp part = 0
      · cases h1 : pci_dev_find_in w.devices b.first_vendor b.first_device with
        | none => simp [vendor_mismatch, part_mismatch, hp, hs, bind_apply, pci_dev_find_apply, h1]
        | some d1 =>
          by_cases h2 : b.second_vendor = 0
          · simp [hp, hs, h1, h2] at h
          · cases h3 : pci_dev_find_in w.devices b.second_vendor b.second_device with
            | none =>
              simp [vendor_mismatch, part_mismatch, hp, hs, bind_apply, pci_dev_find_apply,
                h1, h2, h3]
            | some d2 => simp [hp, hs, h1, h2, h3] at h
      · simp [vendor_mismatch, part_mismatch, hp, hs]
  | some v =>
    cases hv : b.lb_vendor with
    | none => simp [vendor_mismatch, hv]
    | some lbv =>
      by_cases hsv : strcasecmp lbv v = 0
      · cases hp : b.lb_part with
        | none => simp [vendor_mismatch, part_mismatch, hv, hsv, hp]
        | some lbp =>
          by_cases hs : strcasecmp lbp part = 0
          · cases h1 : pci_dev_find_in w.devices b.first_vendor b.first_device with
            | none =>
              simp [vendor_mismatch, part_mismatch, hv, hsv, hp, hs, bind_apply,
                pci_dev_find_apply, h1]
            | some d1 =>
              by_cases h2 : b.second_vendor = 0
              · simp [hv, hsv, hp, hs, h1, h2] at h
              · cases h3 : pci_dev_find_in w.devices b.second_vendor b.second_device with
                | none =>
                  simp [vendor_mismatch, part_mismatch, hv, hsv, hp, hs, bind_apply,
                    pci_dev_find_apply, h1, h2, h3]
                | some d2 => simp [hv, hsv, hp, hs, h1, h2, h3] at h
          · simp [vendor_mismatch, part_mismatch, hv, hsv, hp, hs]
      · simp [vendor_mismatch, hv, hsv]

theorem loop_cons_candidate (vendor : Option String) (part : String)
    (b : board_pciid_enable) (rest : List board_pciid_enable)
    (pm : Option board_pciid_enable) (w : World)
    (h : name_candidate w.devices vendor part b = true) :
    board_match_coreboot_name_loop vendor part (b :: rest) pm w =
      if vendor.isSome then (Outcome.ret (some b), w)
      else match pm with
        | some q => (Outcome.ret none, after_ambiguity_report part q b w)
        | none => board_match_coreboot_name_loop vendor part rest (some b) w := by
  rw [board_match_coreboot_name_loop.eq_def]
  simp only [name_candidate, Bool.and_eq_true, Bool.or_eq_true, decide_eq_true_eq] at h
  obtain ⟨⟨⟨hv, hp⟩, h1⟩, h2⟩ := h
  have hvm : vendor_mismatch vendor b = false := by
    cases vendor with
    | none => rfl
    | some v =>
      cases hlv : b.lb_vendor with
      | none => simp [vendor_matches, hlv] at hv
      | some lbv => simpa [vendor_mismatch, vendor_matches, hlv] using hv
  have hpm : part_mismatch part b = false := by
    cases hlp : b.lb_part with
    | none => simp [part_matches, hlp] at hp
    | some lbp => simpa [part_mismatch, part_matches, hlp] using hp
  obtain ⟨d1, hd1⟩ := Option.isSome_iff_exists.mp h1
  have h2' : ¬ (b.second_vendor ≠ 0 ∧
      (pci_dev_find_in w.devices b.second_vendor b.second_device).isNone = true) := by
    rintro ⟨hne, hnone⟩
    rcases h2 with h0 | hs
    · exact hne h0
    · rw [Option.isNone_iff_eq_none] at hnone
      rw [hnone] at hs
      simp at hs
  cases vendor with
  | some v =>
    simp only [hvm, hpm, bind_apply, pci_dev_find_apply, hd1, h2', Option.isSome_some,
      Option.isNone_some, Bool.false_eq_true, if_false, if_true]
    rfl
  | none =>
    cases pm with
    | some q =>
      simp only [hvm, hpm, bind_apply, pci_dev_find_apply, hd1, h2', Option.isSome_none,
        Option.isNone_some, Bool.false_eq_true, if_false, printf_apply, pure_apply,
        after_ambiguity_report, List.append_assoc, List.singleton_append]
      rfl
    | none =>
      simp only [hvm, hpm, bind_apply, pci_dev_find_apply, hd1, h2', Option.isSome_none,
        Option.isNone_some, Bool.false_eq_true, if_false]

theorem loop_filter (vendor : Option String) (part : String)
    (tbl : List board_pciid_enable) (pm : Option board_pciid_enable) (w : World) :
    board_match_coreboot_name_loop vendor part tbl pm w =
      board_match_coreboot_name_loop vendor part
        (tbl.filter (name_candidate w.devices vendor part)) pm w := by
  induction tbl generalizing pm with
  | nil => rfl
  | cons b rest ih =>
    cases hc : name_candidate w.devices vendor part b with
    | false =>
      rw [loop_cons_not_candidate _ _ _ _ _ _ hc, List.filter_cons_of_neg (by simp [hc])]
      exact ih pm
    | true =>
      rw [loop_cons_candidate _ _ _ _ _ _ hc, List.filter_cons_of_pos (by simp [hc]),
        loop_cons_candidate _ _ _ _ _ _ hc]
      split
      · rfl
      · cases pm with
        | some q => rfl
        | none => exact ih (some b)

theorem loop_candidates_fst (vendor : Option String) (part : String)
    (cs : List board_pciid_enable) (pm : Option board_pciid_enable) (w : World)
    (h : ∀ b ∈ cs, name_candidate w.devices vendor part b = true) :
    (board_match_coreboot_name_loop vendor part cs pm w).1 =
      Outcome.ret (name_lookup_result vendor.isSome pm cs) := by
  induction cs generalizing pm with
  | nil =>
    rw [board_match_coreboot_name_loop.eq_def]
    cases pm with
    | some q => rfl
    | none => rfl
  | cons b rest ih =>
    rw [loop_cons_candidate _ _ _ _ _ _ (h b (List.mem_cons_self _ _))]
    cases hv : vendor.isSome with
    | true => simp [name_lookup_result]
    | false =>
      cases pm with
      | some q => simp [name_lookup_result]
      | none =>
        simp only [name_lookup_result, Bool.false_eq_true, if_false]
        rw [← hv]
        exact ih (some b) (fun b' hb' => h b' (List.mem_cons_of_mem _ hb'))

theorem board_match_coreboot_name_in_fst (tbl : List board_pciid_enable)
    (vendor : Option String) (part : String) (w : World) :
    (board_match_coreboot_name_in tbl vendor part w).1 =
      Outcome.ret (name_lookup_result vendor.isSome none
        (tbl.filter (name_candidate w.devices vendor part))) := by
  unfold board_match_coreboot_name_in
  rw [loop_filter]
  exact loop_candidates_fst _ _ _ _ _ (fun b hb => (List.mem_filter.mp hb).2)

theorem strcasecmp_chars_congr (a a' b b' : List Char)
    (ha : a.map Char.toLower = a'.map Char.toLower)
    (hb : b.map Char.toLower = b'.map Char.toLower) :
    strcasecmp_chars a b = strcasecmp_chars a' b' := by
  induction a generalizing a' b b' with
  | nil =>
    cases a' with
    | cons x xs => simp at ha
    | nil =>
      cases b with
      | nil =>
        cases b' with
        | nil => rfl
        | cons y ys => simp at hb
      | cons y ys =>
        cases b' with
        | nil => simp at hb
        | cons y' ys' =>
          simp only [List.map_cons, List.cons.injEq] at hb
          simp only [strcasecmp_chars, hb.1]
  | cons x xs ih =>
    cases a' with
    | nil => simp at ha
    | cons x' xs' =>
      simp only [List.map_cons, List.cons.injEq] at ha
      cases b with
      | nil =>
        cases b' with
        | nil => simp only [strcasecmp_chars, ha.1]
        | cons y ys => simp at hb
      | cons y ys =>
        cases b' with
        | nil => simp at hb
        | cons y' ys' =>
          simp only [List.map_cons, List.cons.injEq] at hb
          simp only [strcasecmp_chars, ha.1, hb.1]
          rw [ih xs' ys ys' ha.2 hb.2]

theorem strcasecmp_congr_right (s t t' : String) (h : lower_chars t = lower_chars t') :
    strcasecmp s t = strcasecmp s t' :=
  strcasecmp_chars_congr _ _ _ _ rfl h

theorem name_candidate_congr (devices : List pci_dev) (vendor vendor' : Option String)
    (part part' : String) (hv : vendor.map lower_chars = vendor'.map lower_chars)
    (hp : lower_chars part = lower_chars part') (b : board_pciid_enable) :
    name_candidate devices vendor part b = name_candidate devices vendor' part' b := by
  have h1 : vendor_matches vendor b = vendor_matches vendor' b := by
    cases vendor with
    | none =>
      cases vendor' with
      | none => rfl
      | some v' => simp at hv
    | some v =>
      cases vendor' with
      | none => simp at hv
      | some v' =>
        simp only [Option.map_some', Option.some.injEq] at hv
        simp only [vendor_matches]
        cases b.lb_vendor with
        | none => rfl
        | some lbv => simp only [strcasecmp_congr_right lbv v v' hv]
  have h2 : part_matches part b = part_matches part' b := by
    simp only [part_matches]
    cases b.lb_part with
    | none => rfl
    | some lbp => simp only [strcasecmp_congr_right lbp part part' hp]
  simp only [name_candidate, h1, h2]

/-- C6: the lookup by name does not look at the case of the letters of the vendor
and the part it is given: over any table and any device list, two calls whose
vendor arguments (both null, or both given) and whose part arguments agree after
`tolower` return the same entry, or both none.  `board_match_coreboot_name` is
the instance at the table `board_pciid_enables`. -/
theorem board_match_coreboot_name_case_insensitive (tbl : List board_pciid_enable)
    (vendor vendor' : Option String) (part part' : String) (w : World)
    (hv : vendor.map lower_chars = vendor'.map lower_chars)
    (hp : lower_chars part = lower_chars part') :
    (board_match_coreboot_name_in tbl vendor part w).1 =
      (board_match_coreboot_name_in tbl vendor' part' w).1 ∧
    (board_match_coreboot_name vendor part w).1 =
      (board_match_coreboot_name vendor' part' w).1 := by
  have key : ∀ t : List board_pciid_enable,
      (board_match_coreboot_name_in t vendor part w).1 =
        (board_match_coreboot_name_in t vendor' part' w).1 := by
    intro t
    rw [board_match_coreboot_name_in_fst, board_match_coreboot_name_in_fst]
    have hf : name_candidate w.devices vendor part = name_candidate w.devices vendor' part' :=
      funext (name_candidate_congr _ _ _ _ _ hv hp)
    have hs : vendor.isSome = vendor'.isSome := by
      cases vendor <;> cases vendor' <;> simp at hv <;> rfl
    rw [hf, hs]
  exact ⟨key tbl, key board_pciid_enables⟩

theorem name_lookup_result_mem (g : Bool) (pm : Option board_pciid_enable)
    (cs : List board_pciid_enable) (b : board_pciid_enable)
    (h : name_lookup_result g pm cs = some b) : pm = some b ∨ b ∈ cs := by
  induction cs generalizing pm with
  | nil => exact Or.inl h
  | cons c rest ih =>
    simp only [name_lookup_result] at h
    cases g with
    | true =>
      simp only [if_true, Option.some.injEq] at h
      exact Or.inr (by simp [h])
    | false =>
      simp only [Bool.false_eq_true, if_false] at h
      cases pm with
      | some q => simp at h
      | none =>
        rcases ih (some c) h with h1 | h1
        · exact Or.inr (by simp [Option.some.inj h1])
        · exact Or.inr (List.mem_cons_of_mem _ h1)

theorem name_candidate_present (devices : List pci_dev) (vendor : Option String)
    (part : String) (b : board_pciid_enable)
    (h : name_candidate devices vendor part b = true) :
    vendor_matches vendor b = true ∧ part_matches part b = true ∧
    (pci_dev_find_in devices b.first_vendor b.first_device).isSome = true ∧
    (b.second_vendor ≠ 0 →
      (pci_dev_find_in devices b.second_vendor b.second_device).isSome = true) := by
  simp only [name_candidate, Bool.and_eq_true, Bool.or_eq_true, decide_eq_true_eq] at h
  obtain ⟨⟨⟨hv, hp⟩, h1⟩, h2⟩ := h
  exact ⟨hv, hp, h1, fun hne => h2.resolve_left hne⟩

theorem loop_ambiguous (part : String) (tbl : List board_pciid_enable) (w : World)
    (b1 b2 : board_pciid_enable) (rest : List board_pciid_enable)
    (h : tbl.filter (name_candidate w.devices none part) = b1 :: b2 :: rest) :
    board_match_coreboot_name_in tbl none part w =
      (Outcome.ret none, after_ambiguity_report part b1 b2 w) := by
  have hmem : ∀ b ∈ b1 :: b2 :: rest, name_candidate w.devices none part b = true := by
    intro b hb
    rw [← h] at hb
    exact (List.mem_filter.mp hb).2
  unfold board_match_coreboot_name_in
  rw [loop_filter, h, loop_cons_candidate _ _ _ _ _ _ (hmem b1 (by simp))]
  simp only [Option.isSome_none, Bool.false_eq_true, if_false]
  rw [loop_cons_candidate _ _ _ _ _ _ (hmem b2 (by simp))]
  simp only [Option.isSome_none, Bool.false_eq_true, if_false]

/-- C7: the lookup by name gives no false positive.  Over any table, an entry
that `board_match_coreboot_name` returns is an entry of the table whose vendor
(when one is supplied) and part match, for which a device with the first
(vendor, device) id is present and, when `second_vendor` is not zero, a device
with the second id as well; and when every entry whose names match lacks its
first id on the system, the lookup returns no entry.  The lookup always
returns. -/
theorem board_match_coreboot_name_no_false_positive (tbl : List board_pciid_enable)
    (vendor : Option String) (part : String) (w : World) :
    (∃ r, (board_match_coreboot_name_in tbl vendor part w).1 = Outcome.ret r) ∧
    (∀ b, (board_match_coreboot_name_in tbl vendor part w).1 = Outcome.ret (some b) →
      b ∈ tbl ∧ vendor_matches vendor b = true ∧ part_matches part b = true ∧
      (pci_dev_find_in w.devices b.first_vendor b.first_device).isSome = true ∧
      (b.second_vendor ≠ 0 →
        (pci_dev_find_in w.devices b.second_vendor b.second_device).isSome = true)) ∧
    ((∀ b ∈ tbl, vendor_matches vendor b = true → part_matches part b = true →
        pci_dev_find_in w.devices b.first_vendor b.first_device = none) →
      (board_match_coreboot_name_in tbl vendor part w).1 = Outcome.ret none) := by
  refine ⟨⟨_, board_match_coreboot_name_in_fst tbl vendor part w⟩, ?_, ?_⟩
  · intro b hb
    rw [board_match_coreboot_name_in_fst] at hb
    rcases name_lookup_result_mem _ _ _ _ (Outcome.ret.inj hb) with h | h
    · cases h
    · obtain ⟨hm, hc⟩ := List.mem_filter.mp h
      exact ⟨hm, name_candidate_present _ _ _ _ hc⟩
  · intro habs
    rw [board_match_coreboot_name_in_fst]
    have hnil : tbl.filter (name_candidate w.devices vendor part) = [] := by
      rw [List.filter_eq_nil_iff]
      intro b hb hc
      obtain ⟨hv, hp, h1, _⟩ := name_candidate_present _ _ _ _ hc
      rw [habs b hb hv hp] at h1
      simp at h1
    rw [hnil]
    rfl

/-- C8, as amended: a part-name-only lookup with two candidates is ambiguous,
and the report names the first two candidates.  Over any table, when two
entries `c1` and `c2` of the table (`c1` before `c2`) both pass the filters of
the lookup with a null vendor (their part name matches the part without regard
to case, their required PCI ids are present), then `board_match_coreboot_name`
returns no entry, neither `c1` nor `c2`, and what it prints is the line
"AMBIGUOUS BOARD NAME" with the part, the line naming the firmware vendors of
the first two entries `b1` and `b2`, in table order, that pass the filters, and
the advice to use the full syntax; `b1` and `b2` are `c1` and `c2` themselves
when no third entry passes.  Nothing in the code compares the two vendors, so
this holds in particular when they differ. -/
theorem board_match_coreboot_name_ambiguous (tbl : List board_pciid_enable)
    (part : String) (w : World) (c1 c2 : board_pciid_enable)
    (hsub : List.Sublist [c1, c2] tbl)
    (h1 : name_candidate w.devices none part c1 = true)
    (h2 : name_candidate w.devices none part c2 = true) :
    ∃ (b1 b2 : board_pciid_enable) (rest : List board_pciid_enable),
      tbl.filter (name_candidate w.devices none part) = b1 :: b2 :: rest ∧
      board_match_coreboot_name_in tbl none part w =
        (Outcome.ret none,
         { w with trace := w.trace ++
            [Event.printf "AMBIGUOUS BOARD NAME: %s\n" [Arg.s part],
             Event.printf "At least vendors \x27%s\x27 and \x27%s\x27 match.\n"
               [Arg.sp b1.lb_vendor, Arg.sp b2.lb_vendor],
             Event.printf "Please use the full -m vendor:part syntax.\n" []] }) ∧
      (tbl.filter (name_candidate w.devices none part) = [c1, c2] → b1 = c1 ∧ b2 = c2) := by
  have hf : List.Sublist [c1, c2] (tbl.filter (name_candidate w.devices none part)) := by
    have := hsub.filter (name_candidate w.devices none part)
    simpa [h1, h2] using this
  have hlen := hf.length_le
  rcases hcs : tbl.filter (name_candidate w.devices none part) with _ | ⟨b1, _ | ⟨b2, rest⟩⟩
  · rw [hcs] at hlen; simp at hlen
  · rw [hcs] at hlen; simp at hlen
  · refine ⟨b1, b2, rest, rfl, loop_ambiguous part tbl w b1 b2 rest hcs, ?_⟩
    intro heq
    simp only [List.cons.injEq] at heq
    exact ⟨heq.1, heq.2.1⟩


theorem pci_card_find_apply (v d cv cd : Nat) (w : World) :
    pci_card_find v d cv cd w = (Outcome.ret (pci_card_find_in w.devices v d cv cd), w) := rfl

theorem board_match_pci_card_ids_in_returns (tbl : List board_pciid_enable) (w : World) :
    ∃ r, board_match_pci_card_ids_in tbl w = (Outcome.ret r, w) := by
  induction tbl with
  | nil => exact ⟨none, rfl⟩
  | cons b rest ih =>
    obtain ⟨r, hr⟩ := ih
    rw [board_match_pci_card_ids_in]
    repeat' (first
      | exact ⟨r, hr⟩
      | exact ⟨some b, rfl⟩
      | split_ifs
      | simp only [bind_apply, pci_card_find_apply, pci_dev_find_apply])

theorem board_lookup_in_ambiguous (tbl : List board_pciid_enable) (part : String)
    (w : World) (b1 b2 : board_pciid_enable) (rest : List board_pciid_enable)
    (h : tbl.filter (name_candidate w.devices none part) = b1 :: b2 :: rest) :
    board_lookup_in tbl none (some part) w =
      board_match_pci_card_ids_in tbl (after_ambiguity_report part b1 b2 w) := by
  simp only [board_lookup_in, bind_apply, loop_ambiguous part tbl w b1 b2 rest h]

/-- C9, as amended: an ambiguous name does not stop `board_flash_enable`.  Over
any table and whatever the functions behind `board->enable` are, when a
part-name-only lookup is ambiguous (the candidates begin with `b1` and `b2`),
`board_match_coreboot_name` reports it and yields null, and `board_flash_enable`
goes on with the lookup by PCI ids in the world after the report: it runs the
block for the entry that lookup finds, and returns 0 without any further effect
only when that lookup finds none. -/
theorem board_flash_enable_ambiguous_falls_through (call : BoardOp → String → M Int)
    (tbl : List board_pciid_enable) (part : String) (w : World)
    (b1 b2 : board_pciid_enable) (rest : List board_pciid_enable)
    (h : tbl.filter (name_candidate w.devices none part) = b1 :: b2 :: rest) :
    ∃ r, board_match_pci_card_ids_in tbl (after_ambiguity_report part b1 b2 w) =
        (Outcome.ret r, after_ambiguity_report part b1 b2 w) ∧
      board_flash_enable_in call tbl none (some part) w =
        match r with
        | some b => board_enable_found call b (after_ambiguity_report part b1 b2 w)
        | none => (Outcome.ret 0, after_ambiguity_report part b1 b2 w) := by
  obtain ⟨r, hr⟩ := board_match_pci_card_ids_in_returns tbl (after_ambiguity_report part b1 b2 w)
  refine ⟨r, hr, ?_⟩
  have hl := board_lookup_in_ambiguous tbl part w b1 b2 rest h
  rw [hr] at hl
  cases r with
  | some b => exact board_flash_enable_in_found call tbl none (some part) w _ b hl
  | none => exact board_flash_enable_in_none call tbl none (some part) w _ hl

/-- C10, as amended: several candidates of one vendor are ambiguous all the
same.  Over any table, when at least two entries pass the filters of a
part-name-only lookup (`b1` and `b2` being the first two in table order),
`board_match_coreboot_name` called with a null vendor returns no entry and
prints the ambiguity report: the line "AMBIGUOUS BOARD NAME" with the part, the
line naming the firmware vendors of `b1` and `b2`, and the advice to use the
full syntax; this is so whatever the firmware vendors are, hence also when all
candidates have the same one.  The first of the candidates in table order is
what it returns, printing nothing, when a vendor is supplied. -/
theorem board_match_coreboot_name_same_vendor_candidates (tbl : List board_pciid_enable)
    (part : String) (w : World) (b1 b2 : board_pciid_enable)
    (rest : List board_pciid_enable)
    (h : tbl.filter (name_candidate w.devices none part) = b1 :: b2 :: rest) :
    board_match_coreboot_name_in tbl none part w =
      (Outcome.ret none,
       { w with trace := w.trace ++
          [Event.printf "AMBIGUOUS BOARD NAME: %s\n" [Arg.s part],
           Event.printf "At least vendors \x27%s\x27 and \x27%s\x27 match.\n"
             [Arg.sp b1.lb_vendor, Arg.sp b2.lb_vendor],
           Event.printf "Please use the full -m vendor:part syntax.\n" []] }) ∧
    (∀ (v : String) (c : board_pciid_enable) (cs : List board_pciid_enable),
      tbl.filter (name_candidate w.devices (some v) part) = c :: cs →
      board_match_coreboot_name_in tbl (some v) part w = (Outcome.ret (some c), w)) := by
  constructor
  · rw [loop_ambiguous part tbl w b1 b2 rest h]
    rfl
  · intro v c cs hc
    have hcand : name_candidate w.devices (some v) part c = true := by
      have hmem : c ∈ tbl.filter (name_candidate w.devices (some v) part) := by
        rw [hc]; simp
      exact (List.mem_filter.mp hmem).2
    unfold board_match_coreboot_name_in
    rw [loop_filter, hc, loop_cons_candidate _ _ _ _ _ _ hcand]
    rfl

theorem board_match_coreboot_name_case_insensitive_witness :
    ((some "ACME").map lower_chars = (some "acme").map lower_chars ∧
     lower_chars "Board1" = lower_chars "board1") ∧
    (board_match_coreboot_name_in [board_acme] (some "ACME") "Board1" world_ich7).1 =
      Outcome.ret (some board_acme) ∧
    ((board_match_coreboot_name_in [board_acme] (some "ACME") "Board1" world_ich7).1 =
       (board_match_coreboot_name_in [board_acme] (some "acme") "board1" world_ich7).1 ∧
     (board_match_coreboot_name (some "ACME") "Board1" world_ich7).1 =
       (board_match_coreboot_name (some "acme") "board1" world_ich7).1) :=
  ⟨⟨by decide, by decide⟩, by decide,
   board_match_coreboot_name_case_insensitive [board_acme] (some "ACME") (some "acme")
     "Board1" "board1" world_ich7 (by decide) (by decide)⟩

theorem board_match_coreboot_name_no_false_positive_witness :
    (board_match_coreboot_name_in board_pciid_enables (some "Kontron") "986LCD-M" world_ich7).1 =
      Outcome.ret (some board_kontron_first) ∧
    (board_kontron_first ∈ board_pciid_enables ∧
     vendor_matches (some "Kontron") board_kontron_first = true ∧
     part_matches "986LCD-M" board_kontron_first = true ∧
     (pci_dev_find_in world_ich7.devices board_kontron_first.first_vendor
        board_kontron_first.first_device).isSome = true ∧
     (board_kontron_first.second_vendor ≠ 0 →
       (pci_dev_find_in world_ich7.devices board_kontron_first.second_vendor
          board_kontron_first.second_device).isSome = true)) ∧
    (board_match_coreboot_name_in board_pciid_enables (some "Kontron") "986LCD-M"
       world_unknown).1 = Outcome.ret none :=
  ⟨by decide,
   (board_match_coreboot_name_no_false_positive board_pciid_enables (some "Kontron")
      "986LCD-M" world_ich7).2.1 board_kontron_first (by decide),
   (board_match_coreboot_name_no_false_positive board_pciid_enables (some "Kontron")
      "986LCD-M" world_unknown).2.2 (by decide)⟩

theorem board_match_coreboot_name_ambiguous_witness :
    (List.Sublist [board_alpha_x, board_beta_x] [board_alpha_x, board_beta_x] ∧
     name_candidate world_ich7.devices none "x" board_alpha_x = true ∧
     name_candidate world_ich7.devices none "x" board_beta_x = true) ∧
    ∃ (b1 b2 : board_pciid_enable) (rest : List board_pciid_enable),
      [board_alpha_x, board_beta_x].filter (name_candidate world_ich7.devices none "x") =
        b1 :: b2 :: rest ∧
      board_match_coreboot_name_in [board_alpha_x, board_beta_x] none "x" world_ich7 =
        (Outcome.ret none,
         { world_ich7 with trace := world_ich7.trace ++
            [Event.printf "AMBIGUOUS BOARD NAME: %s\n" [Arg.s "x"],
             Event.printf "At least vendors \x27%s\x27 and \x27%s\x27 match.\n"
               [Arg.sp b1.lb_vendor, Arg.sp b2.lb_vendor],
             Event.printf "Please use the full -m vendor:part syntax.\n" []] }) ∧
      ([board_alpha_x, board_beta_x].filter (name_candidate world_ich7.devices none "x") =
         [board_alpha_x, board_beta_x] → b1 = board_alpha_x ∧ b2 = board_beta_x) :=
  ⟨⟨List.Sublist.refl _, by decide, by decide⟩,
   board_match_coreboot_name_ambiguous [board_alpha_x, board_beta_x] "x" world_ich7
     board_alpha_x board_beta_x (List.Sublist.refl _) (by decide) (by decide)⟩

/-- C9, counterexample: with the PCI ids of both Kontron 986LCD-M entries
present, the part-name-only lookup of "986lcd-m" is ambiguous and yields null,
yet `board_flash_enable` finds the second Kontron entry by its PCI and subsystem
ids and runs `board_kontron_986lcd_m`: the trace shows the read of `GPIOBASE`,
the read of `GP_LVL2` and the write that raises GPIO bits 2 and 3. -/
theorem ambiguous_name_still_enables_board :
    board_pciid_enables.filter (name_candidate world_kontron_both.devices none "986lcd-m") =
      [board_kontron_first, board_kontron_second] ∧
    board_match_coreboot_name none "986lcd-m" world_kontron_both =
      (Outcome.ret none,
       after_ambiguity_report "986lcd-m" board_kontron_first board_kontron_second
         world_kontron_both) ∧
    board_match_pci_card_ids world_kontron_both =
      (Outcome.ret (some board_kontron_second), world_kontron_both) ∧
    board_flash_enable (BoardOp.run (fun _ _ => pure 0)) none (some "986lcd-m")
        world_kontron_both =
      (Outcome.ret 0,
       { world_kontron_both with
           input := [],
           trace :=
            [Event.printf "AMBIGUOUS BOARD NAME: %s\n" [Arg.s "986lcd-m"],
             Event.printf "At least vendors \x27%s\x27 and \x27%s\x27 match.\n"
               [Arg.sp (some "kontron"), Arg.sp (some "kontron")],
             Event.printf "Please use the full -m vendor:part syntax.\n" [],
             Event.printf "Found board \"%s %s\", enabling flash write... "
               [Arg.s "Kontron", Arg.s "986LCD-M"],
             Event.pci_read 2 0xf8 0x48 0x0481,
             Event.port_in 4 0x04b8 0,
             Event.port_out 4 0x04b8 0x0c,
             Event.printf "OK.\n" []] }) := by
  refine ⟨by decide, by decide, by decide, by decide⟩

theorem board_flash_enable_ambiguous_falls_through_witness :
    board_pciid_enables.filter (name_candidate world_kontron_both.devices none "986lcd-m") =
      board_kontron_first :: board_kontron_second :: [] ∧
    ∃ r, board_match_pci_card_ids_in board_pciid_enables
          (after_ambiguity_report "986lcd-m" board_kontron_first board_kontron_second
            world_kontron_both) =
        (Outcome.ret r,
         after_ambiguity_report "986lcd-m" board_kontron_first board_kontron_second
           world_kontron_both) ∧
      board_flash_enable_in (fun _ => recording_call 0) board_pciid_enables none
          (some "986lcd-m") world_kontron_both =
        match r with
        | some b =>
          board_enable_found (fun _ => recording_call 0) b
            (after_ambiguity_report "986lcd-m" board_kontron_first board_kontron_second
              world_kontron_both)
        | none =>
          (Outcome.ret 0,
           after_ambiguity_report "986lcd-m" board_kontron_first board_kontron_second
             world_kontron_both) :=
  ⟨by decide,
   board_flash_enable_ambiguous_falls_through (fun _ => recording_call 0) board_pciid_enables
     "986lcd-m" world_kontron_both board_kontron_first board_kontron_second [] (by decide)⟩

/-- C10, counterexample: with the PCI ids of both Kontron 986LCD-M entries
present, both entries pass the filters of the part-name-only lookup of
"986lcd-m" and have the same firmware vendor "kontron", and the lookup returns no
entry, not the first of them. -/
theorem kontron_part_only_lookup_returns_none :
    board_pciid_enables.filter (name_candidate world_kontron_both.devices none "986lcd-m") =
      [board_kontron_first, board_kontron_second] ∧
    board_pciid_enables[22]? = some board_kontron_first ∧
    board_pciid_enables[23]? = some board_kontron_second ∧
    board_kontron_first.lb_vendor = board_kontron_second.lb_vendor ∧
    (board_match_coreboot_name none "986lcd-m" world_kontron_both).1 = Outcome.ret none ∧
    (board_match_coreboot_name none "986lcd-m" world_kontron_both).1 ≠
      Outcome.ret (some board_kontron_first) := by
  refine ⟨by decide, by decide, by decide, by decide, by decide, by decide⟩

theorem board_match_coreboot_name_same_vendor_candidates_witness :
    board_pciid_enables.filter (name_candidate world_kontron_both.devices none "986lcd-m") =
      board_kontron_first :: board_kontron_second :: [] ∧
    (board_match_coreboot_name_in board_pciid_enables none "986lcd-m" world_kontron_both =
      (Outcome.ret none,
       { world_kontron_both with trace := world_kontron_both.trace ++
          [Event.printf "AMBIGUOUS BOARD NAME: %s\n" [Arg.s "986lcd-m"],
           Event.printf "At least vendors \x27%s\x27 and \x27%s\x27 match.\n"
             [Arg.sp board_kontron_first.lb_vendor, Arg.sp board_kontron_second.lb_vendor],
           Event.printf "Please use the full -m vendor:part syntax.\n" []] }) ∧
     (∀ (v : String) (c : board_pciid_enable) (cs : List board_pciid_enable),
       board_pciid_enables.filter (name_candidate world_kontron_both.devices (some v)
         "986lcd-m") = c :: cs →
       board_match_coreboot_name_in board_pciid_enables (some v) "986lcd-m"
         world_kontron_both = (Outcome.ret (some c), world_kontron_both))) :=
  ⟨by decide,
   board_match_coreboot_name_same_vendor_candidates board_pciid_enables "986lcd-m"
     world_kontron_both board_kontron_first board_kontron_second [] (by decide)⟩

/-- C8, counterexample: two entries, `board_alpha_x` and `board_beta_x`, share
the part name "X", have the different firmware vendors "alpha" and "beta" and
both have their PCI ids present, but a third entry of vendor "alpha" that
passes the filters too stands between them in the table.  The part-name-only
lookup of "x" returns no entry, and its report names "alpha" twice: the vendor
"beta" is not reported. -/
theorem ambiguity_report_names_first_two_candidates_only :
    [board_alpha_x, board_alpha2_x, board_beta_x].filter
        (name_candidate world_ich7.devices none "x") =
      [board_alpha_x, board_alpha2_x, board_beta_x] ∧
    part_matches "x" board_alpha_x = true ∧ part_matches "x" board_beta_x = true ∧
    board_alpha_x.lb_vendor = some "alpha" ∧ board_beta_x.lb_vendor = some "beta" ∧
    board_alpha_x.lb_vendor ≠ board_beta_x.lb_vendor ∧
    board_match_coreboot_name_in [board_alpha_x, board_alpha2_x, board_beta_x] none "x"
        world_ich7 =
      (Outcome.ret none,
       { world_ich7 with trace :=
          [Event.printf "AMBIGUOUS BOARD NAME: %s\n" [Arg.s "x"],
           Event.printf "At least vendors \x27%s\x27 and \x27%s\x27 match.\n"
             [Arg.sp (some "alpha"), Arg.sp (some "alpha")],
           Event.printf "Please use the full -m vendor:part syntax.\n" []] }) := by
  refine ⟨by decide, by decide, by decide, by decide, by decide, by decide, by decide⟩

/-! ## The lookups of the mainboard and the dispatch that follows -/

theorem loop_single_candidate (vendor : Option String) (part : String)
    (tbl : List board_pciid_enable) (w : World) (b : board_pciid_enable)
    (h : tbl.filter (name_candidate w.devices vendor part) = [b]) :
    board_match_coreboot_name_in tbl vendor part w = (Outcome.ret (some b), w) := by
  have hb : name_candidate w.devices vendor part b = true := by
    have : b ∈ tbl.filter (name_candidate w.devices vendor part) := by rw [h]; simp
    exact (List.mem_filter.mp this).2
  unfold board_match_coreboot_name_in
  rw [loop_filter, h, loop_cons_candidate _ _ _ _ _ _ hb]
  cases vendor with
  | some v => rfl
  | none => rfl

/-- C11: a single candidate is returned.  Over any table, for a vendor supplied
or not, any part and any device list, when exactly one entry of the table passes
the filters of the lookup by name (the list of the entries that pass is `[b]`),
`board_match_coreboot_name` returns that entry, and prints nothing. -/
theorem board_match_coreboot_name_single_candidate (tbl : List board_pciid_enable)
    (vendor : Option String) (part : String) (w : World) (b : board_pciid_enable)
    (h : tbl.filter (name_candidate w.devices vendor part) = [b]) :
    board_match_coreboot_name_in tbl vendor part w = (Outcome.ret (some b), w) :=
  loop_single_candidate vendor part tbl w b h

theorem board_match_pci_card_ids_in_eq (tbl : List board_pciid_enable) (w : World) :
    board_match_pci_card_ids_in tbl w =
      (Outcome.ret (tbl.find? (card_candidate w.devices)), w) := by
  induction tbl with
  | nil => rfl
  | cons b rest ih =>
    rw [board_match_pci_card_ids_in, List.find?_cons]
    by_cases h1 : b.first_card_vendor = 0 ∨ b.first_card_device = 0
    · have hc : card_candidate w.devices b = false := by
        rcases h1 with h | h <;> simp [card_candidate, h]
      rw [if_pos h1, hc, ih]
    · rw [if_neg h1]
      have h1' : b.first_card_vendor ≠ 0 ∧ b.first_card_device ≠ 0 := by
        constructor
        · exact fun h => h1 (Or.inl h)
        · exact fun h => h1 (Or.inr h)
      simp only [bind_apply, pci_card_find_apply, pci_dev_find_apply]
      cases hf : pci_card_find_in w.devices b.first_vendor b.first_device
          b.first_card_vendor b.first_card_device with
      | none =>
        have hc : card_candidate w.devices b = false := by simp [card_candidate, hf]
        simp only [Option.isNone_none, if_true, hc, ih]
      | some d1 =>
        simp only [Option.isNone_some, Bool.false_eq_true, if_false]
        by_cases h2 : b.second_vendor = 0
        · have hc : card_candidate w.devices b = true := by
            simp [card_candidate, hf, h1'.1, h1'.2, h2]
          simp only [h2, ne_eq, not_true_eq_false, if_false, hc, pure_apply]
        · by_cases h3 : b.second_card_vendor = 0
          · cases hs : pci_dev_find_in w.devices b.second_vendor b.second_device with
            | none =>
              have hc : card_candidate w.devices b = false := by
                simp [card_candidate, hf, h2, h3, hs]
              simp only [h2, h3, ne_eq, not_false_eq_true, not_true_eq_false, if_true,
                if_false, bind_apply, pci_dev_find_apply, hs, Option.isNone_none, hc, ih]
            | some d2 =>
              have hc : card_candidate w.devices b = true := by
                simp [card_candidate, hf, h1'.1, h1'.2, h2, h3, hs]
              simp only [h2, h3, ne_eq, not_false_eq_true, not_true_eq_false, if_true,
                if_false, bind_apply, pci_dev_find_apply, hs, Option.isNone_some,
                Bool.false_eq_true, hc, pure_apply]
          · cases hs : pci_card_find_in w.devices b.second_vendor b.second_device
                b.second_card_vendor b.second_card_device with
            | none =>
              have hc : card_candidate w.devices b = false := by
                simp [card_candidate, hf, h2, h3, hs]
              simp only [h2, h3, ne_eq, not_false_eq_true, if_true,
                bind_apply, pci_card_find_apply, hs, Option.isNone_none, hc, ih]
            | some d2 =>
              have hc : card_candidate w.devices b = true := by
                simp [card_candidate, hf, h1'.1, h1'.2, h2, h3, hs]
              simp only [h2, h3, ne_eq, not_false_eq_true, if_true,
                bind_apply, pci_card_find_apply, hs, Option.isNone_some,
                Bool.false_eq_true, if_false, hc, pure_apply]

theorem pci_card_find_in_wrong_ids (devices : List pci_dev) (v d cv cd : Nat)
    (h : ∀ x ∈ devices, x.vendor_id = v → x.device_id = d →
      ¬ (x.subsys_vendor = cv ∧ x.subsys_device = cd)) :
    pci_card_find_in devices v d cv cd = none := by
  unfold pci_card_find_in
  rw [List.find?_eq_none]
  intro x hx hc
  simp only [Bool.and_eq_true, beq_iff_eq] at hc
  exact h x hx hc.1.1.1 hc.1.1.2 ⟨hc.1.2, hc.2⟩

/-- C12: the lookup by PCI ids returns the first structural match.  Over any
table and device list, `board_match_pci_card_ids` changes nothing and returns
the first entry, in the order of the table, that satisfies `card_candidate`, and
null when none does; an entry for which every present device with its first
(vendor, device) id carries other subsystem ids than the entry names does not
satisfy it. -/
theorem board_match_pci_card_ids_first_match (tbl : List board_pciid_enable) (w : World) :
    board_match_pci_card_ids_in tbl w =
      (Outcome.ret (tbl.find? (card_candidate w.devices)), w) ∧
    board_match_pci_card_ids w =
      (Outcome.ret (board_pciid_enables.find? (card_candidate w.devices)), w) ∧
    (∀ b : board_pciid_enable,
      (∀ x ∈ w.devices, x.vendor_id = b.first_vendor → x.device_id = b.first_device →
        ¬ (x.subsys_vendor = b.first_card_vendor ∧ x.subsys_device = b.first_card_device)) →
      card_candidate w.devices b = false) := by
  refine ⟨board_match_pci_card_ids_in_eq tbl w, board_match_pci_card_ids_in_eq _ w, ?_⟩
  intro b hb
  simp [card_candidate, pci_card_find_in_wrong_ids _ _ _ _ _ hb]

theorem board_match_pci_card_ids_first_match_witness :
    board_match_pci_card_ids world_kontron_both =
      (Outcome.ret (some board_kontron_second), world_kontron_both) ∧
    board_match_pci_card_ids world_wrong_card = (Outcome.ret none, world_wrong_card) ∧
    card_candidate world_wrong_card.devices board_kontron_second = false :=
  ⟨(board_match_pci_card_ids_first_match board_pciid_enables world_kontron_both).2.1.trans
     (by decide),
   (board_match_pci_card_ids_first_match board_pciid_enables world_wrong_card).2.1.trans
     (by decide),
   (board_match_pci_card_ids_first_match board_pciid_enables world_wrong_card).2.2
     board_kontron_second (by decide)⟩

theorem board_lookup_in_name_found (tbl : List board_pciid_enable)
    (vendor : Option String) (part : String) (w w1 : World) (b : board_pciid_enable)
    (h : board_match_coreboot_name_in tbl vendor part w = (Outcome.ret (some b), w1)) :
    board_lookup_in tbl vendor (some part) w = (Outcome.ret (some b), w1) := by
  simp only [board_lookup_in, bind_apply, h]
  rfl

theorem board_lookup_in_name_none (tbl : List board_pciid_enable)
    (vendor : Option String) (part : String) (w w1 : World)
    (h : board_match_coreboot_name_in tbl vendor part w = (Outcome.ret none, w1)) :
    board_lookup_in tbl vendor (some part) w = board_match_pci_card_ids_in tbl w1 := by
  simp only [board_lookup_in, bind_apply, h]

theorem board_lookup_in_no_part (tbl : List board_pciid_enable)
    (vendor : Option String) (w : World) :
    board_lookup_in tbl vendor none w = board_match_pci_card_ids_in tbl w := by
  simp only [board_lookup_in, bind_apply, pure_apply]

/-- C13: the lookup by name takes precedence.  Over any table and whatever the
functions behind `board->enable` are, when a part is supplied and
`board_match_coreboot_name` returns the entry `b`, `board_flash_enable` runs the
block for `b`, so the call it makes is `call b.enable b.vendor_name`, whatever
the lookup by PCI ids would find; the lookups of `board_flash_enable` come down
to the lookup by PCI ids only when the part is null or the lookup by name has
returned null. -/
theorem board_flash_enable_name_match_first (call : BoardOp → String → M Int)
    (tbl : List board_pciid_enable) (vendor : Option String) (part : String)
    (w w1 : World) (b : board_pciid_enable)
    (h : board_match_coreboot_name_in tbl vendor part w = (Outcome.ret (some b), w1)) :
    board_flash_enable_in call tbl vendor (some part) w = board_enable_found call b w1 ∧
    board_lookup_in tbl vendor none w = board_match_pci_card_ids_in tbl w ∧
    (∀ (p : String) (w2 : World),
      board_match_coreboot_name_in tbl vendor p w = (Outcome.ret none, w2) →
      board_lookup_in tbl vendor (some p) w = board_match_pci_card_ids_in tbl w2) :=
  ⟨board_flash_enable_in_found call tbl vendor (some part) w w1 b
     (board_lookup_in_name_found tbl vendor part w w1 b h),
   board_lookup_in_no_part tbl vendor w,
   fun p w2 h2 => board_lookup_in_name_none tbl vendor p w w2 h2⟩

theorem board_flash_enable_name_match_first_witness :
    (board_match_coreboot_name_in board_pciid_enables (some "kontron") "986lcd-m"
        world_kontron_both = (Outcome.ret (some board_kontron_first), world_kontron_both) ∧
     board_match_pci_card_ids_in board_pciid_enables world_kontron_both =
       (Outcome.ret (some board_kontron_second), world_kontron_both)) ∧
    board_flash_enable_in (fun _ => recording_call 0) board_pciid_enables (some "kontron")
        (some "986lcd-m") world_kontron_both =
      board_enable_found (fun _ => recording_call 0) board_kontron_first world_kontron_both :=
  ⟨⟨by decide, by decide⟩,
   (board_flash_enable_name_match_first (fun _ => recording_call 0) board_pciid_enables
      (some "kontron") "986lcd-m" world_kontron_both world_kontron_both board_kontron_first
      (by decide)).1⟩

/-- C14: without a match nothing is enabled.  Over any table and whatever the
functions behind `board->enable` are, when the lookup by name yields null (or
the part is null, so that it is not made) and the lookup by PCI ids yields null
as well, `board_flash_enable` returns 0 and the world it leaves is the one the
lookup by name left: apart from the message of that lookup nothing is printed,
no response of the hardware is consumed and no function of the table runs. -/
theorem board_flash_enable_no_match (call : BoardOp → String → M Int)
    (tbl : List board_pciid_enable) (vendor part : Option String) (w w1 : World)
    (hname : match part with
      | some p => board_match_coreboot_name_in tbl vendor p w = (Outcome.ret none, w1)
      | none => w1 = w)
    (hpci : (board_match_pci_card_ids_in tbl w1).1 = Outcome.ret none) :
    board_flash_enable_in call tbl vendor part w = (Outcome.ret 0, w1) := by
  have hp : board_match_pci_card_ids_in tbl w1 = (Outcome.ret none, w1) := by
    rw [board_match_pci_card_ids_in_eq] at hpci ⊢
    simp only at hpci
    rw [Outcome.ret.inj hpci]
  apply board_flash_enable_in_none
  cases part with
  | none =>
    simp only at hname
    subst hname
    rw [board_lookup_in_no_part, hp]
  | some p =>
    simp only at hname
    rw [board_lookup_in_name_none tbl vendor p w w1 hname, hp]

theorem board_flash_enable_no_match_witness :
    (board_match_coreboot_name_in board_pciid_enables (some "kontron") "986lcd-m"
        world_unknown =
      (Outcome.ret none,
       { world_unknown with trace :=
          [Event.printf "\nUnknown vendor:board from coreboot table or -m option: %s:%s\n\n"
            [Arg.sp (some "kontron"), Arg.s "986lcd-m"]] }) ∧
     (board_match_pci_card_ids_in board_pciid_enables
        { world_unknown with trace :=
          [Event.printf "\nUnknown vendor:board from coreboot table or -m option: %s:%s\n\n"
            [Arg.sp (some "kontron"), Arg.s "986lcd-m"]] }).1 = Outcome.ret none) ∧
    board_flash_enable_in (fun _ => recording_call 1) board_pciid_enables (some "kontron")
        (some "986lcd-m") world_unknown =
      (Outcome.ret 0,
       { world_unknown with trace :=
          [Event.printf "\nUnknown vendor:board from coreboot table or -m option: %s:%s\n\n"
            [Arg.sp (some "kontron"), Arg.s "986lcd-m"]] }) :=
  ⟨⟨by decide, by decide⟩,
   board_flash_enable_no_match (fun _ => recording_call 1) board_pciid_enables
     (some "kontron") (some "986lcd-m") world_unknown _ (by decide) (by decide)⟩

theorem board_match_coreboot_name_single_candidate_witness :
    board_pciid_enables.filter (name_candidate world_ich7.devices none "986LCD-M") =
      [board_kontron_first] ∧
    board_match_coreboot_name_in board_pciid_enables none "986LCD-M" world_ich7 =
      (Outcome.ret (some board_kontron_first), world_ich7) :=
  ⟨by decide,
   board_match_coreboot_name_single_candidate board_pciid_enables none "986LCD-M" world_ich7
     board_kontron_first (by decide)⟩

theorem chipset_find_devices (tbl : List FLASH_ENABLE) (k : Nat) (w w1 : World)
    (h : w1.devices = w.devices) (x : Option (Nat × FLASH_ENABLE × pci_dev))
    (hx : chipset_find tbl k w = (Outcome.ret x, w)) :
    chipset_find tbl k w1 = (Outcome.ret x, w1) := by
  induction tbl generalizing k with
  | nil =>
    have : x = none := by
      have h1 : chipset_find [] k w = (Outcome.ret none, w) := rfl
      rw [h1] at hx
      exact (Outcome.ret.inj (congrArg Prod.fst hx)).symm
    subst this
    rfl
  | cons e rest ih =>
    simp only [chipset_find, bind_apply, pci_dev_find_apply] at hx ⊢
    rw [h]
    cases hf : pci_dev_find_in w.devices e.vendor e.device with
    | some dev =>
      simp only [hf] at hx ⊢
      have : x = some (k, e, dev) := (Outcome.ret.inj (congrArg Prod.fst hx)).symm
      subst this
      rfl
    | none =>
      simp only [hf] at hx ⊢
      exact ih (k + 1) hx

/-- C15: the chipset dispatcher keeps no memory of a match.  Over any table and
whatever the functions behind `doit` are: the entry the loop selects depends on
the device list only, so when a first call of `chipset_flash_enable` has
selected entry `e` with device `dev` and returned, leaving the device list as
it was, a second call selects `e` and `dev` again and runs the block for them
once more: two calls in sequence make the call `call e.doit dev e.name`
twice. -/
theorem chipset_flash_enable_twice (call : ChipsetOp → pci_dev → String → M Int)
    (tbl : List FLASH_ENABLE) (w w1 : World) (i : Nat) (e : FLASH_ENABLE) (dev : pci_dev)
    (r : Int)
    (hsel : chipset_find tbl 0 w = (Outcome.ret (some (i, e, dev)), w))
    (hfirst : chipset_flash_enable_in call tbl w = (Outcome.ret r, w1))
    (hdev : w1.devices = w.devices) :
    chipset_flash_enable_in call tbl w = chipset_enable_found call e dev w ∧
    chipset_find tbl 0 w1 = (Outcome.ret (some (i, e, dev)), w1) ∧
    chipset_flash_enable_in call tbl w1 = chipset_enable_found call e dev w1 ∧
    (chipset_flash_enable_in call tbl >>= fun _ => chipset_flash_enable_in call tbl) w =
      chipset_enable_found call e dev w1 := by
  have h2 := chipset_find_devices tbl 0 w w1 hdev _ hsel
  have h3 := chipset_flash_enable_in_found call tbl w1 i e dev h2
  refine ⟨chipset_flash_enable_in_found call tbl w i e dev hsel, h2, h3, ?_⟩
  rw [bind_apply, hfirst]
  exact h3

theorem chipset_flash_enable_twice_witness :
    (chipset_find enables 0 world_ich2_twice =
       (Outcome.ret (some (8, ⟨0x8086, 0x2440, "Intel ICH2", ChipsetOp.enable_flash_ich_4e⟩,
         dev_ich2)), world_ich2_twice) ∧
     (chipset_flash_enable_in ChipsetOp.run enables world_ich2_twice).1 = Outcome.ret 0 ∧
     (chipset_flash_enable_in ChipsetOp.run enables world_ich2_twice).2.devices =
       world_ich2_twice.devices) ∧
    (chipset_flash_enable >>= fun _ => chipset_flash_enable) world_ich2_twice =
      (Outcome.ret 0,
       { world_ich2_twice with
           input := [],
           trace :=
            [Event.printf "Found chipset \"%s\", enabling flash write... " [Arg.s "Intel ICH2"],
             Event.pci_read 1 0xf8 0x4e 0,
             Event.pci_write 1 0xf8 0x4e 1,
             Event.pci_read 1 0xf8 0x4e 1,
             Event.printf "OK.\n" [],
             Event.printf "Found chipset \"%s\", enabling flash write... " [Arg.s "Intel ICH2"],
             Event.pci_read 1 0xf8 0x4e 1,
             Event.printf "OK.\n" []] }) :=
  ⟨⟨by decide, by decide, by decide⟩,
   ((chipset_flash_enable_twice ChipsetOp.run enables world_ich2_twice
      (chipset_flash_enable_in ChipsetOp.run enables world_ich2_twice).2 8
      ⟨0x8086, 0x2440, "Intel ICH2", ChipsetOp.enable_flash_ich_4e⟩ dev_ich2 0
      (by decide) (by decide) (by decide)).2.2.2).trans (by decide)⟩
/-! ## The register bus resolver `enable_flash_ich_dc_spi` -/

theorem World.after_zero (w : World) :
    w.after 0 [] w.flashbus w.spibar w.ichspi_lock = w := by
  cases w
  simp [World.after]

theorem respond_after (n k : Nat) (w : World) (l : List Event) (bus : flashbus_t)
    (bar : Nat) (lock : Int) :
    respond n (w.after k l bus bar lock) = w.answer k n := by
  simp [respond, World.after, World.answer]

theorem request_after (n : Nat) (ev : Nat → Event) (k : Nat) (w : World) (l : List Event)
    (bus : flashbus_t) (bar : Nat) (lock : Int) :
    request n ev (w.after k l bus bar lock) =
      (Outcome.ret (w.answer k n), w.after (k + 1) (l ++ [ev (w.answer k n)]) bus bar lock) := by
  simp only [request, respond_after]
  simp [World.after, List.tail_drop]

theorem emit_after (e : Event) (k : Nat) (w : World) (l : List Event)
    (bus : flashbus_t) (bar : Nat) (lock : Int) :
    emit e (w.after k l bus bar lock) =
      (Outcome.ret (), w.after k (l ++ [e]) bus bar lock) := by
  simp [emit, World.after]

theorem physmap_after (descr : String) (a len : Nat) (k : Nat) (w : World) (l : List Event)
    (bus : flashbus_t) (bar : Nat) (lock : Int) :
    physmap descr a len (w.after k l bus bar lock) =
      if w.answer k 8 = 0 then
        (Outcome.fatal descr,
         w.after (k + 1) (l ++ [Event.physmap descr a len (w.answer k 8)]) bus bar lock)
      else
        (Outcome.ret (w.answer k 8),
         w.after (k + 1) (l ++ [Event.physmap descr a len (w.answer k 8)]) bus bar lock) := by
  simp only [physmap, respond_after]
  split <;> simp [World.after, List.tail_drop]

theorem printf_debug_after (fmt : String) (args : List Arg) (k : Nat) (w : World)
    (l : List Event) (bus : flashbus_t) (bar : Nat) (lock : Int) :
    printf_debug fmt (pure args) (w.after k l bus bar lock) =
      (Outcome.ret (),
       w.after k (l ++ if w.verbose = true then [Event.printf fmt args] else []) bus bar lock) := by
  cases hv : w.verbose with
  | true =>
    have : (w.after k l bus bar lock).verbose = true := hv
    simp only [printf_debug, this, if_true]
    show M.bind (M.pure args) (fun a => printf fmt a) _ = _
    simp [M.bind, M.pure, printf, emit, World.after]
  | false =>
    have : (w.after k l bus bar lock).verbose = false := hv
    simp [printf_debug, this]

theorem set_flashbus_after (b : flashbus_t) (k : Nat) (w : World) (l : List Event)
    (bus : flashbus_t) (bar : Nat) (lock : Int) :
    set_flashbus b (w.after k l bus bar lock) = (Outcome.ret (), w.after k l b bar lock) := rfl

theorem set_spibar_after (p : Nat) (k : Nat) (w : World) (l : List Event)
    (bus : flashbus_t) (bar : Nat) (lock : Int) :
    set_spibar p (w.after k l bus bar lock) = (Outcome.ret (), w.after k l bus p lock) := rfl

theorem set_ichspi_lock_after (v : Int) (k : Nat) (w : World) (l : List Event)
    (bus : flashbus_t) (bar : Nat) (lock : Int) :
    set_ichspi_lock v (w.after k l bus bar lock) = (Outcome.ret (), w.after k l bus bar v) := rfl

theorem get_flashbus_after (k : Nat) (w : World) (l : List Event)
    (bus : flashbus_t) (bar : Nat) (lock : Int) :
    get_flashbus (w.after k l bus bar lock) = (Outcome.ret bus, w.after k l bus bar lock) := rfl

theorem DebugOnly_after {α : Type} {Q : α → Prop} {j : Nat} {m : M α} (h : DebugOnly Q j m)
    (k : Nat) (w : World) (l : List Event) (bus : flashbus_t) (bar : Nat) (lock : Int) :
    ∃ (a : α) (l' : List Event), Q a ∧ no_physmap l' = true ∧
      m (w.after k l bus bar lock) =
        (Outcome.ret a,
         w.after (k + if w.verbose = true then j else 0) (l ++ l') bus bar lock) := by
  obtain ⟨a, l', hq, hl, hm⟩ := h (w.after k l bus bar lock)
  refine ⟨a, l', hq, hl, ?_⟩
  rw [hm]
  simp [World.after, List.append_assoc]

theorem no_physmap_append (a b : List Event) :
    no_physmap (a ++ b) = (no_physmap a && no_physmap b) := by
  simp [no_physmap]

theorem DebugOnly_pure {α : Type} (Q : α → Prop) (a : α) (h : Q a) :
    DebugOnly Q 0 (pure a) := by
  intro w
  refine ⟨a, [], h, rfl, ?_⟩
  cases w
  simp [pure_apply]

theorem DebugOnly_bind {α β : Type} {R : α → Prop} {Q : β → Prop} {k j n : Nat}
    {m : M α} {f : α → M β}
    (hm : DebugOnly R k m) (hf : ∀ a, R a → DebugOnly Q j (f a)) (hn : k + j = n) :
    DebugOnly Q n (m >>= f) := by
  intro w
  obtain ⟨a, l, ha, hl, hmw⟩ := hm w
  obtain ⟨b, l', hb, hl', hfw⟩ := hf a ha
    { w with input := w.input.drop (if w.verbose = true then k else 0),
             trace := w.trace ++ l }
  refine ⟨b, l ++ l', hb, ?_, ?_⟩
  · rw [no_physmap_append, hl, hl']; rfl
  · rw [bind_apply, hmw]
    simp only [hfw]
    subst hn
    cases hv : w.verbose <;> simp [hv, List.append_assoc]

theorem DebugOnly_weaken {α : Type} {Q Q' : α → Prop} {k : Nat} {m : M α}
    (h : DebugOnly Q k m) (hq : ∀ a, Q a → Q' a) : DebugOnly Q' k m := by
  intro w
  obtain ⟨a, l, ha, hl, hmw⟩ := h w
  exact ⟨a, l, hq a ha, hl, hmw⟩

theorem DebugOnly_printf_debug_pure (fmt : String) (args : List Arg) :
    DebugOnly (fun _ => True) 0 (printf_debug fmt (pure args)) := by
  intro w
  refine ⟨(), if w.verbose = true then [Event.printf fmt args] else [], trivial, ?_, ?_⟩
  · split <;> rfl
  · have h := printf_debug_after fmt args 0 w [] w.flashbus w.spibar w.ichspi_lock
    rw [World.after_zero] at h
    rw [h]
    cases w
    simp [World.after]

theorem DebugOnly_printf_debug_read (fmt : String) (n a : Nat) (g : Nat → List Arg) :
    DebugOnly (fun _ => True) 1 (printf_debug fmt (mem_read n a >>= fun x => pure (g x))) := by
  intro w
  cases hv : w.verbose with
  | false =>
    refine ⟨(), [], trivial, rfl, ?_⟩
    cases w
    simp only at hv
    simp [printf_debug, hv]
  | true =>
    refine ⟨(), [Event.mem_read n a (respond n w), Event.printf fmt (g (respond n w))],
      trivial, rfl, ?_⟩
    simp only [printf_debug, hv, if_true]
    show M.bind (mem_read n a >>= fun x => pure (g x)) (fun a => printf fmt a) w = _
    simp [M.bind, bind_apply, mem_read, request, pure_apply, printf, emit, hv]

theorem DebugOnly_forIn {α β : Type} (k : Nat) (l : List α) (init : β)
    (f : α → β → M (ForInStep β))
    (h : ∀ a b, DebugOnly (fun s => ∃ b', s = ForInStep.yield b') k (f a b)) :
    DebugOnly (fun _ => True) (l.length * k) (forIn l init f) := by
  induction l generalizing init with
  | nil =>
    rw [List.forIn_nil]
    simpa using DebugOnly_pure (fun _ => True) init trivial
  | cons a as ih =>
    rw [List.forIn_cons]
    have hstep : ∀ s : ForInStep β, (∃ b', s = ForInStep.yield b') →
        DebugOnly (fun _ => True) (as.length * k)
          (match s with
           | ForInStep.done b => pure b
           | ForInStep.yield b => forIn as b f) := by
      rintro s ⟨b', rfl⟩
      exact ih b'
    exact DebugOnly_bind (h a init) hstep (by simp [Nat.add_mul, Nat.add_comm])

theorem debug_dump32_debug_only (fmt : String) (spibar offs i : Nat) :
    DebugOnly (fun _ => True) 1 (debug_dump32 fmt spibar offs i) :=
  DebugOnly_printf_debug_read fmt 4 (spibar + offs) _

theorem ich7_spi_dump_debug_only (spibar : Nat) :
    DebugOnly (fun _ => True) 28 (ich7_spi_dump spibar) := by
  unfold ich7_spi_dump
  repeat (first
    | with_reducible exact DebugOnly_printf_debug_pure _ _
    | with_reducible exact DebugOnly_printf_debug_read _ _ _ _
    | with_reducible exact debug_dump32_debug_only _ _ _ _
    | with_reducible exact DebugOnly_pure _ _ ⟨_, rfl⟩
    | with_reducible exact DebugOnly_pure _ _ trivial
    | with_reducible apply DebugOnly_forIn
    | with_reducible apply DebugOnly_bind
    | with_reducible intro _ _
    | rfl
    | dsimp only)

theorem ich9_spi_dump_debug_only (spibar tmp : Nat) :
    DebugOnly (fun _ => True) 17 (ich9_spi_dump spibar tmp) := by
  unfold ich9_spi_dump
  repeat (first
    | with_reducible exact DebugOnly_printf_debug_pure _ _
    | with_reducible exact DebugOnly_printf_debug_read _ _ _ _
    | with_reducible exact debug_dump32_debug_only _ _ _ _
    | with_reducible exact DebugOnly_pure _ _ ⟨_, rfl⟩
    | with_reducible exact DebugOnly_pure _ _ trivial
    | with_reducible apply DebugOnly_forIn
    | with_reducible apply DebugOnly_bind
    | with_reducible intro _ _
    | rfl
    | dsimp only)

theorem pure_after {α : Type} (a : α) (w : World) : (pure a : M α) w = (Outcome.ret a, w) := rfl

theorem enable_flash_ich_effect (dev : pci_dev) (name : String) (reg : Nat) (w : World) :
    ∃ (r : Int) (k : Nat) (l : List Event), (r = 0 ∨ r = -1) ∧ no_physmap l = true ∧
      enable_flash_ich dev name reg w =
        (Outcome.ret r, w.after k l w.flashbus w.spibar w.ichspi_lock) := by
  suffices h : ∀ w0, w0 = w.after 0 [] w.flashbus w.spibar w.ichspi_lock →
      ∃ (r : Int) (k : Nat) (l : List Event), (r = 0 ∨ r = -1) ∧ no_physmap l = true ∧
        enable_flash_ich dev name reg w0 =
          (Outcome.ret r, w.after k l w.flashbus w.spibar w.ichspi_lock) from
    h w (World.after_zero w).symm
  intro w0 hw0
  subst hw0
  unfold enable_flash_ich
  simp only [bind_apply, pci_read_byte, pci_write_byte, printf, request_after, emit_after,
    printf_debug_after]
  by_cases hc : w.answer 0 1 ||| 1 = w.answer 0 1
  · simp only [hc, if_true, pure_after]
    refine ⟨0, _, _, Or.inl rfl, ?_, rfl⟩
    cases w.verbose <;> rfl
  · simp only [hc, if_false, bind_apply, pure_after, request_after, emit_after]
    by_cases hr : w.answer (0 + 1) 1 = w.answer 0 1 ||| 1
    · simp only [hr, ne_eq, not_true_eq_false, if_false, bind_apply, pure_after]
      refine ⟨0, _, _, Or.inl rfl, ?_, rfl⟩
      cases w.verbose <;> rfl
    · simp only [hr, ne_eq, not_false_eq_true, if_true, bind_apply, pure_after, emit_after]
      refine ⟨-1, _, _, Or.inr rfl, ?_, rfl⟩
      cases w.verbose <;> rfl


theorem DebugOnly_at {α : Type} {Q : α → Prop} {j : Nat} {m : M α} (hm : DebugOnly Q j m)
    (W : World) (k : Nat) (w : World) (l : List Event) (bus : flashbus_t) (bar : Nat)
    (lock : Int) (hW : w.after k l bus bar lock = W) :
    ∃ (a : α) (l' : List Event), Q a ∧ no_physmap l' = true ∧
      m W = (Outcome.ret a,
        w.after (k + if w.verbose = true then j else 0) (l ++ l') bus bar lock) := by
  subst hW
  exact DebugOnly_after hm k w l bus bar lock

theorem no_physmap_debug (fmt : String) (args : List Arg) (b : Bool) :
    no_physmap (if b = true then [Event.printf fmt args] else []) = true := by
  cases b <;> rfl

theorem no_physmap_cons (e : Event) (l : List Event) :
    no_physmap (e :: l) = (!e.is_physmap && no_physmap l) := by
  simp [no_physmap]

theorem no_physmap_nil : no_physmap [] = true := rfl

theorem ich_spi_probe_ich7 (sp k : Nat) (w : World) (l : List Event) (bar : Nat) (lock : Int) :
    ∃ l' : List Event, no_physmap l' = true ∧
      Event.mem_read 2 sp (w.answer (k + (if w.verbose = true then 28 else 0)) 2) ∈ l' ∧
      ich_spi_probe sp (w.after k l flashbus_t.BUS_TYPE_ICH7_SPI bar lock) =
        (Outcome.ret (),
         w.after (k + (if w.verbose = true then 28 else 0) + 1) (l ++ l')
           flashbus_t.BUS_TYPE_ICH7_SPI bar
           (if w.answer (k + (if w.verbose = true then 28 else 0)) 2 &&& (1 <<< 15) ≠ 0
            then 1 else lock)) := by
  obtain ⟨a, ld, _, hld, hd⟩ := DebugOnly_after (ich7_spi_dump_debug_only sp) k w l
    flashbus_t.BUS_TYPE_ICH7_SPI bar lock
  unfold ich_spi_probe
  simp only [bind_apply, get_flashbus_after, hd, mem_read, request_after]
  by_cases hs : w.answer (k + (if w.verbose = true then 28 else 0)) 2 &&& (1 <<< 15) = 0
  · simp only [hs, ne_eq, not_true_eq_false, if_false, bind_apply, pure_after, extern_call,
      emit_after]
    refine ⟨ld ++ [Event.mem_read 2 sp (w.answer (k + (if w.verbose = true then 28 else 0)) 2),
      Event.call "ich_init_opcodes"], ?_, ?_, ?_⟩
    · rw [no_physmap_append, hld]; rfl
    · simp
    · simp [List.append_assoc]
  · simp only [hs, ne_eq, not_false_eq_true, if_true, bind_apply, pure_after, extern_call,
      printf, emit_after, set_ichspi_lock_after]
    refine ⟨ld ++ [Event.mem_read 2 sp (w.answer (k + (if w.verbose = true then 28 else 0)) 2),
      Event.printf "WARNING: SPI Configuration Lockdown activated.\n" [],
      Event.call "ich_init_opcodes"], ?_, ?_, ?_⟩
    · rw [no_physmap_append, hld]; rfl
    · simp
    · simp [List.append_assoc]

theorem ich_spi_probe_ich9 (sp k : Nat) (w : World) (l : List Event) (bar : Nat) (lock : Int) :
    ∃ l' : List Event, no_physmap l' = true ∧
      Event.mem_read 2 (sp + 4) (w.answer k 2) ∈ l' ∧
      ich_spi_probe sp (w.after k l flashbus_t.BUS_TYPE_ICH9_SPI bar lock) =
        (Outcome.ret (),
         w.after (k + 2 + (if w.verbose = true then 17 else 0)) (l ++ l')
           flashbus_t.BUS_TYPE_ICH9_SPI bar
           (if w.answer k 2 &&& (1 <<< 15) ≠ 0 then 1 else lock)) := by
  unfold ich_spi_probe
  simp only [bind_apply, get_flashbus_after, mem_read, request_after, printf_debug_after]
  generalize hW : w.after (k + 1 + 1) _ _ _ _ = W
  obtain ⟨a, ld, _, hld, hd⟩ := DebugOnly_at (ich9_spi_dump_debug_only sp (w.answer (k + 1) 4))
    W _ _ _ _ _ _ hW
  simp only [hd]
  by_cases hs : w.answer k 2 &&& (1 <<< 15) = 0
  · simp only [hs, ne_eq, not_true_eq_false, if_false, bind_apply, pure_after, extern_call,
      emit_after, List.append_assoc]
    refine ⟨_, ?_, ?_, rfl⟩
    · simp only [no_physmap_append, no_physmap_debug, no_physmap_cons, no_physmap_nil, hld,
        Event.is_physmap, Bool.not_false, Bool.and_self]
    · simp
  · simp only [hs, ne_eq, not_false_eq_true, if_true, bind_apply, pure_after, extern_call,
      printf, emit_after, set_ichspi_lock_after, List.append_assoc]
    refine ⟨_, ?_, ?_, rfl⟩
    · simp only [no_physmap_append, no_physmap_debug, no_physmap_cons, no_physmap_nil, hld,
        Event.is_physmap, Bool.not_false, Bool.and_self]
    · simp

theorem ich_spi_probe_ich7_at (sp : Nat) (W : World) (k : Nat) (w : World) (l : List Event)
    (bar : Nat) (lock : Int)
    (hW : w.after k l flashbus_t.BUS_TYPE_ICH7_SPI bar lock = W) :
    ∃ l' : List Event, no_physmap l' = true ∧
      Event.mem_read 2 sp (w.answer (k + (if w.verbose = true then 28 else 0)) 2) ∈ l' ∧
      ich_spi_probe sp W =
        (Outcome.ret (),
         w.after (k + (if w.verbose = true then 28 else 0) + 1) (l ++ l')
           flashbus_t.BUS_TYPE_ICH7_SPI bar
           (if w.answer (k + (if w.verbose = true then 28 else 0)) 2 &&& (1 <<< 15) ≠ 0
            then 1 else lock)) := by
  subst hW
  exact ich_spi_probe_ich7 sp k w l bar lock

theorem ich_spi_probe_ich9_at (sp : Nat) (W : World) (k : Nat) (w : World) (l : List Event)
    (bar : Nat) (lock : Int)
    (hW : w.after k l flashbus_t.BUS_TYPE_ICH9_SPI bar lock = W) :
    ∃ l' : List Event, no_physmap l' = true ∧
      Event.mem_read 2 (sp + 4) (w.answer k 2) ∈ l' ∧
      ich_spi_probe sp W =
        (Outcome.ret (),
         w.after (k + 2 + (if w.verbose = true then 17 else 0)) (l ++ l')
           flashbus_t.BUS_TYPE_ICH9_SPI bar
           (if w.answer k 2 &&& (1 <<< 15) ≠ 0 then 1 else lock)) := by
  subst hW
  exact ich_spi_probe_ich9 sp k w l bar lock

theorem answer_after (w : World) (k j n : Nat) (l : List Event) (bus : flashbus_t) (bar : Nat)
    (lock : Int) : (w.after k l bus bar lock).answer j n = w.answer (k + j) n := by
  simp [World.answer, World.after, List.getD_eq_getElem?_getD, List.getElem?_drop]

theorem debug_either_after (c : Prop) [Decidable c] (f1 f2 : String) (a1 a2 : List Arg)
    (r : Int) (w : World) (k : Nat) (l : List Event) (bus : flashbus_t) (bar : Nat)
    (lock : Int) :
    (if c then (do printf_debug f1 (pure a1); pure r) else
        (do printf_debug f2 (pure a2); pure r) : M Int) (w.after k l bus bar lock) =
      (Outcome.ret r, w.after k
        (l ++ if w.verbose = true then [Event.printf (if c then f1 else f2)
          (if c then a1 else a2)] else []) bus bar lock) := by
  by_cases hc : c
  · simp only [hc, if_true, bind_apply, printf_debug_after, pure_after]
  · simp only [hc, if_false, bind_apply, printf_debug_after, pure_after]

theorem enable_flash_ich_dc_spi_run (dev : pci_dev) (name : String) (gen : Int) (w : World) :
    ∃ (r : Int) (k0 : Nat) (l0 dbg post : List Event) (o : Outcome Int) (w2 : World),
      enable_flash_ich_dc dev name w =
        (Outcome.ret r, w.after k0 l0 w.flashbus w.spibar w.ichspi_lock) ∧
      enable_flash_ich_dc_spi dev name gen w = (o, w2) ∧
      no_physmap l0 = true ∧ no_physmap dbg = true ∧ no_physmap post = true ∧
      w2.trace = w.trace ++ (l0 ++ ([Event.pci_read 4 dev.addr 0xf0 (w.answer k0 4)] ++ (dbg ++
        ([Event.physmap "ICH RCRB" (w.answer k0 4 &&& 0xffffc000) 0x4000 (w.answer (k0 + 1) 8)]
          ++ post)))) ∧
      (w.answer (k0 + 1) 8 = 0 → o = Outcome.fatal "ICH RCRB" ∧
        w2.flashbus = w.flashbus ∧ w2.spibar = w.spibar ∧ w2.ichspi_lock = w.ichspi_lock) ∧
      (w.answer (k0 + 1) 8 ≠ 0 → o = Outcome.ret r ∧
        Event.mem_read 4 (w.answer (k0 + 1) 8 + 0x3410) (w.answer (k0 + 2) 4) ∈ post ∧
        ((gen = 7 ∧ (w.answer (k0 + 2) 4 >>> 10) &&& 0x3 = 3) →
          w2.flashbus = w.flashbus ∧ w2.spibar = w.spibar ∧
            w2.ichspi_lock = w.ichspi_lock) ∧
        (¬ (gen = 7 ∧ (w.answer (k0 + 2) 4 >>> 10) &&& 0x3 = 3) →
          w2.flashbus = (if gen = 7 then flashbus_t.BUS_TYPE_ICH7_SPI
            else flashbus_t.BUS_TYPE_ICH9_SPI) ∧
          w2.spibar = w.answer (k0 + 1) 8 + (if gen = 7 ∨ gen = 8 then 0x3020 else 0x3800) ∧
          Event.mem_read 2 (w2.spibar + (if gen = 7 then 0 else 4))
            (w.answer (k0 + 4 + (if gen = 7 ∧ w.verbose = true then 28 else 0)) 2) ∈ post ∧
          w2.ichspi_lock =
            (if w.answer (k0 + 4 + (if gen = 7 ∧ w.verbose = true then 28 else 0)) 2
                &&& (1 <<< 15) ≠ 0 then 1 else w.ichspi_lock))) := by
  obtain ⟨r, k0, l0, hr, hl0, h1⟩ := enable_flash_ich_effect dev name 0xdc w
  refine ⟨r, k0, l0, ?_⟩
  generalize hX : enable_flash_ich_dc_spi dev name gen w = X
  unfold enable_flash_ich_dc_spi enable_flash_ich_dc at hX
  simp only [bind_apply, h1, pci_read_long, request_after, printf_debug_after, physmap_after,
    mem_read] at hX
  by_cases hm : w.answer (k0 + 1) 8 = 0
  · simp only [hm, if_true, List.append_assoc] at hX
    subst hX
    refine ⟨if w.verbose = true then [Event.printf
        "\nRoot Complex Register Block address = 0x%x\n"
        [Arg.u (w.answer k0 4 &&& 0xffffc000)]] else [], [], _, _, h1, rfl, hl0, ?_, rfl, ?_,
        ?_, ?_⟩
    · exact no_physmap_debug _ _ _
    · simp [World.after, hm]
    · intro _; exact ⟨rfl, rfl, rfl, rfl⟩
    · intro h; exact absurd hm h
  · simp only [hm, if_false, request_after, printf_debug_after] at hX
    by_cases hd : gen = 7 ∧ w.answer (k0 + 1 + 1) 4 >>> 10 &&& 3 = ICH_STRAP_LPC
    · simp only [hd, and_self, if_true, pure_after, List.append_assoc] at hX
      subst hX
      refine ⟨_, _, _, _, h1, rfl, hl0, ?_, ?_, rfl, ?_, ?_⟩
      · exact no_physmap_debug _ _ _
      · simp only [no_physmap_append, no_physmap_debug, no_physmap_cons, no_physmap_nil,
          Event.is_physmap, Bool.not_false, Bool.and_self]
      · intro h; exact absurd h hm
      · intro _
        refine ⟨rfl, ?_, ?_, ?_⟩
        · simp
        · intro _; exact ⟨rfl, rfl, rfl⟩
        · intro h; exact absurd hd h
    · simp only [hd, if_false, bind_apply, pure_after] at hX
      by_cases h7 : gen = 7
      · subst h7
        simp only [bind_apply, set_flashbus_after, pure_after, printf_debug_after,
          set_spibar_after] at hX
        generalize hW : w.after (k0 + 1 + 1 + 1 + 1) _ _ _ _ = W at hX
        obtain ⟨lp, hlp, hmem, hp⟩ := ich_spi_probe_ich7_at (w.answer (k0 + 1) 8 + 12320) W
          _ _ _ _ _ hW
        simp only [hp, pci_read_byte, request_after, printf_debug_after, debug_either_after,
          List.append_assoc] at hX
        · subst hX
          refine ⟨_, _, _, _, h1, rfl, hl0, ?_, ?_, rfl, ?_, ?_⟩
          · exact no_physmap_debug _ _ _
          · simp only [no_physmap_append, no_physmap_debug, no_physmap_cons, no_physmap_nil,
              Event.is_physmap, Bool.not_false, Bool.and_self, hlp]
          · intro h; exact absurd h hm
          · intro _
            refine ⟨rfl, ?_, ?_, ?_⟩
            · simp
            · intro h; exact absurd h hd
            · intro _
              refine ⟨?_, ?_, ?_, ?_⟩
              · simp [World.after]
              · simp [World.after]
              · simp [World.after, Nat.add_assoc] at hmem ⊢
                simp [hmem]
              · simp [World.after, Nat.add_assoc]
      · by_cases h8 : gen = 8
        · subst h8
          simp only [bind_apply, set_flashbus_after, pure_after, printf_debug_after,
            set_spibar_after] at hX
          generalize hW : w.after (k0 + 1 + 1 + 1 + 1) _ _ _ _ = W at hX
          obtain ⟨lp, hlp, hmem, hp⟩ := ich_spi_probe_ich9_at (w.answer (k0 + 1) 8 + 12320) W
            _ _ _ _ _ hW
          simp only [hp, pci_read_byte, request_after, printf_debug_after, debug_either_after,
          List.append_assoc] at hX
          · subst hX
            refine ⟨_, _, _, _, h1, rfl, hl0, ?_, ?_, rfl, ?_, ?_⟩
            · exact no_physmap_debug _ _ _
            · simp only [no_physmap_append, no_physmap_debug, no_physmap_cons, no_physmap_nil,
                Event.is_physmap, Bool.not_false, Bool.and_self, hlp]
            · intro h; exact absurd h hm
            · intro _
              refine ⟨rfl, ?_, ?_, ?_⟩
              · simp
              · intro h; exact absurd h hd
              · intro _
                refine ⟨?_, ?_, ?_, ?_⟩
                · simp [World.after]
                · simp [World.after]
                · simp [World.after, Nat.add_assoc] at hmem ⊢
                  simp [hmem]
                · simp [World.after, Nat.add_assoc]
        · simp only [bind_apply, set_flashbus_after, pure_after, printf_debug_after,
            set_spibar_after] at hX
          generalize hW : w.after (k0 + 1 + 1 + 1 + 1) _ _ _ _ = W at hX
          obtain ⟨lp, hlp, hmem, hp⟩ := ich_spi_probe_ich9_at (w.answer (k0 + 1) 8 + 14336) W
            _ _ _ _ _ hW
          simp only [hp, pci_read_byte, request_after, printf_debug_after, debug_either_after,
          List.append_assoc] at hX
          · subst hX
            refine ⟨_, _, _, _, h1, rfl, hl0, ?_, ?_, rfl, ?_, ?_⟩
            · exact no_physmap_debug _ _ _
            · simp only [no_physmap_append, no_physmap_debug, no_physmap_cons, no_physmap_nil,
                Event.is_physmap, Bool.not_false, Bool.and_self, hlp]
            · intro h; exact absurd h hm
            · intro _
              refine ⟨rfl, ?_, ?_, ?_⟩
              · simp
              · intro h; exact absurd h hd
              · intro _
                refine ⟨?_, ?_, ?_, ?_⟩
                · simp [World.after, h7, h8]
                · simp [World.after, h7, h8]
                · simp [World.after, h7, h8, Nat.add_assoc] at hmem ⊢
                  simp [hmem]
                · simp [World.after, h7, h8, Nat.add_assoc]

/-! ### Arithmetic of the masks -/

theorem answer_lt (w : World) (k n : Nat) : w.answer k n < 2 ^ (8 * n) := by
  unfold World.answer
  have hpos : (0 : Int) < ((2 ^ (8 * n) : Nat) : Int) := by positivity
  have h1 := Int.emod_lt_of_pos (w.input.getD k 0) hpos
  have h0 := Int.emod_nonneg (w.input.getD k 0) (ne_of_gt hpos)
  omega

theorem rcrb_mask_low (v : Nat) : (v &&& 0xffffc000) % 2 ^ 14 = 0 := by
  apply Nat.eq_of_testBit_eq
  intro i
  have hM : (0xffffc000 : Nat) = 2 ^ 14 * (2 ^ 18 - 1) := by norm_num
  rw [Nat.testBit_mod_two_pow, Nat.testBit_and, hM, Nat.testBit_mul_pow_two, Nat.zero_testBit]
  by_cases h : i < 14
  · have h2 : ¬ i ≥ 14 := by omega
    simp [h2]
  · simp [h]

theorem rcrb_mask_high (v : Nat) (hv : v < 2 ^ 32) :
    (v &&& 0xffffc000) / 2 ^ 14 = v / 2 ^ 14 := by
  apply Nat.eq_of_testBit_eq
  intro i
  have hM : (0xffffc000 : Nat) = 2 ^ 14 * (2 ^ 18 - 1) := by norm_num
  rw [← Nat.shiftRight_eq_div_pow, ← Nat.shiftRight_eq_div_pow, Nat.testBit_shiftRight,
    Nat.testBit_shiftRight, Nat.testBit_and, hM, Nat.testBit_mul_pow_two,
    Nat.testBit_two_pow_sub_one]
  by_cases h : i < 18
  · simp [h]
  · have h4 : v < 2 ^ (14 + i) :=
      lt_of_lt_of_le hv (Nat.pow_le_pow_right (by norm_num) (by omega))
    rw [Nat.testBit_lt_two_pow h4]
    simp

theorem strap_field (x : Nat) : (x >>> 10) &&& 0x3 = x / 2 ^ 10 % 4 := by
  rw [Nat.shiftRight_eq_div_pow]
  exact Nat.and_pow_two_sub_one_eq_mod (x / 2 ^ 10) 2

theorem lock_bit (x : Nat) (h : x / 2 ^ 15 % 2 = 1) : x &&& (1 <<< 15) ≠ 0 := by
  intro h0
  have ht : (x &&& (1 <<< 15)).testBit 15 = true := by
    rw [Nat.testBit_and, Nat.one_shiftLeft, Nat.testBit_two_pow_self, Nat.testBit_to_div_mod,
      h]
    rfl
  rw [h0, Nat.zero_testBit] at ht
  exact Bool.noConfusion ht

/-! ### The resolver after the write enable -/

theorem no_physmap_lengths (l : List Event) (h : no_physmap l = true) :
    physmap_lengths l = [] := by
  induction l with
  | nil => rfl
  | cons e l ih =>
    rw [no_physmap_cons, Bool.and_eq_true] at h
    cases e <;> first
      | (simp only [physmap_lengths]; exact ih h.2)
      | (simp [Event.is_physmap] at h)

theorem physmap_lengths_append (l1 l2 : List Event) :
    physmap_lengths (l1 ++ l2) = physmap_lengths l1 ++ physmap_lengths l2 := by
  induction l1 with
  | nil => rfl
  | cons e l ih => cases e <;> simp [physmap_lengths, ih]

theorem enable_flash_ich_dc_spi_after_enable (dev : pci_dev) (name : String) (gen : Int)
    (w : World) (r : Int) (w1 : World)
    (h1 : enable_flash_ich_dc dev name w = (Outcome.ret r, w1)) :
    w1.flashbus = w.flashbus ∧ w1.spibar = w.spibar ∧ w1.ichspi_lock = w.ichspi_lock ∧
    w1.verbose = w.verbose ∧
    ∃ (pre dbg post : List Event) (o : Outcome Int) (w2 : World),
      enable_flash_ich_dc_spi dev name gen w = (o, w2) ∧
      w1.trace = w.trace ++ pre ∧
      no_physmap pre = true ∧ no_physmap dbg = true ∧ no_physmap post = true ∧
      w2.trace = w1.trace ++ ([Event.pci_read 4 dev.addr 0xf0 (w1.answer 0 4)] ++ (dbg ++
        ([Event.physmap "ICH RCRB" (w1.answer 0 4 &&& 0xffffc000) 0x4000 (w1.answer 1 8)]
          ++ post))) ∧
      (w1.answer 1 8 = 0 → o = Outcome.fatal "ICH RCRB" ∧
        w2.flashbus = w.flashbus ∧ w2.spibar = w.spibar ∧ w2.ichspi_lock = w.ichspi_lock) ∧
      (w1.answer 1 8 ≠ 0 → o = Outcome.ret r ∧
        Event.mem_read 4 (w1.answer 1 8 + 0x3410) (w1.answer 2 4) ∈ post ∧
        ((gen = 7 ∧ w1.answer 2 4 / 2 ^ 10 % 4 = 3) →
          w2.flashbus = w.flashbus ∧ w2.spibar = w.spibar ∧
            w2.ichspi_lock = w.ichspi_lock) ∧
        (¬ (gen = 7 ∧ w1.answer 2 4 / 2 ^ 10 % 4 = 3) →
          w2.flashbus = (if gen = 7 then flashbus_t.BUS_TYPE_ICH7_SPI
            else flashbus_t.BUS_TYPE_ICH9_SPI) ∧
          w2.spibar = w1.answer 1 8 + (if gen = 7 ∨ gen = 8 then 0x3020 else 0x3800) ∧
          Event.mem_read 2 (w2.spibar + (if gen = 7 then 0 else 4))
            (w1.answer (4 + (if gen = 7 ∧ w.verbose = true then 28 else 0)) 2) ∈ post ∧
          w2.ichspi_lock =
            (if w1.answer (4 + (if gen = 7 ∧ w.verbose = true then 28 else 0)) 2
                &&& (1 <<< 15) ≠ 0 then 1 else w.ichspi_lock))) := by
  obtain ⟨r0, k0, l0, dbg, post, o, w2, h0, hrun, hl0, hdbg, hpost, htr, hfatal, hret⟩ :=
    enable_flash_ich_dc_spi_run dev name gen w
  rw [h1] at h0
  injection h0 with hr hw
  injection hr with hr
  subst hr hw
  refine ⟨rfl, rfl, rfl, rfl, l0, dbg, post, o, w2, hrun, rfl, hl0, hdbg, hpost, ?_, ?_, ?_⟩
  · rw [htr, answer_after, answer_after]
    simp [World.after, List.append_assoc]
  · rw [answer_after]
    exact hfatal
  · rw [answer_after, answer_after, answer_after, ← strap_field, ← Nat.add_assoc]
    exact hret

/-! ### What the resolver maps and publishes -/

theorem write_enable_ich7_spi :
    enable_flash_ich_dc dev_ich7 "Intel ICH7/ICH7R" world_ich7_spi =
      (Outcome.ret 0, write_enabled world_ich7_spi) := by
  decide

theorem write_enable_ich8_spi :
    enable_flash_ich_dc dev_ich8 "Intel ICH8/ICH8R" world_ich8_spi =
      (Outcome.ret 0, write_enabled world_ich8_spi) := by
  decide

theorem resolver_window_lengths (dev : pci_dev) (name : String) (gen : Int) (w : World) :
    ∃ new : List Event,
      (enable_flash_ich_dc_spi dev name gen w).2.trace = w.trace ++ new ∧
      physmap_lengths new = [0x4000] := by
  obtain ⟨r, k0, l0, dbg, post, o, w2, _, hrun, hl0, hdbg, hpost, htr, _, _⟩ :=
    enable_flash_ich_dc_spi_run dev name gen w
  refine ⟨l0 ++ ([Event.pci_read 4 dev.addr 0xf0 (w.answer k0 4)] ++ (dbg ++
    ([Event.physmap "ICH RCRB" (w.answer k0 4 &&& 0xffffc000) 0x4000 (w.answer (k0 + 1) 8)]
      ++ post))), ?_, ?_⟩
  · rw [hrun]
    exact htr
  · simp [physmap_lengths_append, no_physmap_lengths, hl0, hdbg, hpost, physmap_lengths]

theorem resolver_spibar (dev : pci_dev) (name : String) (gen : Int)
    (w : World) (r : Int) (w1 : World) (rcrb : Nat)
    (h1 : enable_flash_ich_dc dev name w = (Outcome.ret r, w1))
    (hmap : w1.answer 1 8 = rcrb) (hrcrb : rcrb ≠ 0)
    (hsel : ¬ (gen = 7 ∧ w1.answer 2 4 / 2 ^ 10 % 4 = 3)) :
    ∃ w2 : World,
      enable_flash_ich_dc_spi dev name gen w = (Outcome.ret r, w2) ∧
      Event.physmap "ICH RCRB" (w1.answer 0 4 &&& 0xffffc000) 0x4000 rcrb ∈ w2.trace ∧
      w2.spibar = rcrb + (if gen = 7 ∨ gen = 8 then 0x3020 else 0x3800) := by
  obtain ⟨_, _, _, _, pre, dbg, post, o, w2, hrun, _, _, hdbg, hpost, htr, _, hret⟩ :=
    enable_flash_ich_dc_spi_after_enable dev name gen w r w1 h1
  subst hmap
  obtain ⟨ho, _, _, hpub⟩ := hret hrcrb
  subst ho
  refine ⟨w2, hrun, ?_, (hpub hsel).2.1⟩
  rw [htr]
  simp

/-- C16: in `enable_flash_ich_dc_spi`, for every generation, if the write enable
step leaves the world `w1` and the 32-bit read of PCI configuration register
0xf0 that follows yields `v`, then the events the run adds after `w1` are that
read, debug output, one mapping of physical memory, at base `v &&& 0xffffc000`,
and events that map nothing; the low 14 bits of that base are zero and its
upper 18 bits are those of `v`. -/
theorem enable_flash_ich_dc_spi_maps_masked_base (dev : pci_dev) (name : String) (gen : Int)
    (w : World) (r : Int) (w1 : World) (v : Nat)
    (h1 : enable_flash_ich_dc dev name w = (Outcome.ret r, w1))
    (hv : w1.answer 0 4 = v) :
    v < 2 ^ 32 ∧
    (v &&& 0xffffc000) % 2 ^ 14 = 0 ∧
    (v &&& 0xffffc000) / 2 ^ 14 = v / 2 ^ 14 ∧
    ∃ (dbg post : List Event) (len virt : Nat),
      no_physmap dbg = true ∧ no_physmap post = true ∧
      (enable_flash_ich_dc_spi dev name gen w).2.trace =
        w1.trace ++ ([Event.pci_read 4 dev.addr 0xf0 v] ++ (dbg ++
          ([Event.physmap "ICH RCRB" (v &&& 0xffffc000) len virt] ++ post))) := by
  obtain ⟨_, _, _, _, pre, dbg, post, o, w2, hrun, _, _, hdbg, hpost, htr, _, _⟩ :=
    enable_flash_ich_dc_spi_after_enable dev name gen w r w1 h1
  subst hv
  refine ⟨answer_lt w1 0 4, rcrb_mask_low _, rcrb_mask_high _ (answer_lt w1 0 4),
    dbg, post, 0x4000, w1.answer 1 8, hdbg, hpost, ?_⟩
  rw [hrun]
  exact htr

theorem enable_flash_ich_dc_spi_maps_masked_base_witness :
    (enable_flash_ich_dc dev_ich7 "Intel ICH7/ICH7R" world_ich7_spi =
        (Outcome.ret 0, write_enabled world_ich7_spi) ∧
      (write_enabled world_ich7_spi).answer 0 4 = 0xfed1c001) ∧
    (0xfed1c001 < 2 ^ 32 ∧
    (0xfed1c001 &&& 0xffffc000) % 2 ^ 14 = 0 ∧
    (0xfed1c001 &&& 0xffffc000) / 2 ^ 14 = 0xfed1c001 / 2 ^ 14 ∧
    ∃ (dbg post : List Event) (len virt : Nat),
      no_physmap dbg = true ∧ no_physmap post = true ∧
      (enable_flash_ich_dc_spi dev_ich7 "Intel ICH7/ICH7R" 7 world_ich7_spi).2.trace =
        (write_enabled world_ich7_spi).trace ++
          ([Event.pci_read 4 dev_ich7.addr 0xf0 0xfed1c001] ++
            (dbg ++ ([Event.physmap "ICH RCRB" (0xfed1c001 &&& 0xffffc000) len virt]
              ++ post)))) :=
  ⟨⟨by decide, by decide⟩,
   enable_flash_ich_dc_spi_maps_masked_base dev_ich7 "Intel ICH7/ICH7R" 7 world_ich7_spi 0
     (write_enabled world_ich7_spi) 0xfed1c001 (by decide) (by decide)⟩

/-- C17, refuted as stated: on systems that give the same answers, the runs of
`enable_flash_ich7` and of `enable_flash_ich8` each map one window, and the
length of the ICH7 window is not smaller than that of the ICH8 window. -/
theorem ich7_window_not_smaller_than_ich8 :
    ∃ a b : Nat,
      physmap_lengths (enable_flash_ich7 dev_ich7 "Intel ICH7/ICH7R" world_ich7_spi).2.trace
        = [a] ∧
      physmap_lengths (enable_flash_ich8 dev_ich8 "Intel ICH8/ICH8R" world_ich8_spi).2.trace
        = [b] ∧
      ¬ a < b :=
  by
  obtain ⟨new7, h7, hl7⟩ :=
    resolver_window_lengths dev_ich7 "Intel ICH7/ICH7R" 7 world_ich7_spi
  obtain ⟨new8, h8, hl8⟩ :=
    resolver_window_lengths dev_ich8 "Intel ICH8/ICH8R" 8 world_ich8_spi
  refine ⟨0x4000, 0x4000, ?_, ?_, by decide⟩
  · unfold enable_flash_ich7
    rw [h7, physmap_lengths_append, hl7]
    rfl
  · unfold enable_flash_ich8
    rw [h8, physmap_lengths_append, hl8]
    rfl

/-- C17, amended: the length `enable_flash_ich_dc_spi` passes to the mapping
primitive does not depend on the generation; for every generation and every
world the run maps exactly one window, of length 0x4000. -/
theorem enable_flash_ich_dc_spi_window_length (dev : pci_dev) (name : String) (gen : Int)
    (w : World) :
    ∃ new : List Event,
      (enable_flash_ich_dc_spi dev name gen w).2.trace = w.trace ++ new ∧
      physmap_lengths new = [0x4000] := by
  exact resolver_window_lengths dev name gen w

/-- C18, refuted as stated: with the control block mapped at the same address
0x10000, the runs for generation 7 and for generation 8 publish the same
`spibar`, 0x10000 + 0x3020; the offset of generation 7 does not differ from the
offset of generation 8. -/
theorem ich7_and_ich8_share_spibar_offset :
    Event.physmap "ICH RCRB" 0xfed1c000 0x4000 0x10000 ∈
      (enable_flash_ich_dc_spi dev_ich7 "Intel ICH7/ICH7R" 7 world_ich7_spi).2.trace ∧
    Event.physmap "ICH RCRB" 0xfed1c000 0x4000 0x10000 ∈
      (enable_flash_ich_dc_spi dev_ich8 "Intel ICH8/ICH8R" 8 world_ich8_spi).2.trace ∧
    (enable_flash_ich_dc_spi dev_ich7 "Intel ICH7/ICH7R" 7 world_ich7_spi).2.spibar =
      0x10000 + 0x3020 ∧
    (enable_flash_ich_dc_spi dev_ich8 "Intel ICH8/ICH8R" 8 world_ich8_spi).2.spibar =
      0x10000 + 0x3020 := by
  obtain ⟨w7, h7, hp7, hs7⟩ := resolver_spibar dev_ich7 "Intel ICH7/ICH7R" 7 world_ich7_spi 0
    (write_enabled world_ich7_spi) 0x10000 write_enable_ich7_spi (by decide) (by decide)
    (by decide)
  obtain ⟨w8, h8, hp8, hs8⟩ := resolver_spibar dev_ich8 "Intel ICH8/ICH8R" 8 world_ich8_spi 0
    (write_enabled world_ich8_spi) 0x10000 write_enable_ich8_spi (by decide) (by decide)
    (by decide)
  have e7 : (write_enabled world_ich7_spi).answer 0 4 &&& 0xffffc000 = 0xfed1c000 := by
    decide
  have e8 : (write_enabled world_ich8_spi).answer 0 4 &&& 0xffffc000 = 0xfed1c000 := by
    decide
  rw [e7] at hp7
  rw [e8] at hp8
  rw [h7, h8]
  exact ⟨hp7, hp8, hs7.trans (by decide), hs8.trans (by decide)⟩

/-- C18, amended: when `enable_flash_ich_dc_spi` selects a bus, with the control
block mapped at `rcrb`, it publishes `spibar = rcrb + 0x3020` for generation 7
and for generation 8 alike, and `spibar = rcrb + 0x3800` for generation 9 and
every other generation. -/
theorem enable_flash_ich_dc_spi_spibar_offset (dev : pci_dev) (name : String) (gen : Int)
    (w : World) (r : Int) (w1 : World) (rcrb : Nat)
    (h1 : enable_flash_ich_dc dev name w = (Outcome.ret r, w1))
    (hmap : w1.answer 1 8 = rcrb) (hrcrb : rcrb ≠ 0)
    (hsel : ¬ (gen = 7 ∧ w1.answer 2 4 / 2 ^ 10 % 4 = 3)) :
    ∃ w2 : World,
      enable_flash_ich_dc_spi dev name gen w = (Outcome.ret r, w2) ∧
      Event.physmap "ICH RCRB" (w1.answer 0 4 &&& 0xffffc000) 0x4000 rcrb ∈ w2.trace ∧
      w2.spibar = rcrb + (if gen = 7 ∨ gen = 8 then 0x3020 else 0x3800) := by
  exact resolver_spibar dev name gen w r w1 rcrb h1 hmap hrcrb hsel

theorem enable_flash_ich_dc_spi_spibar_offset_witness :
    (enable_flash_ich_dc dev_ich9 "Intel ICH9" world_ich9_spi =
        (Outcome.ret 0, write_enabled world_ich9_spi) ∧
      (write_enabled world_ich9_spi).answer 1 8 = 0x10000 ∧
      (0x10000 : Nat) ≠ 0 ∧
      ¬ ((9 : Int) = 7 ∧ (write_enabled world_ich9_spi).answer 2 4 / 2 ^ 10 % 4 = 3)) ∧
    ∃ w2 : World,
      enable_flash_ich_dc_spi dev_ich9 "Intel ICH9" 9 world_ich9_spi = (Outcome.ret 0, w2) ∧
      Event.physmap "ICH RCRB" ((write_enabled world_ich9_spi).answer 0 4 &&& 0xffffc000)
        0x4000 0x10000 ∈ w2.trace ∧
      w2.spibar = 0x10000 + (if (9 : Int) = 7 ∨ (9 : Int) = 8 then 0x3020 else 0x3800) :=
  ⟨⟨by decide, by decide, by decide, by decide⟩,
   enable_flash_ich_dc_spi_spibar_offset dev_ich9 "Intel ICH9" 9 world_ich9_spi 0
     (write_enabled world_ich9_spi) 0x10000
     (by decide) (by decide) (by decide) (by decide)⟩

/-- C19: for generation 7, if the write enable step leaves the world `w1`, the
control block is mapped at `rcrb` and bits 11:10 of the 32-bit `GCS` register
read at `rcrb + 0x3410` equal 3 (LPC), then `enable_flash_ich_dc_spi` returns
the result of the write enable step and `flashbus`, `spibar` and `ichspi_lock`
are what they were before the call. -/
theorem enable_flash_ich_dc_spi_declines_lpc_strap (dev : pci_dev) (name : String)
    (w : World) (r : Int) (w1 : World) (rcrb gcs : Nat)
    (h1 : enable_flash_ich_dc dev name w = (Outcome.ret r, w1))
    (hmap : w1.answer 1 8 = rcrb) (hrcrb : rcrb ≠ 0)
    (hgcs : w1.answer 2 4 = gcs) (hstrap : gcs / 2 ^ 10 % 4 = 3) :
    ∃ w2 : World,
      enable_flash_ich_dc_spi dev name 7 w = (Outcome.ret r, w2) ∧
      Event.physmap "ICH RCRB" (w1.answer 0 4 &&& 0xffffc000) 0x4000 rcrb ∈ w2.trace ∧
      Event.mem_read 4 (rcrb + 0x3410) gcs ∈ w2.trace ∧
      w2.flashbus = w.flashbus ∧ w2.spibar = w.spibar ∧ w2.ichspi_lock = w.ichspi_lock := by
  obtain ⟨_, _, _, _, pre, dbg, post, o, w2, hrun, _, _, hdbg, hpost, htr, _, hret⟩ :=
    enable_flash_ich_dc_spi_after_enable dev name 7 w r w1 h1
  subst hmap hgcs
  obtain ⟨ho, hmem, hdecl, _⟩ := hret hrcrb
  subst ho
  refine ⟨w2, hrun, ?_, ?_, hdecl ⟨rfl, hstrap⟩⟩
  · rw [htr]
    simp
  · rw [htr]
    simp [hmem]

theorem enable_flash_ich_dc_spi_declines_lpc_strap_witness :
    (enable_flash_ich_dc dev_ich7 "Intel ICH7/ICH7R" world_ich7_lpc =
        (Outcome.ret 0, write_enabled world_ich7_lpc) ∧
      (write_enabled world_ich7_lpc).answer 1 8 = 0x10000 ∧
      (0x10000 : Nat) ≠ 0 ∧
      (write_enabled world_ich7_lpc).answer 2 4 = 0xc00 ∧
      0xc00 / 2 ^ 10 % 4 = 3) ∧
    ∃ w2 : World,
      enable_flash_ich_dc_spi dev_ich7 "Intel ICH7/ICH7R" 7 world_ich7_lpc =
        (Outcome.ret 0, w2) ∧
      Event.physmap "ICH RCRB" ((write_enabled world_ich7_lpc).answer 0 4 &&& 0xffffc000)
        0x4000 0x10000 ∈ w2.trace ∧
      Event.mem_read 4 (0x10000 + 0x3410) 0xc00 ∈ w2.trace ∧
      w2.flashbus = world_ich7_lpc.flashbus ∧ w2.spibar = world_ich7_lpc.spibar ∧
      w2.ichspi_lock = world_ich7_lpc.ichspi_lock :=
  ⟨⟨by decide, by decide, by decide, by decide, by decide⟩,
   enable_flash_ich_dc_spi_declines_lpc_strap dev_ich7 "Intel ICH7/ICH7R" world_ich7_lpc 0
     (write_enabled world_ich7_lpc) 0x10000 0xc00
     (by decide) (by decide) (by decide) (by decide) (by decide)⟩

/-- C20: for every generation, if the write enable step leaves the world `w1`,
the control block is mapped at `rcrb`, the call selects a bus (the generation
is not 7, or the straps read from `GCS` are not LPC) and bit 15 of the 16-bit
status word `status` that decides the lock (read at sub-block offset 0 for
generation 7, at offset 4 otherwise) is 1, then `enable_flash_ich_dc_spi`
returns with `ichspi_lock = 1`, `flashbus` the selected bus kind and `spibar`
the address of the sub-block. -/
theorem enable_flash_ich_dc_spi_lock_down_published (dev : pci_dev) (name : String)
    (gen : Int) (w : World) (r : Int) (w1 : World) (rcrb status : Nat)
    (h1 : enable_flash_ich_dc dev name w = (Outcome.ret r, w1))
    (hmap : w1.answer 1 8 = rcrb) (hrcrb : rcrb ≠ 0)
    (hsel : ¬ (gen = 7 ∧ w1.answer 2 4 / 2 ^ 10 % 4 = 3))
    (hstatus : w1.answer (4 + (if gen = 7 ∧ w.verbose = true then 28 else 0)) 2 = status)
    (hbit : status / 2 ^ 15 % 2 = 1) :
    ∃ (w2 : World) (new : List Event),
      enable_flash_ich_dc_spi dev name gen w = (Outcome.ret r, w2) ∧
      w2.trace = w1.trace ++ new ∧
      Event.mem_read 2 (w2.spibar + (if gen = 7 then 0 else 4)) status ∈ new ∧
      w2.ichspi_lock = 1 ∧
      w2.flashbus = (if gen = 7 then flashbus_t.BUS_TYPE_ICH7_SPI
        else flashbus_t.BUS_TYPE_ICH9_SPI) ∧
      w2.spibar = rcrb + (if gen = 7 ∨ gen = 8 then 0x3020 else 0x3800) := by
  obtain ⟨_, _, _, _, pre, dbg, post, o, w2, hrun, _, _, hdbg, hpost, htr, _, hret⟩ :=
    enable_flash_ich_dc_spi_after_enable dev name gen w r w1 h1
  subst hmap hstatus
  obtain ⟨ho, _, _, hpub⟩ := hret hrcrb
  subst ho
  obtain ⟨hbus, hbar, hmem, hlock⟩ := hpub hsel
  refine ⟨w2, _, hrun, htr, ?_, ?_, hbus, hbar⟩
  · simp [hmem]
  · rw [hlock, if_pos (lock_bit _ hbit)]

theorem enable_flash_ich_dc_spi_lock_down_published_witness :
    (enable_flash_ich_dc dev_ich7 "Intel ICH7/ICH7R" world_ich7_spi =
        (Outcome.ret 0, write_enabled world_ich7_spi) ∧
      (write_enabled world_ich7_spi).answer 1 8 = 0x10000 ∧
      (0x10000 : Nat) ≠ 0 ∧
      ¬ ((7 : Int) = 7 ∧ (write_enabled world_ich7_spi).answer 2 4 / 2 ^ 10 % 4 = 3) ∧
      (write_enabled world_ich7_spi).answer
        (4 + (if (7 : Int) = 7 ∧ world_ich7_spi.verbose = true then 28 else 0)) 2 = 0x8000 ∧
      0x8000 / 2 ^ 15 % 2 = 1) ∧
    ∃ (w2 : World) (new : List Event),
      enable_flash_ich_dc_spi dev_ich7 "Intel ICH7/ICH7R" 7 world_ich7_spi =
        (Outcome.ret 0, w2) ∧
      w2.trace = (write_enabled world_ich7_spi).trace ++ new ∧
      Event.mem_read 2 (w2.spibar + (if (7 : Int) = 7 then 0 else 4)) 0x8000 ∈ new ∧
      w2.ichspi_lock = 1 ∧
      w2.flashbus = (if (7 : Int) = 7 then flashbus_t.BUS_TYPE_ICH7_SPI
        else flashbus_t.BUS_TYPE_ICH9_SPI) ∧
      w2.spibar = 0x10000 + (if (7 : Int) = 7 ∨ (7 : Int) = 8 then 0x3020 else 0x3800) :=
  ⟨⟨by decide, by decide, by decide, by decide, by decide, by decide⟩,
   enable_flash_ich_dc_spi_lock_down_published dev_ich7 "Intel ICH7/ICH7R" 7 world_ich7_spi 0
     (write_enabled world_ich7_spi) 0x10000 0x8000
     (by decide) (by decide) (by decide) (by decide) (by decide) (by decide)⟩

/-! ### A mapping that fails, the layouts, the value returned -/

theorem write_enable_ich7_unmapped :
    enable_flash_ich_dc dev_ich7 "Intel ICH7/ICH7R" world_ich7_unmapped =
      (Outcome.ret 0, write_enabled world_ich7_unmapped) := by
  decide

/-- C21, refuted as stated: on an ICH7 whose control block cannot be mapped the
run of `enable_flash_ich_dc_spi` ends in the mapping primitive; it yields no
return value, so nothing is reported to the caller through one. -/
theorem failed_mapping_yields_no_return_value :
    (enable_flash_ich_dc_spi dev_ich7 "Intel ICH7/ICH7R" 7 world_ich7_unmapped).1 =
      Outcome.fatal "ICH RCRB" ∧
    ∀ r : Int,
      (enable_flash_ich_dc_spi dev_ich7 "Intel ICH7/ICH7R" 7 world_ich7_unmapped).1 ≠
        Outcome.ret r := by
  obtain ⟨_, _, _, _, pre, dbg, post, o, w2, hrun, _, _, _, _, _, hfatal, _⟩ :=
    enable_flash_ich_dc_spi_after_enable dev_ich7 "Intel ICH7/ICH7R" 7 world_ich7_unmapped 0
      (write_enabled world_ich7_unmapped) write_enable_ich7_unmapped
  have ho : o = Outcome.fatal "ICH RCRB" := (hfatal (by decide)).1
  rw [hrun, ho]
  exact ⟨rfl, fun r h => Outcome.noConfusion h⟩

/-- C21, amended: when the mapping requested by `enable_flash_ich_dc_spi` cannot
be established (the mapping primitive answers with the null address),
`flashbus`, `spibar` and `ichspi_lock` are left as they were before the call and
the run ends in the mapping primitive, for every generation: the call does not
return, so the failure is not reported through a return value. -/
theorem enable_flash_ich_dc_spi_mapping_failure (dev : pci_dev) (name : String) (gen : Int)
    (w : World) (r : Int) (w1 : World)
    (h1 : enable_flash_ich_dc dev name w = (Outcome.ret r, w1))
    (hfail : w1.answer 1 8 = 0) :
    ∃ w2 : World,
      enable_flash_ich_dc_spi dev name gen w = (Outcome.fatal "ICH RCRB", w2) ∧
      Event.physmap "ICH RCRB" (w1.answer 0 4 &&& 0xffffc000) 0x4000 0 ∈ w2.trace ∧
      w2.flashbus = w.flashbus ∧ w2.spibar = w.spibar ∧ w2.ichspi_lock = w.ichspi_lock := by
  obtain ⟨_, _, _, _, pre, dbg, post, o, w2, hrun, _, _, _, _, htr, hfatal, _⟩ :=
    enable_flash_ich_dc_spi_after_enable dev name gen w r w1 h1
  obtain ⟨ho, hglobals⟩ := hfatal hfail
  subst ho
  refine ⟨w2, hrun, ?_, hglobals⟩
  rw [htr, hfail]
  simp

theorem enable_flash_ich_dc_spi_mapping_failure_witness :
    (enable_flash_ich_dc dev_ich7 "Intel ICH7/ICH7R" world_ich7_unmapped =
        (Outcome.ret 0, write_enabled world_ich7_unmapped) ∧
      (write_enabled world_ich7_unmapped).answer 1 8 = 0) ∧
    ∃ w2 : World,
      enable_flash_ich_dc_spi dev_ich7 "Intel ICH7/ICH7R" 7 world_ich7_unmapped =
        (Outcome.fatal "ICH RCRB", w2) ∧
      Event.physmap "ICH RCRB" ((write_enabled world_ich7_unmapped).answer 0 4 &&& 0xffffc000)
        0x4000 0 ∈ w2.trace ∧
      w2.flashbus = world_ich7_unmapped.flashbus ∧ w2.spibar = world_ich7_unmapped.spibar ∧
      w2.ichspi_lock = world_ich7_unmapped.ichspi_lock :=
  ⟨⟨by decide, by decide⟩,
   enable_flash_ich_dc_spi_mapping_failure dev_ich7 "Intel ICH7/ICH7R" 7 world_ich7_unmapped 0
     (write_enabled world_ich7_unmapped) (by decide) (by decide)⟩

/-- C23: the layout `enable_flash_ich_dc_spi` selects.  With the control block
mapped at `rcrb`, generation 7 not strapped to LPC publishes
`BUS_TYPE_ICH7_SPI` and `spibar = rcrb + 0x3020`, generation 8 publishes
`BUS_TYPE_ICH9_SPI` and `rcrb + 0x3020`, and every other generation (9, 10 and
any other value) publishes `BUS_TYPE_ICH9_SPI` and `rcrb + 0x3800`; the straps
are looked at for generation 7 only. -/
theorem enable_flash_ich_dc_spi_layout_selection (dev : pci_dev) (name : String) (gen : Int)
    (w : World) (r : Int) (w1 : World) (rcrb : Nat)
    (h1 : enable_flash_ich_dc dev name w = (Outcome.ret r, w1))
    (hmap : w1.answer 1 8 = rcrb) (hrcrb : rcrb ≠ 0)
    (hstrap : gen = 7 → w1.answer 2 4 / 2 ^ 10 % 4 ≠ 3) :
    ∃ w2 : World,
      enable_flash_ich_dc_spi dev name gen w = (Outcome.ret r, w2) ∧
      (gen = 7 → w2.flashbus = flashbus_t.BUS_TYPE_ICH7_SPI ∧ w2.spibar = rcrb + 0x3020) ∧
      (gen = 8 → w2.flashbus = flashbus_t.BUS_TYPE_ICH9_SPI ∧ w2.spibar = rcrb + 0x3020) ∧
      (gen ≠ 7 → gen ≠ 8 →
        w2.flashbus = flashbus_t.BUS_TYPE_ICH9_SPI ∧ w2.spibar = rcrb + 0x3800) := by
  obtain ⟨_, _, _, _, pre, dbg, post, o, w2, hrun, _, _, _, _, _, _, hret⟩ :=
    enable_flash_ich_dc_spi_after_enable dev name gen w r w1 h1
  subst hmap
  obtain ⟨ho, _, _, hpub⟩ := hret hrcrb
  subst ho
  obtain ⟨hbus, hbar, _, _⟩ := hpub (fun h => hstrap h.1 h.2)
  refine ⟨w2, hrun, ?_, ?_, ?_⟩
  · intro h7
    rw [hbus, hbar]
    simp [h7]
  · intro h8
    rw [hbus, hbar]
    simp [h8]
  · intro h7 h8
    rw [hbus, hbar]
    simp [h7, h8]

theorem enable_flash_ich_dc_spi_layout_selection_witness :
    (enable_flash_ich_dc dev_ich8 "Intel ICH8/ICH8R" world_ich8_lpc =
        (Outcome.ret 0, write_enabled world_ich8_lpc) ∧
      (write_enabled world_ich8_lpc).answer 1 8 = 0x10000 ∧
      (0x10000 : Nat) ≠ 0 ∧
      (write_enabled world_ich8_lpc).answer 2 4 / 2 ^ 10 % 4 = 3 ∧
      ((8 : Int) = 7 → (write_enabled world_ich8_lpc).answer 2 4 / 2 ^ 10 % 4 ≠ 3)) ∧
    ∃ w2 : World,
      enable_flash_ich_dc_spi dev_ich8 "Intel ICH8/ICH8R" 8 world_ich8_lpc =
        (Outcome.ret 0, w2) ∧
      ((8 : Int) = 7 →
        w2.flashbus = flashbus_t.BUS_TYPE_ICH7_SPI ∧ w2.spibar = 0x10000 + 0x3020) ∧
      ((8 : Int) = 8 →
        w2.flashbus = flashbus_t.BUS_TYPE_ICH9_SPI ∧ w2.spibar = 0x10000 + 0x3020) ∧
      ((8 : Int) ≠ 7 → (8 : Int) ≠ 8 →
        w2.flashbus = flashbus_t.BUS_TYPE_ICH9_SPI ∧ w2.spibar = 0x10000 + 0x3800) :=
  ⟨⟨by decide, by decide, by decide, by decide, by decide⟩,
   enable_flash_ich_dc_spi_layout_selection dev_ich8 "Intel ICH8/ICH8R" 8 world_ich8_lpc 0
     (write_enabled world_ich8_lpc) 0x10000 (by decide) (by decide) (by decide) (by decide)⟩

/-- C29: the value `enable_flash_ich_dc_spi` returns.  For every generation and
every world the write enable step `enable_flash_ich(dev, name, 0xdc)` returns
some `r`, which is 0 or -1, and the resolver returns exactly that `r` whenever
the mapping of the control block is established, whatever the straps, the
lock-down bit and the state published; when the mapping fails the run ends in
the mapping primitive. -/
theorem enable_flash_ich_dc_spi_returns_write_enable_result (dev : pci_dev) (name : String)
    (gen : Int) (w : World) :
    ∃ (r : Int) (w1 : World),
      enable_flash_ich dev name 0xdc w = (Outcome.ret r, w1) ∧
      (r = 0 ∨ r = -1) ∧
      (enable_flash_ich_dc_spi dev name gen w).1 =
        (if w1.answer 1 8 = 0 then Outcome.fatal "ICH RCRB" else Outcome.ret r) := by
  obtain ⟨r, k, l, hr, _, h1⟩ := enable_flash_ich_effect dev name 0xdc w
  obtain ⟨_, _, _, _, pre, dbg, post, o, w2, hrun, _, _, _, _, _, hfatal, hret⟩ :=
    enable_flash_ich_dc_spi_after_enable dev name gen w r _ h1
  refine ⟨r, _, h1, hr, ?_⟩
  rw [hrun]
  by_cases hm : (w.after k l w.flashbus w.spibar w.ichspi_lock).answer 1 8 = 0
  · rw [if_pos hm]
    exact (hfatal hm).1
  · rw [if_neg hm]
    exact (hret hm).1

/-! ## The unlock operation `enable_flash_ich` -/

theorem or_one_eq (x : Nat) : x ||| 1 = 2 * (x / 2) + 1 := by
  apply Nat.eq_of_testBit_eq
  intro i
  cases i with
  | zero =>
    simp only [Nat.testBit_or, Nat.testBit_zero]
    have : (2 * (x / 2) + 1) % 2 = 1 := by omega
    simp [this]
  | succ j =>
    have h1 : (2 * (x / 2) + 1) / 2 = x / 2 := by omega
    rw [Nat.testBit_or, Nat.testBit_succ x, Nat.testBit_succ 1,
      Nat.testBit_succ (2 * (x / 2) + 1), h1]
    simp

theorem or_one_fixed (x : Nat) : x ||| 1 = x ↔ x % 2 = 1 := by
  rw [or_one_eq]
  omega

/-- C24: `enable_flash_ich` reads, sets bit 0, writes and reads back, once.  With
`old` the byte read from configuration register `reg`: when bit 0 of `old` is 1
it returns 0 and records no write; otherwise it writes `old ||| 1` to `reg`
once, reads `reg` back once and returns 0 when the byte read back is
`old ||| 1` and -1, after a warning, when it is not.  The value written has
bit 0 set and its bits 1 to 7 are those of `old`. -/
theorem enable_flash_ich_read_set_write_read_back (dev : pci_dev) (name : String) (reg : Nat)
    (w : World) :
    (w.answer 0 1 ||| 1) % 2 = 1 ∧
    (w.answer 0 1 ||| 1) / 2 = w.answer 0 1 / 2 ∧
    w.answer 0 1 ||| 1 < 256 ∧
    enable_flash_ich dev name reg w =
      if w.answer 0 1 % 2 = 1 then
        (Outcome.ret 0,
         { w with
             input := w.input.drop 1,
             trace := w.trace ++ [Event.pci_read 1 dev.addr reg (w.answer 0 1)] ++
               bios_cntl_debug w.verbose (w.answer 0 1) })
      else
        (Outcome.ret (if w.answer 1 1 = w.answer 0 1 ||| 1 then 0 else -1),
         { w with
             input := w.input.drop 2,
             trace := w.trace ++ [Event.pci_read 1 dev.addr reg (w.answer 0 1)] ++
               bios_cntl_debug w.verbose (w.answer 0 1) ++
               [Event.pci_write 1 dev.addr reg (w.answer 0 1 ||| 1),
                Event.pci_read 1 dev.addr reg (w.answer 1 1)] ++
               (if w.answer 1 1 = w.answer 0 1 ||| 1 then []
                else [Event.printf
                  "tried to set 0x%x to 0x%x on %s failed (WARNING ONLY)\n"
                  [Arg.u reg, Arg.u (w.answer 0 1 ||| 1), Arg.s name]]) }) := by
  have hlt : w.answer 0 1 < 256 := answer_lt w 0 1
  have hor := or_one_eq (w.answer 0 1)
  have hmod : (w.answer 0 1 ||| 1) % 256 = w.answer 0 1 ||| 1 := by
    rw [hor]; omega
  refine ⟨by rw [hor]; omega, by rw [hor]; omega, by rw [hor]; omega, ?_⟩
  suffices h : ∀ w0, w0 = w.after 0 [] w.flashbus w.spibar w.ichspi_lock →
      enable_flash_ich dev name reg w0 = _ from h w (World.after_zero w).symm
  intro w0 hw0
  subst hw0
  unfold enable_flash_ich
  simp only [bind_apply, pci_read_byte, pci_write_byte, printf, request_after, emit_after,
    printf_debug_after]
  by_cases hc : w.answer 0 1 ||| 1 = w.answer 0 1
  · have hodd : w.answer 0 1 % 2 = 1 := (or_one_fixed _).mp hc
    simp only [hc, hodd, if_true, pure_after]
    cases hv : w.verbose <;> simp [World.after, bios_cntl_debug, hv]
  · have hodd : ¬ w.answer 0 1 % 2 = 1 := fun h => hc ((or_one_fixed _).mpr h)
    simp only [hc, hodd, if_false, bind_apply, pure_after, request_after, emit_after, hmod]
    by_cases hr : w.answer (0 + 1) 1 = w.answer 0 1 ||| 1
    · simp only [hr, ne_eq, not_true_eq_false, if_false, bind_apply, pure_after]
      have hr1 : w.answer 1 1 = w.answer 0 1 ||| 1 := by simpa using hr
      cases hv : w.verbose <;> simp [World.after, bios_cntl_debug, hv, hr1]
    · simp only [hr, ne_eq, not_false_eq_true, if_true, bind_apply, pure_after, emit_after]
      have hr1 : ¬ w.answer 1 1 = w.answer 0 1 ||| 1 := by simpa using hr
      cases hv : w.verbose <;> simp [World.after, bios_cntl_debug, hv, hr1]

/-! ## The Geode unlock `enable_flash_cs5536` -/

/-- C25, the code at the failing input: on a Geode whose MSR 0x1808 reads with
top byte 0x25, `enable_flash_cs5536` succeeds and the eight bytes it writes back
to MSR 0x1808 have top byte 0x21, the byte read with bit 2 cleared, not 0x22. -/
theorem enable_flash_cs5536_writes_top_byte_0x21 :
    enable_flash_cs5536 dev_cs5536 "AMD CS5536" world_cs5536 =
      (Outcome.ret 0,
       { world_cs5536 with
           input := [],
           trace :=
            [Event.syscall "open" [] 3,
             Event.syscall "lseek64" [3, 0x1808] 0,
             Event.syscall "read" [3, 8, 0, 0, 0, 0, 0, 0, 0, 0x25] 8,
             Event.syscall "lseek64" [3, 0x1808] 0,
             Event.syscall "write" [3, 8, 0, 0, 0, 0, 0, 0, 0, 0x21] 8,
             Event.syscall "lseek64" [3, 0x51400018] 0,
             Event.syscall "read" [3, 8, 0, 0, 0, 0, 0, 0, 0, 0] 8,
             Event.syscall "lseek64" [3, 0x51400018] 0,
             Event.syscall "write" [3, 8, 8, 0, 0, 0, 0, 0, 0, 0] 8,
             Event.syscall "close" [3] 0] }) := by
  decide

/-! ## The flash base of the Elan SC520, `get_flashbase_sc520` -/

theorem syscall_after (fn : String) (args : List Int) (k : Nat) (w : World) (l : List Event)
    (bus : flashbus_t) (bar : Nat) (lock : Int) :
    syscall fn args (w.after k l bus bar lock) =
      (Outcome.ret (w.input.getD k 0),
       w.after (k + 1) (l ++ [Event.syscall fn args (w.input.getD k 0)]) bus bar lock) := by
  simp [syscall, World.after, List.tail_drop, List.getD_eq_getElem?_getD]

theorem bit_set_iff (x i : Nat) : x &&& (1 <<< i) ≠ 0 ↔ x / 2 ^ i % 2 = 1 := by
  constructor
  · intro h
    by_contra hne
    apply h
    apply Nat.eq_of_testBit_eq
    intro j
    rw [Nat.testBit_and, Nat.one_shiftLeft, Nat.testBit_two_pow, Nat.zero_testBit]
    by_cases hj : i = j
    · subst hj
      rw [Nat.testBit_to_div_mod]
      simp [hne]
    · simp [hj]
  · intro h h0
    have ht : (x &&& (1 <<< i)).testBit i = true := by
      rw [Nat.testBit_and, Nat.one_shiftLeft, Nat.testBit_two_pow_self,
        Nat.testBit_to_div_mod, h]
      rfl
    rw [h0, Nat.zero_testBit] at ht
    exact Bool.noConfusion ht

theorem sc520_scan_after (mmcr : Nat) (offs : List Nat) (p0 k : Nat) (w : World)
    (l : List Event) (bus : flashbus_t) (bar : Nat) (lock : Int) :
    ∃ (b : Bool) (p : Nat),
      sc520_scan mmcr offs p0 (w.after k l bus bar lock) =
        (Outcome.ret (b, p),
         w.after (k + scanned ((List.range offs.length).map (fun i => w.answer (k + i) 4)))
           (l ++ ((offs.zip ((List.range offs.length).map (fun i => w.answer (k + i) 4))).take
              (scanned ((List.range offs.length).map (fun i => w.answer (k + i) 4)))).map
                (fun x => Event.mem_read 4 (mmcr + x.1) x.2))
           bus bar lock) ∧
      ((List.range offs.length).map (fun i => w.answer (k + i) 4)).find? bootcs =
        (if b = true then some p else none) := by
  induction offs generalizing p0 k l with
  | nil =>
    refine ⟨false, p0, ?_, rfl⟩
    simp [sc520_scan, scanned, pure_after]
  | cons i rest ih =>
    have hvals : (List.range (i :: rest).length).map (fun j => w.answer (k + j) 4) =
        w.answer k 4 :: (List.range rest.length).map (fun j => w.answer (k + 1 + j) 4) := by
      simp only [List.length_cons, List.range_succ_eq_map, List.map_cons, List.map_map,
        Nat.add_zero]
      congr 1
      apply List.map_congr_left
      intro j _
      simp only [Function.comp, Nat.succ_eq_add_one]
      congr 1
      omega
    rw [hvals]
    unfold sc520_scan
    simp only [bind_apply, mem_read, request_after]
    by_cases hb : w.answer k 4 >>> 29 = 4
    · have hb2 : bootcs (w.answer k 4) = true := by
        rw [Nat.shiftRight_eq_div_pow] at hb
        exact decide_eq_true hb
      refine ⟨true, w.answer k 4, ?_, ?_⟩
      · simp [hb, scanned, hb2, pure_after]
      · simp [List.find?, hb2]
    · have hb2 : bootcs (w.answer k 4) = false := by
        rw [Nat.shiftRight_eq_div_pow] at hb
        exact decide_eq_false hb
      obtain ⟨b, p, hrun, hfind⟩ := ih (w.answer k 4) (k + 1)
        (l ++ [Event.mem_read 4 (mmcr + i) (w.answer k 4)])
      refine ⟨b, p, ?_, ?_⟩
      · simp only [hb, if_false, bind_apply, pure_after, hrun, scanned, hb2,
          Bool.false_eq_true, List.zip_cons_cons, List.take_succ_cons, List.map_cons,
          List.append_assoc, List.singleton_append]
        rw [Nat.add_assoc k 1, Nat.add_comm 1]
      · simp only [List.find?, hb2]
        exact hfind

theorem sc520_scan_at (mmcr : Nat) (offs : List Nat) (p0 : Nat) (W : World) (k : Nat)
    (w : World) (l : List Event) (bus : flashbus_t) (bar : Nat) (lock : Int)
    (hW : w.after k l bus bar lock = W) :
    ∃ (b : Bool) (p : Nat),
      sc520_scan mmcr offs p0 W =
        (Outcome.ret (b, p),
         w.after (k + scanned ((List.range offs.length).map (fun i => w.answer (k + i) 4)))
           (l ++ ((offs.zip ((List.range offs.length).map (fun i => w.answer (k + i) 4))).take
              (scanned ((List.range offs.length).map (fun i => w.answer (k + i) 4)))).map
                (fun x => Event.mem_read 4 (mmcr + x.1) x.2))
           bus bar lock) ∧
      ((List.range offs.length).map (fun i => w.answer (k + i) 4)).find? bootcs =
        (if b = true then some p else none) := by
  subst hW
  exact sc520_scan_after mmcr offs p0 k w l bus bar lock

theorem syscall_apply (fn : String) (args : List Int) (w : World) :
    syscall fn args w =
      (Outcome.ret (w.input.headD 0),
       { w with input := w.input.tail,
                trace := w.trace ++ [Event.syscall fn args (w.input.headD 0)] }) := rfl

theorem set_flashbase_apply (v : Nat) (w : World) :
    set_flashbase v w = (Outcome.ret (), { w with flashbase := v }) := rfl

theorem par_base_16 (p : Nat) :
    ((p &&& ((1 <<< 14) - 1)) <<< 16) % 2 ^ 32 = p % 2 ^ 14 * 2 ^ 16 := by
  rw [Nat.one_shiftLeft, Nat.and_pow_two_sub_one_eq_mod, Nat.shiftLeft_eq]
  have h : p % 2 ^ 14 < 2 ^ 14 := Nat.mod_lt _ (by norm_num)
  omega

theorem par_base_12 (p : Nat) :
    ((p &&& ((1 <<< 18) - 1)) <<< 12) % 2 ^ 32 = p % 2 ^ 18 * 2 ^ 12 := by
  rw [Nat.one_shiftLeft, Nat.and_pow_two_sub_one_eq_mod, Nat.shiftLeft_eq]
  have h : p % 2 ^ 18 < 2 ^ 18 := Nat.mod_lt _ (by norm_num)
  omega

/-- C26: `get_flashbase_sc520` takes the flash base from the first `BOOTCS`
register.  With the `MMCR` block mapped at `mmcr`, it reads `PAR0` (offset 0x88)
to `PAR15` (offset 0xc4) in steps of 4, up to and including the first value whose
bits 31:29 are 100b, and no further.  From that value `p` it sets
`flashbase = (p % 2^14) * 2^16` when bit 25 of `p` is 1 and
`flashbase = (p % 2^18) * 2^12` when it is 0; when none of the sixteen values
qualifies it prints a note and leaves `flashbase` as it was.  It unmaps the
block and returns 0 in every case. -/
theorem get_flashbase_sc520_uses_first_bootcs (dev : pci_dev) (name : String) (w : World)
    (mmcr : Nat) (hmap : w.answer 1 8 = mmcr) (hmmcr : mmcr ≠ 0) :
    ∃ w2 : World,
      get_flashbase_sc520 dev name w = (Outcome.ret 0, w2) ∧
      w2.flashbase =
        (match (par_values w).find? bootcs with
         | some p =>
           if p / 2 ^ 25 % 2 = 1 then p % 2 ^ 14 * 2 ^ 16 else p % 2 ^ 18 * 2 ^ 12
         | none => w.flashbase) ∧
      w2.trace = w.trace ++
        [Event.syscall "getpagesize" [] (w.input.getD 0 0),
         Event.physmap "Elan SC520 MMCR" 0xfffef000 (w.input.getD 0 0 % 2 ^ 64).toNat mmcr] ++
        (((List.range' 0x88 16 4).zip (par_values w)).take (scanned (par_values w))).map
          (fun x => Event.mem_read 4 (mmcr + x.1) x.2) ++
        (if ((par_values w).find? bootcs).isSome then []
         else [Event.printf
           "AMD Elan SC520 detected, but no BOOTCS. Assuming flash at 4G\n" []]) ++
        [Event.syscall "getpagesize" [] (w.input.getD (2 + scanned (par_values w)) 0),
         Event.munmap mmcr
           (w.input.getD (2 + scanned (par_values w)) 0 % 2 ^ 64).toNat] := by
  have hmap1 : w.answer (0 + 1) 8 = mmcr := hmap
  have hpv : List.map (fun i => w.answer (0 + 1 + 1 + i) 4)
      (List.range (List.range' 0x88 16 4).length) = par_values w := rfl
  generalize hX : get_flashbase_sc520 dev name w = X
  rw [← World.after_zero w] at hX
  unfold get_flashbase_sc520 at hX
  simp only [bind_apply, getpagesize, syscall_after, physmap_after, hmap1, hmmcr, if_false]
    at hX
  generalize hW : w.after (0 + 1 + 1) _ _ _ _ = W at hX
  obtain ⟨b, p, hscan, hfind⟩ := sc520_scan_at mmcr (List.range' 0x88 16 4) 0 W _ _ _ _ _ _ hW
  rw [hpv] at hscan hfind
  simp only [hscan] at hX
  cases b with
  | true =>
    simp only [if_true] at hfind hX
    by_cases hbit : p &&& 1 <<< 25 ≠ 0
    · have hbit2 : p / 2 ^ 25 % 2 = 1 := (bit_set_iff p 25).mp hbit
      rw [if_pos hbit] at hX
      simp only [bind_apply, set_flashbase_apply, syscall_apply, munmap,
        emit_apply, pure_after, par_base_16] at hX
      subst hX
      refine ⟨_, rfl, ?_, ?_⟩
      · simp only [hfind, if_pos hbit2]
      · simp [hfind, World.after, List.getD_eq_getElem?_getD]
    · have hbit2 : ¬ p / 2 ^ 25 % 2 = 1 := fun h => hbit ((bit_set_iff p 25).mpr h)
      rw [if_neg hbit] at hX
      simp only [bind_apply, set_flashbase_apply, syscall_apply, munmap,
        emit_apply, pure_after, par_base_12] at hX
      subst hX
      refine ⟨_, rfl, ?_, ?_⟩
      · simp only [hfind, if_neg hbit2]
      · simp [hfind, World.after, List.getD_eq_getElem?_getD]
  | false =>
    simp only [Bool.false_eq_true, if_false] at hfind hX
    simp only [bind_apply, printf_apply, syscall_apply, munmap, emit_apply, pure_after] at hX
    subst hX
    refine ⟨_, rfl, ?_, ?_⟩
    · simp [hfind, World.after]
    · simp [hfind, World.after, List.getD_eq_getElem?_getD]

theorem get_flashbase_sc520_uses_first_bootcs_witness :
    (world_sc520.answer 1 8 = 0x20000 ∧ (0x20000 : Nat) ≠ 0) ∧
    ∃ w2 : World,
      get_flashbase_sc520 dev_sc520 "AMD Elan SC520" world_sc520 = (Outcome.ret 0, w2) ∧
      w2.flashbase =
        (match (par_values world_sc520).find? bootcs with
         | some p =>
           if p / 2 ^ 25 % 2 = 1 then p % 2 ^ 14 * 2 ^ 16 else p % 2 ^ 18 * 2 ^ 12
         | none => world_sc520.flashbase) ∧
      w2.trace = world_sc520.trace ++
        [Event.syscall "getpagesize" [] (world_sc520.input.getD 0 0),
         Event.physmap "Elan SC520 MMCR" 0xfffef000
           (world_sc520.input.getD 0 0 % 2 ^ 64).toNat 0x20000] ++
        (((List.range' 0x88 16 4).zip (par_values world_sc520)).take
          (scanned (par_values world_sc520))).map
            (fun x => Event.mem_read 4 (0x20000 + x.1) x.2) ++
        (if ((par_values world_sc520).find? bootcs).isSome then []
         else [Event.printf
           "AMD Elan SC520 detected, but no BOOTCS. Assuming flash at 4G\n" []]) ++
        [Event.syscall "getpagesize" []
           (world_sc520.input.getD (2 + scanned (par_values world_sc520)) 0),
         Event.munmap 0x20000
           (world_sc520.input.getD (2 + scanned (par_values world_sc520)) 0 % 2 ^ 64).toNat] :=
  ⟨⟨by decide, by decide⟩,
   get_flashbase_sc520_uses_first_bootcs dev_sc520 "AMD Elan SC520" world_sc520 0x20000
     (by decide) (by decide)⟩

theorem get_flashbase_sc520_at_world_sc520 :
    get_flashbase_sc520 dev_sc520 "AMD Elan SC520" world_sc520 =
      (Outcome.ret 0,
       { world_sc520 with
           input := [],
           flashbase := 0x120000,
           trace :=
            [Event.syscall "getpagesize" [] 4096,
             Event.physmap "Elan SC520 MMCR" 0xfffef000 4096 0x20000,
             Event.mem_read 4 0x20088 0,
             Event.mem_read 4 0x2008c 0x8a000012,
             Event.syscall "getpagesize" [] 4096,
             Event.munmap 0x20000 4096] }) := by
  decide

/-! ## The shipped mainboard registry -/

theorem registry_firmware_key_pairwise :
    board_pciid_enables.Pairwise
      (fun a b => same_firmware_key a b = false ∧ same_firmware_key b a = false) := by
  decide

/-- C22: in the shipped registry `board_pciid_enables` the firmware name and the
primary PCI id identify one entry: no two entries at different positions both
carry a firmware name, agree in `(first_vendor, first_device)` and have
`lb_vendor` and `lb_part` equal without regard to case. -/
theorem board_pciid_enables_firmware_key_unique (i j : Nat)
    (hi : i < board_pciid_enables.length) (hj : j < board_pciid_enables.length)
    (hij : i ≠ j) :
    same_firmware_key board_pciid_enables[i] board_pciid_enables[j] = false := by
  have hp := List.pairwise_iff_getElem.mp registry_firmware_key_pairwise
  rcases Nat.lt_or_gt_of_ne hij with h | h
  · exact (hp i j hi hj h).1
  · exact (hp j i hj hi h).2

theorem board_pciid_enables_firmware_key_unique_witness :
    (22 < board_pciid_enables.length ∧ 23 < board_pciid_enables.length ∧ 22 ≠ 23) ∧
    board_pciid_enables[22]? = some board_kontron_first ∧
    board_pciid_enables[23]? = some board_kontron_second ∧
    same_firmware_key (board_pciid_enables.get ⟨22, by decide⟩)
      (board_pciid_enables.get ⟨23, by decide⟩) = false :=
  ⟨⟨by decide, by decide, by decide⟩, by decide, by decide,
   board_pciid_enables_firmware_key_unique 22 23 (by decide) (by decide) (by decide)⟩

theorem registry_part_clash_pairwise :
    board_pciid_enables.Pairwise
      (fun a b => same_firmware_part a b = true →
        a = board_kontron_first ∧ b = board_kontron_second) := by
  decide

theorem registry_parts_nul_free :
    ∀ b ∈ board_pciid_enables, ∀ p, b.lb_part = some p → nul_free p = true := by
  decide

theorem registry_no_empty_vendor :
    ∀ b ∈ board_pciid_enables, vendor_matches (some "") b = false := by
  decide

theorem char_eq_of_toNat_eq (c d : Char) (h : (c.toNat : Int) - (d.toNat : Int) = 0) :
    c = d := by
  have h2 : c.toNat = d.toNat := by omega
  rw [← Char.ofNat_toNat c, ← Char.ofNat_toNat d, h2]

theorem strcasecmp_chars_join (c a b : List Char)
    (ha : ∀ x ∈ a, x.toLower.toNat ≠ 0) (hb : ∀ x ∈ b, x.toLower.toNat ≠ 0)
    (h1 : strcasecmp_chars a c = 0) (h2 : strcasecmp_chars b c = 0) :
    strcasecmp_chars a b = 0 := by
  induction c generalizing a b with
  | nil =>
    cases a with
    | cons x xs =>
      simp only [strcasecmp_chars] at h1
      exact absurd (by omega) (ha x (List.mem_cons_self _ _))
    | nil =>
      cases b with
      | cons y ys =>
        simp only [strcasecmp_chars] at h2
        exact absurd (by omega) (hb y (List.mem_cons_self _ _))
      | nil => rfl
  | cons z zs ih =>
    cases a with
    | nil =>
      simp only [strcasecmp_chars] at h1
      have hz : z.toLower.toNat = 0 := by omega
      cases b with
      | nil => rfl
      | cons y ys =>
        simp only [strcasecmp_chars] at h2
        split at h2
        · rename_i hyz
          exact absurd (by rw [hyz]; exact hz) (hb y (List.mem_cons_self _ _))
        · exact absurd (by omega) (hb y (List.mem_cons_self _ _))
    | cons x xs =>
      simp only [strcasecmp_chars] at h1
      split at h1
      · rename_i hxz
        cases b with
        | nil =>
          simp only [strcasecmp_chars] at h2
          have hz : z.toLower.toNat = 0 := by omega
          exact absurd (by rw [hxz]; exact hz) (ha x (List.mem_cons_self _ _))
        | cons y ys =>
          simp only [strcasecmp_chars] at h2
          split at h2
          · rename_i hyz
            simp only [strcasecmp_chars, hxz.trans hyz.symm, if_true]
            exact ih xs ys (fun c hc => ha c (List.mem_cons_of_mem _ hc))
              (fun c hc => hb c (List.mem_cons_of_mem _ hc)) h1 h2
          · rename_i hyz
            exact absurd (char_eq_of_toNat_eq _ _ h2) hyz
      · rename_i hxz
        exact absurd (char_eq_of_toNat_eq _ _ h1) hxz

theorem same_firmware_part_of_candidates (devices : List pci_dev) (part : String)
    (a b : board_pciid_enable) (ha_mem : a ∈ board_pciid_enables)
    (hb_mem : b ∈ board_pciid_enables)
    (ha : name_candidate devices none part a = true)
    (hb : name_candidate devices none part b = true) :
    same_firmware_part a b = true := by
  simp only [name_candidate, Bool.and_eq_true] at ha hb
  have hpa := ha.1.1.2
  have hpb := hb.1.1.2
  unfold part_matches at hpa hpb
  unfold same_firmware_part
  cases hla : a.lb_part with
  | none => simp [hla] at hpa
  | some pa =>
    cases hlb : b.lb_part with
    | none => simp [hlb] at hpb
    | some pb =>
      simp only [hla, decide_eq_true_eq] at hpa
      simp only [hlb, decide_eq_true_eq] at hpb
      have hna := registry_parts_nul_free a ha_mem pa hla
      have hnb := registry_parts_nul_free b hb_mem pb hlb
      simp only [nul_free, List.all_eq_true, decide_eq_true_eq] at hna hnb
      simp only [decide_eq_true_eq]
      exact strcasecmp_chars_join part.toList pa.toList pb.toList hna hnb hpa hpb

theorem loop_no_candidate (vendor : Option String) (part : String)
    (tbl : List board_pciid_enable) (w : World)
    (h : tbl.filter (name_candidate w.devices vendor part) = []) :
    board_match_coreboot_name_in tbl vendor part w =
      (Outcome.ret none,
       { w with trace := w.trace ++
          [Event.printf "\nUnknown vendor:board from coreboot table or -m option: %s:%s\n\n"
            [Arg.sp vendor, Arg.s part]] }) := by
  unfold board_match_coreboot_name_in
  rw [loop_filter, h, board_match_coreboot_name_loop.eq_def]
  rfl

/-- C27: with the shipped registry a part-name-only lookup never reports an
ambiguity between two vendors.  For every world and part, when
`board_match_coreboot_name(NULL, part)` prints the ambiguity report naming the
vendors `v1` and `v2`, the entries in conflict are the two Kontron 986LCD-M
entries, in the order of the table, and `v1 = v2`; the reason is that no other
two entries of the registry have `lb_part` strings equal without regard to
case. -/
theorem part_only_ambiguity_names_one_vendor (w : World) (part : String)
    (v1 v2 : Option String)
    (h : (board_match_coreboot_name none part w).2.trace = w.trace ++
      [Event.printf "AMBIGUOUS BOARD NAME: %s\n" [Arg.s part],
       Event.printf "At least vendors \x27%s\x27 and \x27%s\x27 match.\n" [Arg.sp v1, Arg.sp v2],
       Event.printf "Please use the full -m vendor:part syntax.\n" []]) :
    board_pciid_enables.Pairwise
      (fun a b => same_firmware_part a b = true →
        a = board_kontron_first ∧ b = board_kontron_second) ∧
    (∃ rest : List board_pciid_enable,
      board_pciid_enables.filter (name_candidate w.devices none part) =
        board_kontron_first :: board_kontron_second :: rest) ∧
    v1 = board_kontron_first.lb_vendor ∧ v2 = board_kontron_second.lb_vendor ∧
    v1 = v2 := by
  refine ⟨registry_part_clash_pairwise, ?_⟩
  unfold board_match_coreboot_name at h
  rcases hcs : board_pciid_enables.filter (name_candidate w.devices none part)
    with _ | ⟨b1, _ | ⟨b2, rest⟩⟩
  · rw [loop_no_candidate none part _ w hcs] at h
    have := congrArg List.length h
    simp at this
  · rw [loop_single_candidate none part _ w b1 hcs] at h
    have := congrArg List.length h
    simp at this
  · rw [loop_ambiguous part _ w b1 b2 rest hcs] at h
    simp only [after_ambiguity_report, List.append_cancel_left_eq, List.cons.injEq,
      Event.printf.injEq, Arg.sp.injEq, and_true, true_and] at h
    have hsub : List.Sublist [b1, b2] board_pciid_enables := by
      have h1 : List.Sublist [b1, b2] (b1 :: b2 :: rest) :=
        List.Sublist.cons₂ _ (List.Sublist.cons₂ _ (List.nil_sublist _))
      rw [← hcs] at h1
      exact h1.trans (List.filter_sublist _)
    have hm1 : b1 ∈ board_pciid_enables.filter (name_candidate w.devices none part) := by
      rw [hcs]; simp
    have hm2 : b2 ∈ board_pciid_enables.filter (name_candidate w.devices none part) := by
      rw [hcs]; simp
    have hc1 := List.mem_filter.mp hm1
    have hc2 := List.mem_filter.mp hm2
    have hclash := same_firmware_part_of_candidates w.devices part b1 b2 hc1.1 hc2.1
      hc1.2 hc2.2
    have hk := List.pairwise_iff_forall_sublist.mp registry_part_clash_pairwise hsub hclash
    obtain ⟨hb1, hb2⟩ := hk
    subst hb1 hb2
    exact ⟨⟨rest, rfl⟩, h.1.symm, h.2.symm, by rw [← h.1, ← h.2]; rfl⟩

theorem part_only_ambiguity_names_one_vendor_witness :
    ((board_match_coreboot_name none "986lcd-m" world_kontron_both).2.trace =
      world_kontron_both.trace ++
      [Event.printf "AMBIGUOUS BOARD NAME: %s\n" [Arg.s "986lcd-m"],
       Event.printf "At least vendors \x27%s\x27 and \x27%s\x27 match.\n"
         [Arg.sp (some "kontron"), Arg.sp (some "kontron")],
       Event.printf "Please use the full -m vendor:part syntax.\n" []]) ∧
    (board_pciid_enables.Pairwise
      (fun a b => same_firmware_part a b = true →
        a = board_kontron_first ∧ b = board_kontron_second) ∧
    (∃ rest : List board_pciid_enable,
      board_pciid_enables.filter (name_candidate world_kontron_both.devices none "986lcd-m") =
        board_kontron_first :: board_kontron_second :: rest) ∧
    some "kontron" = board_kontron_first.lb_vendor ∧
    some "kontron" = board_kontron_second.lb_vendor ∧
    (some "kontron" : Option String) = some "kontron") :=
  ⟨by decide,
   part_only_ambiguity_names_one_vendor world_kontron_both "986lcd-m" (some "kontron")
     (some "kontron") (by decide)⟩

/-- C28: an empty vendor string is a vendor, not the absence of one.  Every
entry of the shipped registry has no `lb_vendor` or one that is not empty and
does not compare equal to the empty string, so for every part and every world
`board_match_coreboot_name("", part)` finds no candidate: it prints that the
board is unknown and returns no entry. -/
theorem board_match_coreboot_name_empty_vendor (part : String) (w : World) :
    (∀ b ∈ board_pciid_enables, b.lb_vendor = none ∨
      ∃ v, b.lb_vendor = some v ∧ v ≠ "" ∧ strcasecmp v "" ≠ 0) ∧
    board_match_coreboot_name (some "") part w =
      (Outcome.ret none,
       { w with trace := w.trace ++
          [Event.printf "\nUnknown vendor:board from coreboot table or -m option: %s:%s\n\n"
            [Arg.sp (some ""), Arg.s part]] }) := by
  constructor
  · intro b hb
    have hv := registry_no_empty_vendor b hb
    unfold vendor_matches at hv
    cases hl : b.lb_vendor with
    | none => exact Or.inl rfl
    | some v =>
      simp only [hl, decide_eq_false_iff_not] at hv
      refine Or.inr ⟨v, rfl, ?_, hv⟩
      intro he
      subst he
      exact hv (by decide)
  · apply loop_no_candidate
    rw [List.filter_eq_nil_iff]
    intro b hb
    have hv := registry_no_empty_vendor b hb
    simp [name_candidate, hv]

/-! ## The listing of the registries, `print_supported_boards` -/

theorem pad_count_eq (width : Nat) (s : String) (hw : width < 2 ^ 64)
    (h : strlen s ≤ width) : pad_count width s = width - strlen s := by
  unfold pad_count
  omega

theorem print_pad_apply (n : Nat) (w : World) :
    print_pad n w =
      (Outcome.ret (), { w with trace := w.trace ++ List.replicate n (Event.printf " " []) }) := by
  induction n generalizing w with
  | zero => simp [print_pad, pure_apply]
  | succ n ih =>
    simp only [print_pad, bind_apply, printf_apply, ih, List.replicate_succ,
      List.append_assoc, List.singleton_append]

theorem print_supported_boards_helper_apply (tbl : List board_info) (w : World)
    (h : ∀ b ∈ tbl, strlen b.vendor ≤ 25 ∧ strlen b.name ≤ 23) :
    print_supported_boards_helper tbl w =
      (Outcome.ret (), { w with trace := w.trace ++ (tbl.map info_line).flatten }) := by
  induction tbl generalizing w with
  | nil => simp [print_supported_boards_helper, pure_apply]
  | cons b rest ih =>
    obtain ⟨hv, hn⟩ := h b (List.mem_cons_self _ _)
    simp only [print_supported_boards_helper, bind_apply, printf_apply, print_pad_apply,
      pad_count_eq 25 b.vendor (by norm_num) hv, pad_count_eq 23 b.name (by norm_num) hn]
    rw [ih _ (fun b' hb' => h b' (List.mem_cons_of_mem _ hb'))]
    simp [info_line, column, List.append_assoc]

theorem print_supported_boards_loop_apply (tbl : List board_pciid_enable) (w : World)
    (h : ∀ b ∈ tbl, strlen b.vendor_name ≤ 25 ∧ strlen b.board_name ≤ 25) :
    print_supported_boards_loop tbl w =
      (Outcome.ret (), { w with trace := w.trace ++ (tbl.map enable_line).flatten }) := by
  induction tbl generalizing w with
  | nil => simp [print_supported_boards_loop, pure_apply]
  | cons b rest ih =>
    obtain ⟨hv, hn⟩ := h b (List.mem_cons_self _ _)
    simp only [print_supported_boards_loop, bind_apply, printf_apply, print_pad_apply,
      pad_count_eq 25 b.vendor_name (by norm_num) hv,
      pad_count_eq 25 b.board_name (by norm_num) hn]
    cases hl : b.lb_vendor.isSome <;>
    · simp only [Bool.false_eq_true, if_false, if_true, bind_apply, printf_apply]
      rw [ih _ (fun b' hb' => h b' (List.mem_cons_of_mem _ hb'))]
      simp [enable_line, column, List.append_assoc, hl]

theorem board_pciid_enables_names_fit :
    ∀ b ∈ board_pciid_enables, strlen b.vendor_name ≤ 25 ∧ strlen b.board_name ≤ 25 := by
  decide

theorem boards_ok_names_fit :
    ∀ b ∈ boards_ok, strlen b.vendor ≤ 25 ∧ strlen b.name ≤ 23 := by
  decide

theorem boards_bad_names_fit :
    ∀ b ∈ boards_bad, strlen b.vendor ≤ 25 ∧ strlen b.name ≤ 23 := by
  decide

theorem listing_apply (t1 : List board_pciid_enable) (t2 t3 : List board_info) (w : World)
    (h1 : ∀ b ∈ t1, strlen b.vendor_name ≤ 25 ∧ strlen b.board_name ≤ 25)
    (h2 : ∀ b ∈ t2, strlen b.vendor ≤ 25 ∧ strlen b.name ≤ 23)
    (h3 : ∀ b ∈ t3, strlen b.vendor ≤ 25 ∧ strlen b.name ≤ 23) :
    (do
      printf "\nSupported boards which need write-enable code:\n\nVendor:                  Board:                   Required option:\n\n" []
      print_supported_boards_loop t1
      printf "\nSupported boards which don\x27t need write-enable code:\n\n" []
      print_supported_boards_helper t2
      printf "\nBoards which have been verified to NOT work (yet):\n\n" []
      print_supported_boards_helper t3 : M Unit) w =
      (Outcome.ret (),
       { w with trace := w.trace ++
          [Event.printf "\nSupported boards which need write-enable code:\n\nVendor:                  Board:                   Required option:\n\n" []] ++
          (t1.map enable_line).flatten ++
          [Event.printf "\nSupported boards which don\x27t need write-enable code:\n\n" []] ++
          (t2.map info_line).flatten ++
          [Event.printf "\nBoards which have been verified to NOT work (yet):\n\n" []] ++
          (t3.map info_line).flatten }) := by
  simp only [bind_apply, printf_apply, print_supported_boards_loop_apply _ _ h1,
    print_supported_boards_helper_apply _ _ h2, print_supported_boards_helper_apply _ _ h3]

/-- C30: the padding of the listing never underflows.  In the shipped tables
every `vendor_name` and `board_name` of `board_pciid_enables` has at most 25
bytes and every `vendor` and `name` of `boards_ok` and `boards_bad` at most 25
and 23 bytes, so each unsigned loop bound `25 - strlen(..)` or
`23 - strlen(..)` is the number of bytes the string is short of its column,
string and padding together fill the column exactly, and
`print_supported_boards` prints, for every world, the three headings with one
line of exact columns per entry. -/
theorem print_supported_boards_pads_columns (w : World) :
    (∀ b ∈ board_pciid_enables, strlen b.vendor_name ≤ 25 ∧ strlen b.board_name ≤ 25) ∧
    (∀ b ∈ boards_ok, strlen b.vendor ≤ 25 ∧ strlen b.name ≤ 23) ∧
    (∀ b ∈ boards_bad, strlen b.vendor ≤ 25 ∧ strlen b.name ≤ 23) ∧
    (∀ b ∈ board_pciid_enables,
      strlen b.vendor_name + pad_count 25 b.vendor_name = 25 ∧
      strlen b.board_name + pad_count 25 b.board_name = 25) ∧
    (∀ b ∈ boards_ok ++ boards_bad,
      strlen b.vendor + pad_count 25 b.vendor = 25 ∧
      strlen b.name + pad_count 23 b.name = 23) ∧
    print_supported_boards w =
      (Outcome.ret (),
       { w with trace := w.trace ++
          [Event.printf "\nSupported boards which need write-enable code:\n\nVendor:                  Board:                   Required option:\n\n" []] ++
          (board_pciid_enables.map enable_line).flatten ++
          [Event.printf "\nSupported boards which don\x27t need write-enable code:\n\n" []] ++
          (boards_ok.map info_line).flatten ++
          [Event.printf "\nBoards which have been verified to NOT work (yet):\n\n" []] ++
          (boards_bad.map info_line).flatten }) := by
  refine ⟨board_pciid_enables_names_fit, boards_ok_names_fit, boards_bad_names_fit, ?_, ?_, ?_⟩
  · intro b hb
    obtain ⟨hv, hn⟩ := board_pciid_enables_names_fit b hb
    rw [pad_count_eq 25 _ (by norm_num) hv, pad_count_eq 25 _ (by norm_num) hn]
    omega
  · intro b hb
    have hfit : strlen b.vendor ≤ 25 ∧ strlen b.name ≤ 23 := by
      rcases List.mem_append.mp hb with h | h
      · exact boards_ok_names_fit b h
      · exact boards_bad_names_fit b h
    rw [pad_count_eq 25 _ (by norm_num) hfit.1, pad_count_eq 23 _ (by norm_num) hfit.2]
    omega
  · unfold print_supported_boards
    exact listing_apply board_pciid_enables boards_ok boards_bad w
      board_pciid_enables_names_fit boards_ok_names_fit boards_bad_names_fit

end Flashrom
